import Mathlib

/-!
# Pixel capture engine of the Windows runner (`windows/runner/flutter_window.cpp`)

A shallow embedding of the capture helpers of the anonymous namespace of
`flutter_window.cpp` and of the method-channel handlers that call them.

* C++ `int` / `LONG` values are `Int`s; a value read from the operating system or
  narrowed from a wider type is brought into the 32-bit range by `wrapInt32`.
* C++ `double` values are modelled exactly: the only doubles `ScaleToFit` builds are
  non-negative and far below `2^53`, so each is a dyadic rational `man / 2^sc`, and
  every division and multiplication is rounded to 53 significant bits, ties to even
  (IEEE-754 binary64, default rounding mode).
* Win32 calls are answered by an oracle `OS`; every call is appended to a trace and
  advances a call counter, so the n-th call can be answered independently of the others.
-/

namespace FlutterWindow

/-! ## Machine integers -/

/-- Two's-complement narrowing of an integer to a signed 32-bit `int`. -/
def wrapInt32 (x : Int) : Int := (x + 2 ^ 31) % 2 ^ 32 - 2 ^ 31

/-- Two's-complement narrowing of an integer to a signed 64-bit `int64_t`. -/
def wrapInt64 (x : Int) : Int := (x + 2 ^ 63) % 2 ^ 64 - 2 ^ 63

/-- Arithmetic of `size_t` on the 64-bit targets of the runner. -/
def wrapSize (n : Nat) : Nat := n % 2 ^ 64

/-! ## Binary64 arithmetic on non-negative values -/

/-- A non-negative finite `double`, the dyadic rational `man / 2 ^ sc`. -/
structure Double where
  man : Nat
  sc : Nat
deriving DecidableEq, Repr

namespace Double

/-- The rational value of a `Double`. -/
def toRat (x : Double) : ℚ := (x.man : ℚ) / 2 ^ x.sc

/-- Least shift `k` at or after the start with `2^52 * b ≤ a * 2^k`, searched for at most
`fuel` steps: the binary exponent that gives the quotient 53 significant bits. -/
def normShift (a b : Nat) : Nat → Nat → Nat
  | 0, k => k
  | fuel + 1, k => if 2 ^ 52 * b ≤ a * 2 ^ k then k else normShift a b fuel (k + 1)

/-- Round-to-nearest, ties-to-even, of the rational `a / b` (for `0 < b`, `a / b < 2^53`)
to a value with 53 significant bits. -/
def roundNearestEven (a b : Nat) : Double :=
  if a = 0 then ⟨0, 0⟩ else
  let k := normShift a b (2 ^ 52 * b + 1) 0
  let q := a * 2 ^ k / b
  let r := a * 2 ^ k % b
  if 2 * r < b then ⟨q, k⟩
  else if b < 2 * r then ⟨q + 1, k⟩
  else if q % 2 = 0 then ⟨q, k⟩ else ⟨q + 1, k⟩

/-- Conversion `static_cast<double>(n)` of a non-negative `int` (exact). -/
def ofInt (n : Int) : Double := ⟨n.toNat, 0⟩

/-- The constant `1.0`. -/
def one : Double := ⟨1, 0⟩

/-- Correctly rounded division `x / y`. -/
def div (x y : Double) : Double := roundNearestEven (x.man * 2 ^ y.sc) (y.man * 2 ^ x.sc)

/-- Correctly rounded multiplication `x * y`. -/
def mul (x y : Double) : Double := roundNearestEven (x.man * y.man) (2 ^ (x.sc + y.sc))

/-- Comparison `x < y`. -/
def lt (x y : Double) : Bool := decide (x.man * 2 ^ y.sc < y.man * 2 ^ x.sc)

/-- Conversion `static_cast<int>(x)`: truncation toward zero. -/
def toInt (x : Double) : Int := ((x.man / 2 ^ x.sc : Nat) : Int)

end Double

/-! ## Scale calculator -/

/-- The function `ScaleToFit(src_w, src_h, max_w, max_h, out_w, out_h)`; the result is
`(out_w, out_h)`. -/
def ScaleToFit (src_w src_h max_w max_h : Int) : Int × Int :=
  if src_w ≤ 0 ∨ src_h ≤ 0 then (0, 0) else
  let max_w := if max_w ≤ 0 then src_w else max_w
  let max_h := if max_h ≤ 0 then src_h else max_h
  let scale : Double :=
    if src_w > max_w ∨ src_h > max_h then
      let sx := Double.div (Double.ofInt max_w) (Double.ofInt src_w)
      let sy := Double.div (Double.ofInt max_h) (Double.ofInt src_h)
      if Double.lt sx sy then sx else sy
    else Double.one
  let out_w := Double.toInt (Double.mul (Double.ofInt src_w) scale)
  let out_h := Double.toInt (Double.mul (Double.ofInt src_h) scale)
  let out_w := if out_w < 1 then 1 else out_w
  let out_h := if out_h < 1 then 1 else out_h
  (out_w, out_h)

/-- The maximum that `ScaleToFit` really applies on an axis. -/
def effectiveMax (src max : Int) : Int := if max ≤ 0 then src else max

/-- The scale factor chosen by `ScaleToFit` when it has to shrink. -/
def fitScale (src_w src_h mw mh : Int) : Double :=
  if Double.lt (Double.div (Double.ofInt mw) (Double.ofInt src_w))
      (Double.div (Double.ofInt mh) (Double.ofInt src_h))
  then Double.div (Double.ofInt mw) (Double.ofInt src_w)
  else Double.div (Double.ofInt mh) (Double.ofInt src_h)

/-- The downscale rule in the words of the specification: the smaller of the two exact axis
ratios, each product floored and clamped to at least 1. -/
def scaleToFitExact (src_w src_h max_w max_h : Int) : Int × Int :=
  let mw : Int := if 0 < max_w then max_w else src_w
  let mh : Int := if 0 < max_h then max_h else src_h
  let s : ℚ := min ((mw : ℚ) / (src_w : ℚ)) ((mh : ℚ) / (src_h : ℚ))
  (max 1 ⌊(src_w : ℚ) * s⌋, max 1 ⌊(src_h : ℚ) * s⌋)

/-! ## Win32 model -/

/-- Window handle; `0` is the null handle. -/
abbrev HWND := Nat
/-- Bitmap (GDI object) handle; `0` is the null handle. -/
abbrev HBITMAP := Nat
/-- Device-context handle; `0` is the null handle. -/
abbrev HDC := Nat
/-- Result code of a compositor call; `SUCCEEDED(hr)` is `0 ≤ hr`. -/
abbrev HRESULT := Int
/-- Display-monitor handle; `0` is the null handle. -/
abbrev HMONITOR := Nat

/-- The `RECT` structure. -/
structure RECT where
  left : Int
  top : Int
  right : Int
  bottom : Int
deriving DecidableEq, Repr

/-- The part of `MONITORINFOEXW` the runner reads: the monitor rectangle, whether
`dwFlags` carries `MONITORINFOF_PRIMARY`, and the device name (already converted to UTF-8). -/
structure MonitorInfo where
  rcMonitor : RECT
  primary : Bool
  szDevice : String
deriving DecidableEq, Repr

/-- The `nCmdShow` values the runner passes to `ShowWindow` / `ShowWindowAsync`. -/
inductive ShowCmd
  | SW_SHOWNOACTIVATE
  | SW_MINIMIZE
  | SW_RESTORE
deriving DecidableEq, Repr

/-- The window attributes the runner sets through `DwmSetWindowAttribute`. -/
inductive DwmAttr
  | DWMWA_FORCE_ICONIC_REPRESENTATION
  | DWMWA_HAS_ICONIC_BITMAP
deriving DecidableEq, Repr

/-- The indices the runner passes to `GetSystemMetrics`. -/
inductive Metric
  | SM_XVIRTUALSCREEN
  | SM_YVIRTUALSCREEN
  | SM_CXVIRTUALSCREEN
  | SM_CYVIRTUALSCREEN
deriving DecidableEq, Repr

/-- One call of an operating-system primitive, with the handles it was given and, for the
calls that hand out a resource, the handle it returned. -/
inductive Event
  | GetWindowRect (hwnd : HWND)
  | IsIconic (hwnd : HWND)
  | IsWindow (hwnd : HWND)
  | IsChild (parent hwnd : HWND)
  | GetForegroundWindow (result : HWND)
  | DwmSetWindowAttribute (hwnd : HWND) (attr : DwmAttr)
  | DwmInvalidateIconicBitmaps (hwnd : HWND)
  | DwmGetIconicLivePreviewBitmap (hwnd : HWND) (result : HBITMAP)
  | DwmGetIconicThumbnail (hwnd : HWND) (w h : Nat) (result : HBITMAP)
  | DwmFlush
  | GetObject (hbmp : HBITMAP)
  | GetDC (hwnd : HWND) (result : HDC)
  | GetWindowDC (hwnd : HWND) (result : HDC)
  | ReleaseDC (hwnd : HWND) (dc : HDC)
  | CreateCompatibleDC (dc : HDC) (result : HDC)
  | DeleteDC (dc : HDC)
  | CreateDIBSection (dc : HDC) (w h : Int) (result : HBITMAP)
  | DeleteObject (obj : HBITMAP)
  | SelectObject (dc : HDC) (obj : HBITMAP)
  | GetDIBits (dc : HDC) (hbmp : HBITMAP)
  | PrintWindow (hwnd : HWND) (dc : HDC)
  | BitBlt (dst : HDC) (w h : Int) (src : HDC) (x y : Int)
  | SetStretchBltMode (dc : HDC)
  | StretchBlt (dst : HDC) (w h : Int) (src : HDC) (x y sw sh : Int)
  | GetSystemMetrics (index : Metric)
  | ShowWindowAsync (hwnd : HWND) (cmd : ShowCmd)
  | ShowWindow (hwnd : HWND) (cmd : ShowCmd)
  | SetForegroundWindow (hwnd : HWND)
  | RedrawWindow (hwnd : HWND)
  | Sleep (ms : Nat)
  | IsWindowVisible (hwnd : HWND)
  | GetWindow (hwnd : HWND)
  | GetWindowLong (hwnd : HWND)
  | GetWindowTextW (hwnd : HWND)
  | EnumWindows
  | EnumDisplayMonitors
  | GetMonitorInfoW (hmon : HMONITOR)
deriving DecidableEq, Repr

/-- The operating system as an oracle. The first argument of every field is the number of
primitive calls made so far, so successive calls of one primitive may answer differently. -/
structure OS where
  /-- Answer of `GetWindowRect`: `none` when the call fails. -/
  GetWindowRect : Nat → HWND → Option RECT
  IsIconic : Nat → HWND → Bool
  IsWindow : Nat → HWND → Bool
  IsChild : Nat → HWND → HWND → Bool
  GetForegroundWindow : Nat → HWND
  /-- Whether `ResolveDwmGetIconicLivePreviewBitmap()` found the entry point. -/
  hasLivePreview : Bool
  /-- Answer of `DwmGetIconicLivePreviewBitmap`: the result code and the bitmap handle left
  in `hbmp`. -/
  DwmGetIconicLivePreviewBitmap : Nat → HWND → HRESULT × HBITMAP
  /-- Whether `ResolveDwmGetIconicThumbnail()` found the entry point. -/
  hasThumbnail : Bool
  /-- Answer of `DwmGetIconicThumbnail`: the result code and the bitmap handle left in
  `hbmp`. -/
  DwmGetIconicThumbnail : Nat → HWND → Nat → Nat → HRESULT × HBITMAP
  /-- Answer of `GetObject` on a bitmap: `none` when it returns 0, else `bmWidth` and
  `bmHeight`. -/
  GetObject : Nat → HBITMAP → Option (Int × Int)
  GetDC : Nat → HWND → HDC
  GetWindowDC : Nat → HWND → HDC
  CreateCompatibleDC : Nat → HDC → HDC
  /-- Answer of `CreateDIBSection`: the bitmap handle and the address stored in `bits`
  (0 is null). -/
  CreateDIBSection : Nat → HDC → Int → Int → HBITMAP × Nat
  /-- Answer of `SelectObject`: the previously selected object. -/
  SelectObject : Nat → HDC → HBITMAP → HBITMAP
  /-- Answer of `GetDIBits`: the number of scan lines copied and the bytes left in the
  buffer. -/
  GetDIBits : Nat → HDC → HBITMAP → Nat → Int × (Nat → Nat)
  PrintWindow : Nat → HWND → HDC → Bool
  BitBlt : Nat → HDC → HDC → Bool
  StretchBlt : Nat → HDC → HDC → Bool
  GetSystemMetrics : Nat → Metric → Int
  /-- The byte at an offset of the pixel memory of a DIB section, at a given moment. -/
  dibMemory : Nat → Nat → Nat → Nat
  IsWindowVisible : Nat → HWND → Bool
  /-- Answer of `GetWindow(hwnd, GW_OWNER)`: the owner window (0 is none). -/
  GetWindowOwner : Nat → HWND → HWND
  /-- Whether `GetWindowLong(hwnd, GWL_EXSTYLE)` carries the bit `WS_EX_TOOLWINDOW`. -/
  hasToolWindowStyle : Nat → HWND → Bool
  /-- Answer of `GetWindowTextW`: the length it returns and the title it stores (already
  converted to UTF-8). -/
  GetWindowTextW : Nat → HWND → Int × String
  /-- The top-level windows `EnumWindows` passes to its callback, in order. -/
  EnumWindows : Nat → List HWND
  /-- The monitors `EnumDisplayMonitors` passes to its callback, in order. -/
  EnumDisplayMonitors : Nat → List HMONITOR
  /-- Answer of `GetMonitorInfoW`: `none` when the call fails. -/
  GetMonitorInfoW : Nat → HMONITOR → Option MonitorInfo

/-- The observable state threaded through the engine: how many primitive calls were made
and which ones, oldest first. -/
structure World where
  tick : Nat
  trace : List Event
deriving DecidableEq, Repr

/-- Record one primitive call. -/
def World.emit (w : World) (e : Event) : World := ⟨w.tick + 1, w.trace ++ [e]⟩

/-- The `std::vector<uint8_t>::resize(n)`: keep the first `n` bytes, pad with zeros. -/
def resize (v : List Nat) (n : Nat) : List Nat := v.take n ++ List.replicate (n - v.length) 0

/-- Overwrite a buffer of bytes in place from a byte source (`GetDIBits` writing through
`out.data()`); the length is untouched. -/
def overwrite (v : List Nat) (src : Nat → Nat) : List Nat :=
  (List.range v.length).map (fun i => src i % 256)

/-- The `out.resize(size); memcpy(out.data(), bits, size)` of the capture functions. -/
def copyFrom (size : Nat) (src : Nat → Nat) : List Nat :=
  (List.range size).map (fun i => src i % 256)

/-- The byte count `static_cast<size_t>(width) * static_cast<size_t>(height) * 4u`. -/
def bufferSize (width height : Int) : Nat :=
  wrapSize (wrapSize (width.toNat * height.toNat) * 4)

/-- The reference parameters `out`, `width`, `height` after a capture call, the value the
call returned and the world it left. -/
structure Capture where
  ok : Bool
  out : List Nat
  width : Int
  height : Int
  world : World
deriving DecidableEq, Repr

/-! ## Bitmap-to-buffer conversion -/

/-- The function `ReadHBitmapToBgra(hbmp, out, width, height)`. -/
def ReadHBitmapToBgra (os : OS) (hbmp : HBITMAP) (out : List Nat) (width height : Int)
    (w : World) : Capture :=
  if hbmp = 0 then ⟨false, out, width, height, w⟩ else
  let bm := os.GetObject w.tick hbmp
  let w := w.emit (.GetObject hbmp)
  match bm with
  | none => ⟨false, out, width, height, w⟩
  | some (bmWidth, bmHeight) =>
    let bmWidth := wrapInt32 bmWidth
    let bmHeight := wrapInt32 bmHeight
    if bmWidth ≤ 0 ∨ bmHeight ≤ 0 then ⟨false, out, width, height, w⟩ else
    let width := bmWidth
    let height := bmHeight
    let out := resize out (bufferSize width height)
    let dc := os.GetDC w.tick 0
    let w := w.emit (.GetDC 0 dc)
    if dc = 0 then ⟨false, out, width, height, w⟩ else
    let r := os.GetDIBits w.tick dc hbmp height.toNat
    let w := w.emit (.GetDIBits dc hbmp)
    let lines := wrapInt32 r.1
    let out := overwrite out r.2
    let w := w.emit (.ReleaseDC 0 dc)
    ⟨decide (lines = height), out, width, height, w⟩

/-- The function `ForceDwmIconicBitmaps(hwnd)`. -/
def ForceDwmIconicBitmaps (hwnd : HWND) (w : World) : World :=
  if hwnd = 0 then w else
  let w := w.emit (.DwmSetWindowAttribute hwnd .DWMWA_FORCE_ICONIC_REPRESENTATION)
  let w := w.emit (.DwmSetWindowAttribute hwnd .DWMWA_HAS_ICONIC_BITMAP)
  w.emit (.DwmInvalidateIconicBitmaps hwnd)

/-! ## Full-resolution window capture -/

/-- The locals `dwm_fallback_bytes`, `dwm_fallback_w`, `dwm_fallback_h`, `have_dwm_fallback`
of `CaptureWindowBgra`, with the world. -/
structure Fallback where
  dwm_fallback_bytes : List Nat
  dwm_fallback_w : Int
  dwm_fallback_h : Int
  have_dwm_fallback : Bool
  world : World
deriving DecidableEq, Repr

/-- The live-preview block of `CaptureWindowBgra` (lines 170-183). -/
def livePreviewStep (os : OS) (hwnd : HWND) (fb : Fallback) : Fallback :=
  if os.hasLivePreview then
    let r := os.DwmGetIconicLivePreviewBitmap fb.world.tick hwnd
    let hbmp := r.2
    let w := fb.world.emit (.DwmGetIconicLivePreviewBitmap hwnd hbmp)
    if 0 ≤ r.1 ∧ hbmp ≠ 0 then
      let c := ReadHBitmapToBgra os hbmp fb.dwm_fallback_bytes 0 0 w
      if c.ok then
        let w := c.world.emit (.DeleteObject hbmp)
        ⟨c.out, c.width, c.height, true, w.emit (.DeleteObject hbmp)⟩
      else
        ⟨c.out, fb.dwm_fallback_w, fb.dwm_fallback_h, fb.have_dwm_fallback,
          c.world.emit (.DeleteObject hbmp)⟩
    else { fb with world := w }
  else fb

/-- The thumbnail retry loop of `CaptureWindowBgra` (lines 189-207), by the number of
attempts left. -/
def thumbnailLoop (os : OS) (hwnd : HWND) (tw th : Nat) : Nat → Fallback → Fallback
  | 0, fb => fb
  | n + 1, fb =>
    let r := os.DwmGetIconicThumbnail fb.world.tick hwnd tw th
    let hbmp := r.2
    let w := fb.world.emit (.DwmGetIconicThumbnail hwnd tw th hbmp)
    if 0 ≤ r.1 ∧ hbmp ≠ 0 then
      let c := ReadHBitmapToBgra os hbmp fb.dwm_fallback_bytes 0 0 w
      if c.ok then
        ⟨c.out, c.width, c.height, true, c.world.emit (.DeleteObject hbmp)⟩
      else
        let w := c.world.emit (.DeleteObject hbmp)
        let w := w.emit (.Sleep 30)
        let w := ForceDwmIconicBitmaps hwnd w
        thumbnailLoop os hwnd tw th n
          ⟨c.out, fb.dwm_fallback_w, fb.dwm_fallback_h, fb.have_dwm_fallback, w⟩
    else
      let w := w.emit (.Sleep 30)
      let w := ForceDwmIconicBitmaps hwnd w
      thumbnailLoop os hwnd tw th n { fb with world := w }

/-- The compositor part of `CaptureWindowBgra` for a minimized window (lines 165-209). -/
def iconicFallbackChain (os : OS) (hwnd : HWND) (width height : Int) (w : World) : Fallback :=
  let w := ForceDwmIconicBitmaps hwnd w
  let fb := livePreviewStep os hwnd ⟨[], 0, 0, false, w⟩
  let tw := (if width > 0 then width else 1).toNat
  let th := (if height > 0 then height else 1).toNat
  if os.hasThumbnail then thumbnailLoop os hwnd tw th 3 fb else fb

/-- The render `PrintWindow(hwnd, dc, PW_RENDERFULLCONTENT)` with its `BitBlt` fallback
from the window's own device context (lines 261-269 and 392-399): the final `ok`. -/
def renderWindow (os : OS) (hwnd : HWND) (dc : HDC) (width height : Int) (w : World) :
    Bool × World :=
  let ok := os.PrintWindow w.tick hwnd dc
  let w := w.emit (.PrintWindow hwnd dc)
  if ok then (true, w) else
  let win_dc := os.GetWindowDC w.tick hwnd
  let w := w.emit (.GetWindowDC hwnd win_dc)
  if win_dc ≠ 0 then
    let ok := os.BitBlt w.tick dc win_dc
    let w := w.emit (.BitBlt dc width height win_dc 0 0)
    (ok, w.emit (.ReleaseDC hwnd win_dc))
  else (false, w)

/-- The restore of a minimized window before rendering (lines 215-230): the re-measured
`width` and `height` and the world. -/
def restoreFromIconic (os : OS) (hwnd : HWND) (width height : Int) (w : World) :
    Int × Int × World :=
  let w := w.emit (.ShowWindowAsync hwnd .SW_SHOWNOACTIVATE)
  let w := w.emit (.RedrawWindow hwnd)
  let w := w.emit .DwmFlush
  let w := w.emit (.Sleep 120)
  let rc2 := os.GetWindowRect w.tick hwnd
  let w := w.emit (.GetWindowRect hwnd)
  match rc2 with
  | none => (width, height, w)
  | some rc2 =>
    let w2 := wrapInt32 (rc2.right - rc2.left)
    let h2 := wrapInt32 (rc2.bottom - rc2.top)
    if w2 > 0 ∧ h2 > 0 then (w2, h2, w) else (width, height, w)

/-- The render part of `CaptureWindowBgra` (lines 233-295). -/
def renderCapture (os : OS) (hwnd : HWND) (restored_from_iconic : Bool) (fb : Fallback)
    (out : List Nat) (width height : Int) (w : World) : Capture :=
  let screen_dc := os.GetDC w.tick 0
  let w := w.emit (.GetDC 0 screen_dc)
  if screen_dc = 0 then ⟨false, out, width, height, w⟩ else
  let mem_dc := os.CreateCompatibleDC w.tick screen_dc
  let w := w.emit (.CreateCompatibleDC screen_dc mem_dc)
  if mem_dc = 0 then ⟨false, out, width, height, w.emit (.ReleaseDC 0 screen_dc)⟩ else
  let r := os.CreateDIBSection w.tick screen_dc width height
  let dib := r.1
  let bits := r.2
  let w := w.emit (.CreateDIBSection screen_dc width height dib)
  if dib = 0 ∨ bits = 0 then
    let w := if dib ≠ 0 then w.emit (.DeleteObject dib) else w
    let w := w.emit (.DeleteDC mem_dc)
    ⟨false, out, width, height, w.emit (.ReleaseDC 0 screen_dc)⟩
  else
  let old := os.SelectObject w.tick mem_dc dib
  let w := w.emit (.SelectObject mem_dc dib)
  let r := renderWindow os hwnd mem_dc width height w
  let w := r.2
  if r.1 = false then
    let w := w.emit (.SelectObject mem_dc old)
    let w := w.emit (.DeleteObject dib)
    let w := w.emit (.DeleteDC mem_dc)
    let w := w.emit (.ReleaseDC 0 screen_dc)
    let w := if restored_from_iconic then w.emit (.ShowWindowAsync hwnd .SW_MINIMIZE) else w
    if fb.have_dwm_fallback then
      ⟨true, fb.dwm_fallback_bytes, fb.dwm_fallback_w, fb.dwm_fallback_h, w⟩
    else ⟨false, out, width, height, w⟩
  else
  let out := copyFrom (bufferSize width height) (os.dibMemory w.tick bits)
  let w := w.emit (.SelectObject mem_dc old)
  let w := w.emit (.DeleteObject dib)
  let w := w.emit (.DeleteDC mem_dc)
  let w := w.emit (.ReleaseDC 0 screen_dc)
  let w := if restored_from_iconic then w.emit (.ShowWindowAsync hwnd .SW_MINIMIZE) else w
  ⟨true, out, width, height, w⟩

/-- The function `CaptureWindowBgra(hwnd, out, width, height)`. -/
def CaptureWindowBgra (os : OS) (hwnd : HWND) (out : List Nat) (width height : Int)
    (w : World) : Capture :=
  let rc := os.GetWindowRect w.tick hwnd
  let w := w.emit (.GetWindowRect hwnd)
  match rc with
  | none => ⟨false, out, width, height, w⟩
  | some rc =>
    let width := wrapInt32 (rc.right - rc.left)
    let height := wrapInt32 (rc.bottom - rc.top)
    if width ≤ 0 ∨ height ≤ 0 then ⟨false, out, width, height, w⟩ else
    let was_iconic := os.IsIconic w.tick hwnd
    let w := w.emit (.IsIconic hwnd)
    if was_iconic then
      let fb := iconicFallbackChain os hwnd width height w
      let m := restoreFromIconic os hwnd width height fb.world
      renderCapture os hwnd true fb out m.1 m.2.1 m.2.2
    else
      renderCapture os hwnd false ⟨[], 0, 0, false, w⟩ out width height w

/-! ## Scaled (thumbnail) window capture -/

/-- The thumbnail retry loop of `CaptureWindowBgraScaled` (lines 317-332), by the number of
attempts left; `ok = false` stands for leaving the loop without a bitmap. -/
def scaledThumbnailLoop (os : OS) (hwnd : HWND) (tw th : Nat) : Nat → Capture → Capture
  | 0, c => { c with ok := false }
  | n + 1, c =>
    let r := os.DwmGetIconicThumbnail c.world.tick hwnd tw th
    let hbmp := r.2
    let w := c.world.emit (.DwmGetIconicThumbnail hwnd tw th hbmp)
    if 0 ≤ r.1 ∧ hbmp ≠ 0 then
      let b := ReadHBitmapToBgra os hbmp c.out 0 0 w
      if b.ok then
        ⟨true, b.out, b.width, b.height, b.world.emit (.DeleteObject hbmp)⟩
      else
        let w := b.world.emit (.DeleteObject hbmp)
        let w := w.emit (.Sleep 30)
        let w := ForceDwmIconicBitmaps hwnd w
        scaledThumbnailLoop os hwnd tw th n ⟨false, b.out, c.width, c.height, w⟩
    else
      let w := w.emit (.Sleep 30)
      let w := ForceDwmIconicBitmaps hwnd w
      scaledThumbnailLoop os hwnd tw th n { c with world := w }

/-- The release sequence that ends every path of `CaptureWindowBgraScaled` after both
bitmaps were selected (lines 402-408, 417-423, 431-437). -/
def releaseScaled (mem_full mem_thumb : HDC) (old_full old_thumb dib_full dib_thumb : HBITMAP)
    (screen_dc : HDC) (w : World) : World :=
  let w := w.emit (.SelectObject mem_full old_full)
  let w := w.emit (.SelectObject mem_thumb old_thumb)
  let w := w.emit (.DeleteObject dib_full)
  let w := w.emit (.DeleteObject dib_thumb)
  let w := w.emit (.DeleteDC mem_full)
  let w := w.emit (.DeleteDC mem_thumb)
  w.emit (.ReleaseDC 0 screen_dc)

/-- The part of `CaptureWindowBgraScaled` for a window that is not minimized
(lines 338-438). -/
def renderScaled (os : OS) (hwnd : HWND) (src_w src_h : Int) (out : List Nat)
    (width height : Int) (w : World) : Capture :=
  let screen_dc := os.GetDC w.tick 0
  let w := w.emit (.GetDC 0 screen_dc)
  if screen_dc = 0 then ⟨false, out, width, height, w⟩ else
  let mem_full := os.CreateCompatibleDC w.tick screen_dc
  let w := w.emit (.CreateCompatibleDC screen_dc mem_full)
  let mem_thumb := os.CreateCompatibleDC w.tick screen_dc
  let w := w.emit (.CreateCompatibleDC screen_dc mem_thumb)
  if mem_full = 0 ∨ mem_thumb = 0 then
    let w := if mem_full ≠ 0 then w.emit (.DeleteDC mem_full) else w
    let w := if mem_thumb ≠ 0 then w.emit (.DeleteDC mem_thumb) else w
    ⟨false, out, width, height, w.emit (.ReleaseDC 0 screen_dc)⟩
  else
  let rf := os.CreateDIBSection w.tick screen_dc src_w src_h
  let dib_full := rf.1
  let bits_full := rf.2
  let w := w.emit (.CreateDIBSection screen_dc src_w src_h dib_full)
  if dib_full = 0 ∨ bits_full = 0 then
    let w := if dib_full ≠ 0 then w.emit (.DeleteObject dib_full) else w
    let w := w.emit (.DeleteDC mem_full)
    let w := w.emit (.DeleteDC mem_thumb)
    ⟨false, out, width, height, w.emit (.ReleaseDC 0 screen_dc)⟩
  else
  let rt := os.CreateDIBSection w.tick screen_dc width height
  let dib_thumb := rt.1
  let bits_thumb := rt.2
  let w := w.emit (.CreateDIBSection screen_dc width height dib_thumb)
  if dib_thumb = 0 ∨ bits_thumb = 0 then
    let w := if dib_thumb ≠ 0 then w.emit (.DeleteObject dib_thumb) else w
    let w := w.emit (.DeleteObject dib_full)
    let w := w.emit (.DeleteDC mem_full)
    let w := w.emit (.DeleteDC mem_thumb)
    ⟨false, out, width, height, w.emit (.ReleaseDC 0 screen_dc)⟩
  else
  let old_full := os.SelectObject w.tick mem_full dib_full
  let w := w.emit (.SelectObject mem_full dib_full)
  let old_thumb := os.SelectObject w.tick mem_thumb dib_thumb
  let w := w.emit (.SelectObject mem_thumb dib_thumb)
  let r := renderWindow os hwnd mem_full src_w src_h w
  let w := r.2
  if r.1 = false then
    ⟨false, out, width, height,
      releaseScaled mem_full mem_thumb old_full old_thumb dib_full dib_thumb screen_dc w⟩
  else
  let w := w.emit (.SetStretchBltMode mem_thumb)
  let ok_thumb := os.StretchBlt w.tick mem_thumb mem_full
  let w := w.emit (.StretchBlt mem_thumb width height mem_full 0 0 src_w src_h)
  if ok_thumb = false then
    ⟨false, out, width, height,
      releaseScaled mem_full mem_thumb old_full old_thumb dib_full dib_thumb screen_dc w⟩
  else
  let out := copyFrom (bufferSize width height) (os.dibMemory w.tick bits_thumb)
  ⟨true, out, width, height,
    releaseScaled mem_full mem_thumb old_full old_thumb dib_full dib_thumb screen_dc w⟩

/-- The function `CaptureWindowBgraScaled(hwnd, target_w, target_h, out, width, height)`. -/
def CaptureWindowBgraScaled (os : OS) (hwnd : HWND) (target_w target_h : Int)
    (out : List Nat) (width height : Int) (w : World) : Capture :=
  let rc := os.GetWindowRect w.tick hwnd
  let w := w.emit (.GetWindowRect hwnd)
  match rc with
  | none => ⟨false, out, width, height, w⟩
  | some rc =>
    let src_w := wrapInt32 (rc.right - rc.left)
    let src_h := wrapInt32 (rc.bottom - rc.top)
    if src_w ≤ 0 ∨ src_h ≤ 0 then ⟨false, out, width, height, w⟩ else
    let width := if target_w > 0 then target_w else src_w
    let height := if target_h > 0 then target_h else src_h
    if width ≤ 0 ∨ height ≤ 0 then ⟨false, out, width, height, w⟩ else
    let iconic := os.IsIconic w.tick hwnd
    let w := w.emit (.IsIconic hwnd)
    if iconic then
      let w := ForceDwmIconicBitmaps hwnd w
      if os.hasThumbnail then
        scaledThumbnailLoop os hwnd width.toNat height.toNat 3 ⟨false, out, width, height, w⟩
      else ⟨false, out, width, height, w⟩
    else renderScaled os hwnd src_w src_h out width height w

/-! ## Region, monitor and screen capture -/

/-- The function `CaptureRectBgra(x, y, src_w, src_h, out, width, height)`. -/
def CaptureRectBgra (os : OS) (x y src_w src_h : Int) (out : List Nat) (w : World) : Capture :=
  let width := src_w
  let height := src_h
  if width ≤ 0 ∨ height ≤ 0 then ⟨false, out, width, height, w⟩ else
  let screen_dc := os.GetDC w.tick 0
  let w := w.emit (.GetDC 0 screen_dc)
  if screen_dc = 0 then ⟨false, out, width, height, w⟩ else
  let mem_dc := os.CreateCompatibleDC w.tick screen_dc
  let w := w.emit (.CreateCompatibleDC screen_dc mem_dc)
  if mem_dc = 0 then ⟨false, out, width, height, w.emit (.ReleaseDC 0 screen_dc)⟩ else
  let r := os.CreateDIBSection w.tick screen_dc width height
  let dib := r.1
  let bits := r.2
  let w := w.emit (.CreateDIBSection screen_dc width height dib)
  if dib = 0 ∨ bits = 0 then
    let w := if dib ≠ 0 then w.emit (.DeleteObject dib) else w
    let w := w.emit (.DeleteDC mem_dc)
    ⟨false, out, width, height, w.emit (.ReleaseDC 0 screen_dc)⟩
  else
  let old := os.SelectObject w.tick mem_dc dib
  let w := w.emit (.SelectObject mem_dc dib)
  let ok := os.BitBlt w.tick mem_dc screen_dc
  let w := w.emit (.BitBlt mem_dc width height screen_dc x y)
  if ok = false then
    let w := w.emit (.SelectObject mem_dc old)
    let w := w.emit (.DeleteObject dib)
    let w := w.emit (.DeleteDC mem_dc)
    ⟨false, out, width, height, w.emit (.ReleaseDC 0 screen_dc)⟩
  else
  let out := copyFrom (bufferSize width height) (os.dibMemory w.tick bits)
  let w := w.emit (.SelectObject mem_dc old)
  let w := w.emit (.DeleteObject dib)
  let w := w.emit (.DeleteDC mem_dc)
  ⟨true, out, width, height, w.emit (.ReleaseDC 0 screen_dc)⟩

/-- The function `CaptureRectBgraScaled(x, y, src_w, src_h, max_w, max_h, out, width,
height)`. -/
def CaptureRectBgraScaled (os : OS) (x y src_w src_h max_w max_h : Int) (out : List Nat)
    (w : World) : Capture :=
  let t := ScaleToFit src_w src_h max_w max_h
  let width := t.1
  let height := t.2
  if width ≤ 0 ∨ height ≤ 0 then ⟨false, out, width, height, w⟩ else
  let screen_dc := os.GetDC w.tick 0
  let w := w.emit (.GetDC 0 screen_dc)
  if screen_dc = 0 then ⟨false, out, width, height, w⟩ else
  let mem_dc := os.CreateCompatibleDC w.tick screen_dc
  let w := w.emit (.CreateCompatibleDC screen_dc mem_dc)
  if mem_dc = 0 then ⟨false, out, width, height, w.emit (.ReleaseDC 0 screen_dc)⟩ else
  let r := os.CreateDIBSection w.tick screen_dc width height
  let dib := r.1
  let bits := r.2
  let w := w.emit (.CreateDIBSection screen_dc width height dib)
  if dib = 0 ∨ bits = 0 then
    let w := if dib ≠ 0 then w.emit (.DeleteObject dib) else w
    let w := w.emit (.DeleteDC mem_dc)
    ⟨false, out, width, height, w.emit (.ReleaseDC 0 screen_dc)⟩
  else
  let old := os.SelectObject w.tick mem_dc dib
  let w := w.emit (.SelectObject mem_dc dib)
  let w := w.emit (.SetStretchBltMode mem_dc)
  let ok := os.StretchBlt w.tick mem_dc screen_dc
  let w := w.emit (.StretchBlt mem_dc width height screen_dc x y src_w src_h)
  if ok = false then
    let w := w.emit (.SelectObject mem_dc old)
    let w := w.emit (.DeleteObject dib)
    let w := w.emit (.DeleteDC mem_dc)
    ⟨false, out, width, height, w.emit (.ReleaseDC 0 screen_dc)⟩
  else
  let out := copyFrom (bufferSize width height) (os.dibMemory w.tick bits)
  let w := w.emit (.SelectObject mem_dc old)
  let w := w.emit (.DeleteObject dib)
  let w := w.emit (.DeleteDC mem_dc)
  ⟨true, out, width, height, w.emit (.ReleaseDC 0 screen_dc)⟩

/-- The function `CaptureScreenBgra(out, width, height)`. -/
def CaptureScreenBgra (os : OS) (out : List Nat) (w : World) : Capture :=
  let x := wrapInt32 (os.GetSystemMetrics w.tick .SM_XVIRTUALSCREEN)
  let w := w.emit (.GetSystemMetrics .SM_XVIRTUALSCREEN)
  let y := wrapInt32 (os.GetSystemMetrics w.tick .SM_YVIRTUALSCREEN)
  let w := w.emit (.GetSystemMetrics .SM_YVIRTUALSCREEN)
  let width := wrapInt32 (os.GetSystemMetrics w.tick .SM_CXVIRTUALSCREEN)
  let w := w.emit (.GetSystemMetrics .SM_CXVIRTUALSCREEN)
  let height := wrapInt32 (os.GetSystemMetrics w.tick .SM_CYVIRTUALSCREEN)
  let w := w.emit (.GetSystemMetrics .SM_CYVIRTUALSCREEN)
  if width ≤ 0 ∨ height ≤ 0 then ⟨false, out, width, height, w⟩ else
  CaptureRectBgra os x y width height out w

/-! ## Method-channel handlers -/

/-- A value stored in the argument map of a method call, as far as the handlers inspect it:
a 32-bit integer, a 64-bit integer, or anything else. -/
inductive Scalar
  | int32 (v : Int)
  | int64 (v : Int)
  | other
deriving DecidableEq, Repr

/-- The `call.arguments()` of a method call: absent, a bare integer, a map, or anything else. -/
inductive Arguments
  | absent
  | int32 (v : Int)
  | int64 (v : Int)
  | map (entries : List (String × Scalar))
  | other
deriving DecidableEq, Repr

/-- One entry of the list returned by `listShareableWindows`: the map with `hwnd`, `title`
and `isMinimized`. -/
structure WindowDescriptor where
  hwnd : HWND
  title : String
  isMinimized : Bool
deriving DecidableEq, Repr

/-- One entry of the list returned by `listMonitors`: the map with `id`, `index`, `width`,
`height`, `isPrimary` and `device`. -/
structure MonitorDescriptor where
  id : HMONITOR
  index : Int
  width : Int
  height : Int
  isPrimary : Bool
  device : String
deriving DecidableEq, Repr

/-- What a handler hands to `result`: an error code with its message, the map with
`width`, `height` and `bytes`, or the list of an enumeration. -/
inductive MethodResult
  | Error (code message : String)
  | Success (width height : Int) (bytes : List Nat)
  | WindowList (windows : List WindowDescriptor)
  | MonitorList (monitors : List MonitorDescriptor)
deriving DecidableEq, Repr

/-- The integer stored under a key of the argument map, if the key is present with an
`int32_t` or `int64_t` value. -/
def argInt (entries : List (String × Scalar)) (key : String) : Option Int :=
  match entries.lookup key with
  | some (.int32 v) => some v
  | some (.int64 v) => some v
  | _ => none

/-- The handle `reinterpret_cast<HWND>(static_cast<intptr_t>(hwnd_val))`. -/
def toHandle (v : Int) : Nat := (v % 2 ^ 64).toNat

/-- The test `self && (target == self || IsChild(self, target))` with its short-circuit
evaluation. -/
def isSelfOrChild (os : OS) (self target : HWND) (w : World) : Bool × World :=
  if self = 0 then (false, w)
  else if target = self then (true, w)
  else (os.IsChild w.tick self target, w.emit (.IsChild self target))

/-- The body of the `captureWindowThumbnailPixels` handler once `hwnd_val`, `max_w` and
`max_h` are decoded (lines 814-850); `self` is `GetHandle()`. -/
def captureWindowThumbnail (os : OS) (self : HWND) (hwnd_val max_w max_h : Int) (w : World) :
    MethodResult × World :=
  if hwnd_val = 0 then (.Error "BAD_ARGS" "Missing hwnd", w) else
  let target := toHandle hwnd_val
  let exists_ := os.IsWindow w.tick target
  let w := w.emit (.IsWindow target)
  if exists_ = false then (.Error "NO_WINDOW" "Window no longer exists", w) else
  let s := isSelfOrChild os self target w
  let w := s.2
  if s.1 then (.Error "BAD_TARGET" "Cannot capture this app window", w) else
  let rc := os.GetWindowRect w.tick target
  let w := w.emit (.GetWindowRect target)
  match rc with
  | none => (.Error "CAPTURE_FAILED" "Failed to get window rect.", w)
  | some rc =>
    let src_w := wrapInt32 (rc.right - rc.left)
    let src_h := wrapInt32 (rc.bottom - rc.top)
    let t := ScaleToFit src_w src_h max_w max_h
    let c := CaptureWindowBgraScaled os target t.1 t.2 [] 0 0 w
    if c.ok = false then
      (.Error "CAPTURE_FAILED" "Failed to capture window thumbnail.", c.world)
    else (.Success c.width c.height c.out, c.world)

/-- The handler of `captureWindowThumbnailPixels` (lines 792-850): the decoding of the
arguments (lines 793-813), then the body. -/
def captureWindowThumbnailPixels (os : OS) (self : HWND) (args : Arguments) (w : World) :
    MethodResult × World :=
  let hwnd_val : Int :=
    match args with
    | .map m => match argInt m "hwnd" with
      | some v => wrapInt64 v
      | none => 0
    | _ => 0
  let max_w : Int :=
    match args with
    | .map m => match argInt m "maxWidth" with
      | some v => wrapInt32 v
      | none => 320
    | _ => 320
  let max_h : Int :=
    match args with
    | .map m => match argInt m "maxHeight" with
      | some v => wrapInt32 v
      | none => 200
    | _ => 200
  captureWindowThumbnail os self hwnd_val max_w max_h w

/-- The decoding of `hwnd_val` in `captureWindowPixels` (lines 751-765): a bare integer, or
the integer under `hwnd` of a map; 0 otherwise. -/
def decodeHwnd (args : Arguments) : Int :=
  match args with
  | .int64 v => wrapInt64 v
  | .int32 v => wrapInt64 v
  | .map m =>
    match argInt m "hwnd" with
    | some v => wrapInt64 v
    | none => 0
  | _ => 0

/-- The decoding of an identifier stored under a key of the argument map (lines 957-965,
993-1002): 0 unless the arguments are a map holding an integer under the key. -/
def decodeId (args : Arguments) (key : String) : Int :=
  match args with
  | .map m =>
    match argInt m key with
    | some v => wrapInt64 v
    | none => 0
  | _ => 0

/-- The decoding of `maxWidth` / `maxHeight` (lines 803-812, 887-896, 1003-1012): the
default unless the arguments are a map holding an integer under the key. -/
def decodeMax (args : Arguments) (key : String) (dflt : Int) : Int :=
  match args with
  | .map m =>
    match argInt m key with
    | some v => wrapInt32 v
    | none => dflt
  | _ => dflt

/-- The body of the `captureWindowPixels` handler once `hwnd_val` is decoded
(lines 766-791); `self` is `GetHandle()`. -/
def captureWindow (os : OS) (self : HWND) (hwnd_val : Int) (w : World) :
    MethodResult × World :=
  if hwnd_val = 0 then (.Error "BAD_ARGS" "Missing hwnd", w) else
  let target := toHandle hwnd_val
  let exists_ := os.IsWindow w.tick target
  let w := w.emit (.IsWindow target)
  if exists_ = false then (.Error "NO_WINDOW" "Window no longer exists", w) else
  let s := isSelfOrChild os self target w
  let w := s.2
  if s.1 then (.Error "BAD_TARGET" "Cannot capture this app window", w) else
  let c := CaptureWindowBgra os target [] 0 0 w
  if c.ok = false then (.Error "CAPTURE_FAILED" "Failed to capture window.", c.world)
  else (.Success c.width c.height c.out, c.world)

/-- The handler of `captureWindowPixels` (lines 749-791). -/
def captureWindowPixels (os : OS) (self : HWND) (args : Arguments) (w : World) :
    MethodResult × World :=
  captureWindow os self (decodeHwnd args) w

/-- The body of the `captureMonitorPixels` handler once `id` is decoded (lines 966-991). -/
def captureMonitor (os : OS) (id : Int) (w : World) : MethodResult × World :=
  if id = 0 then (.Error "BAD_ARGS" "Missing monitorId", w) else
  let target := toHandle id
  let mi := os.GetMonitorInfoW w.tick target
  let w := w.emit (.GetMonitorInfoW target)
  match mi with
  | none => (.Error "NO_MONITOR" "Monitor not found", w)
  | some mi =>
    let r := mi.rcMonitor
    let sw := wrapInt32 (r.right - r.left)
    let sh := wrapInt32 (r.bottom - r.top)
    let c := CaptureRectBgra os r.left r.top sw sh [] w
    if c.ok = false then (.Error "CAPTURE_FAILED" "Failed to capture monitor.", c.world)
    else (.Success c.width c.height c.out, c.world)

/-- The handler of `captureMonitorPixels` (lines 956-991). -/
def captureMonitorPixels (os : OS) (args : Arguments) (w : World) : MethodResult × World :=
  captureMonitor os (decodeId args "monitorId") w

/-- The body of the `captureMonitorThumbnailPixels` handler once `id`, `max_w` and `max_h`
are decoded (lines 1014-1039). -/
def captureMonitorThumbnail (os : OS) (id max_w max_h : Int) (w : World) :
    MethodResult × World :=
  if id = 0 then (.Error "BAD_ARGS" "Missing monitorId", w) else
  let target := toHandle id
  let mi := os.GetMonitorInfoW w.tick target
  let w := w.emit (.GetMonitorInfoW target)
  match mi with
  | none => (.Error "NO_MONITOR" "Monitor not found", w)
  | some mi =>
    let r := mi.rcMonitor
    let sw := wrapInt32 (r.right - r.left)
    let sh := wrapInt32 (r.bottom - r.top)
    let c := CaptureRectBgraScaled os r.left r.top sw sh max_w max_h [] w
    if c.ok = false then
      (.Error "CAPTURE_FAILED" "Failed to capture monitor thumbnail.", c.world)
    else (.Success c.width c.height c.out, c.world)

/-- The handler of `captureMonitorThumbnailPixels` (lines 992-1039). -/
def captureMonitorThumbnailPixels (os : OS) (args : Arguments) (w : World) :
    MethodResult × World :=
  captureMonitorThumbnail os (decodeId args "monitorId") (decodeMax args "maxWidth" 320)
    (decodeMax args "maxHeight" 200) w

/-! ## Enumeration of windows and monitors -/

/-- The `MonCtx` of the `listMonitors` handler, with the world. -/
structure MonCtx where
  index : Int
  out : List MonitorDescriptor
  world : World
deriving DecidableEq, Repr

/-- The callback passed to `EnumDisplayMonitors` (lines 929-953). The counter `index` is
an `int` that counts listed displays; it is not narrowed here. -/
def monitorEnumCallback (os : OS) (ctx : MonCtx) (hmon : HMONITOR) : MonCtx :=
  let mi := os.GetMonitorInfoW ctx.world.tick hmon
  let w := ctx.world.emit (.GetMonitorInfoW hmon)
  match mi with
  | none => { ctx with world := w }
  | some mi =>
    let r := mi.rcMonitor
    let width := wrapInt32 (r.right - r.left)
    let height := wrapInt32 (r.bottom - r.top)
    if width ≤ 0 ∨ height ≤ 0 then { ctx with world := w } else
    let index := ctx.index + 1
    ⟨index, ctx.out ++ [⟨hmon, index, width, height, mi.primary, mi.szDevice⟩], w⟩

/-- The handler of `listMonitors` (lines 920-955). -/
def listMonitors (os : OS) (w : World) : MethodResult × World :=
  let monitors := os.EnumDisplayMonitors w.tick
  let w := w.emit .EnumDisplayMonitors
  let ctx := monitors.foldl (monitorEnumCallback os) ⟨0, [], w⟩
  (.MonitorList ctx.out, ctx.world)

/-! ## Capture around self-occlusion -/

/-- The wait for another window to become foreground (lines 683-687), by the number of
iterations left: the last `fg` and the world. -/
def waitForForeground (os : OS) (self : HWND) : Nat → HWND → World → HWND × World
  | 0, fg, w => (fg, w)
  | n + 1, _, w =>
    let fg := os.GetForegroundWindow w.tick
    let w := w.emit (.GetForegroundWindow fg)
    if fg ≠ 0 ∧ fg ≠ self then
      let child := os.IsChild w.tick self fg
      let w := w.emit (.IsChild self fg)
      if child = false then (fg, w)
      else waitForForeground os self n fg (w.emit (.Sleep 50))
    else waitForForeground os self n fg (w.emit (.Sleep 50))

/-- The block `if (minimized_self && self) { ShowWindow(self, SW_RESTORE);
SetForegroundWindow(self); }`. -/
def restoreSelf (self : HWND) (minimized_self : Bool) (w : World) : World :=
  if minimized_self = true ∧ self ≠ 0 then
    (w.emit (.ShowWindow self .SW_RESTORE)).emit (.SetForegroundWindow self)
  else w

/-- The handler of `captureActiveWindowPixels` (lines 673-717); `self` is `GetHandle()`. -/
def captureActiveWindowPixels (os : OS) (self : HWND) (w : World) : MethodResult × World :=
  let fg := os.GetForegroundWindow w.tick
  let w := w.emit (.GetForegroundWindow fg)
  let s := isSelfOrChild os self fg w
  let minimized_self := s.1
  let r : HWND × World :=
    if minimized_self then
      let w := s.2.emit (.ShowWindow self .SW_MINIMIZE)
      let w := w.emit (.Sleep 120)
      waitForForeground os self 10 fg w
    else (fg, s.2)
  let fg := r.1
  let blocked : Bool × World := if fg = 0 then (true, r.2) else isSelfOrChild os self fg r.2
  if blocked.1 then
    (.Error "NO_TARGET" "No active window to capture (focus another window and try again).",
      restoreSelf self minimized_self blocked.2)
  else
    let c := CaptureWindowBgra os fg [] 0 0 blocked.2
    let w := restoreSelf self minimized_self c.world
    if c.ok = false then (.Error "CAPTURE_FAILED" "Failed to capture active window.", w)
    else (.Success c.width c.height c.out, w)

/-- The handler of `captureScreenPixels` (lines 851-881); `self` is `GetHandle()`. -/
def captureScreenPixels (os : OS) (self : HWND) (w : World) : MethodResult × World :=
  let fg := os.GetForegroundWindow w.tick
  let w := w.emit (.GetForegroundWindow fg)
  let s := isSelfOrChild os self fg w
  let minimized_self := s.1
  let w :=
    if minimized_self then (s.2.emit (.ShowWindow self .SW_MINIMIZE)).emit (.Sleep 120)
    else s.2
  let c := CaptureScreenBgra os [] w
  let w := restoreSelf self minimized_self c.world
  if c.ok = false then (.Error "CAPTURE_FAILED" "Failed to capture screen.", w)
  else (.Success c.width c.height c.out, w)

/-! ## Properties stated about captures -/

/-- The `PixelBuffer` invariant: positive dimensions and exactly `width * height * 4` bytes. -/
def Capture.wellFormed (c : Capture) : Prop :=
  0 < c.width ∧ 0 < c.height ∧ (c.out.length : Int) = c.width * c.height * 4

instance (c : Capture) : Decidable c.wellFormed := by
  unfold Capture.wellFormed
  infer_instance

/-- The world in which no primitive has been called yet. -/
def World.init : World := ⟨0, []⟩

/-- The maximum a thumbnail request asks for under a key: the integer stored there, or the
default when the arguments are not a map or hold no integer under the key. -/
def requestedMax (args : Arguments) (key : String) (dflt : Int) : Int :=
  match args with
  | .map m => (argInt m key).getD dflt
  | _ => dflt

/-! ## Properties stated about the scale calculator, traces and enumerations -/

/-- The aspect-ratio property of an output `(out_w, out_h)` for a source `src_w x src_h`:
`|out_w * src_h - out_h * src_w| < max(src_w, src_h)`. -/
def aspectPreserved (src_w src_h : Int) (out : Int × Int) : Prop :=
  |out.1 * src_h - out.2 * src_w| < max src_w src_h

instance (src_w src_h : Int) (out : Int × Int) :
    Decidable (aspectPreserved src_w src_h out) := by
  unfold aspectPreserved
  infer_instance

/-- Requests that change the show state or the activation of a window: `ShowWindowAsync`,
`ShowWindow` and `SetForegroundWindow`. -/
def Event.isShowRequest : Event → Bool
  | .ShowWindowAsync _ _ => true
  | .ShowWindow _ _ => true
  | .SetForegroundWindow _ => true
  | _ => false

/-- Requests the handlers issue to the caller's own window: `ShowWindow` and
`SetForegroundWindow` (the capture engine itself only uses `ShowWindowAsync`). -/
def Event.isSelfRequest : Event → Bool
  | .ShowWindow _ _ => true
  | .SetForegroundWindow _ => true
  | _ => false

/-- The predicate that excludes no event. -/
def Event.none (_ : Event) : Bool := false

/-- The world `w'` continues `w`: its trace is the trace of `w` followed by further
events, none of which satisfies `p`. -/
def World.extendsWithout (p : Event → Bool) (w w' : World) : Prop :=
  ∃ l, w'.trace = w.trace ++ l ∧ ∀ e ∈ l, p e = false

/-- What the handlers that capture around self-occlusion leave in the trace: if they
minimized the caller's window, the last two requests are its restore and its
re-foregrounding, issued after the minimize; if they did not, they issued no `ShowWindow`
and no `SetForegroundWindow` at all. -/
def selfRestored (self : HWND) (w w' : World) : Prop :=
  ∃ l, w'.trace = w.trace ++ l ∧
    (Event.ShowWindow self .SW_MINIMIZE ∈ l →
      ∃ pre, l = pre ++ [Event.ShowWindow self .SW_RESTORE, Event.SetForegroundWindow self] ∧
        Event.ShowWindow self .SW_MINIMIZE ∈ pre) ∧
    (Event.ShowWindow self .SW_MINIMIZE ∉ l → ∀ e ∈ l, e.isSelfRequest = false)

/-- The state of the trace just before `restoreSelf`. -/
def beforeRestore (self : HWND) (minimized_self : Bool) (w w' : World) : Prop :=
  ∃ l, w'.trace = w.trace ++ l ∧
    (minimized_self = true → Event.ShowWindow self .SW_MINIMIZE ∈ l ∧ self ≠ 0) ∧
    (minimized_self = false → ∀ e ∈ l, e.isSelfRequest = false)

/-- The invariant of the monitor enumeration: the counter equals the number of entries,
the entries are numbered 1, 2, ... in order, and each has positive bounds. -/
def MonCtx.numbered (ctx : MonCtx) : Prop :=
  ctx.index = ctx.out.length ∧
  ctx.out.map (fun m => m.index) =
    (List.range ctx.out.length).map (fun (k : Nat) => (k : Int) + 1) ∧
  ∀ m ∈ ctx.out, 0 < m.width ∧ 0 < m.height

/-- An operating-system drawing resource a capture call can hold. -/
inductive Resource
  | windowDC (hwnd : HWND) (dc : HDC)
  | memoryDC (dc : HDC)
  | bitmap (hbmp : HBITMAP)
deriving DecidableEq, Repr

/-- A handle stands for a resource unless it is null. -/
def handedOut (handle : Nat) (r : Resource) : Option Resource :=
  if handle = 0 then none else some r

/-- The resource a primitive call made at tick `t` hands out, if any: a non-null device
context or bitmap, and for the compositor calls only when the result code is a success. -/
def Event.acquires (os : OS) (t : Nat) : Event → Option Resource
  | .GetDC hwnd dc => handedOut dc (.windowDC hwnd dc)
  | .GetWindowDC hwnd dc => handedOut dc (.windowDC hwnd dc)
  | .CreateCompatibleDC _ dc => handedOut dc (.memoryDC dc)
  | .CreateDIBSection _ _ _ dib => handedOut dib (.bitmap dib)
  | .DwmGetIconicLivePreviewBitmap hwnd hbmp =>
    if 0 ≤ (os.DwmGetIconicLivePreviewBitmap t hwnd).1 then handedOut hbmp (.bitmap hbmp)
    else Option.none
  | .DwmGetIconicThumbnail hwnd tw th hbmp =>
    if 0 ≤ (os.DwmGetIconicThumbnail t hwnd tw th).1 then handedOut hbmp (.bitmap hbmp)
    else Option.none
  | _ => Option.none

/-- The resource a primitive call releases, if any. -/
def Event.releases : Event → Option Resource
  | .ReleaseDC hwnd dc => some (.windowDC hwnd dc)
  | .DeleteDC dc => some (.memoryDC dc)
  | .DeleteObject obj => some (.bitmap obj)
  | _ => Option.none

/-- The account of resources along a trace: `held` lists the resources handed out and not
yet released, `stray` the releases of a resource that was not held. -/
structure Ledger where
  held : List Resource
  stray : List Resource
deriving DecidableEq, Repr

/-- The effect of one call, made at tick `t`, on the account: a release takes the resource
out of `held`, or is recorded in `stray` when the resource is not held; an acquisition
adds the resource to `held`. -/
def Ledger.step (os : OS) (t : Nat) (g : Ledger) (e : Event) : Ledger :=
  match e.releases with
  | some r =>
    if r ∈ g.held then { g with held := g.held.erase r } else { g with stray := g.stray ++ [r] }
  | none =>
    match e.acquires os t with
    | some r => { g with held := r :: g.held }
    | none => g

/-- The account after the calls of a trace that starts at tick `t`. -/
def account (os : OS) : Nat → Ledger → List Event → Ledger
  | _, g, [] => g
  | t, g, e :: rest => account os (t + 1) (g.step os t e) rest

/-- Every resource handed out by the calls between `w` and `w'` was released by one of
them: the account of these calls, started empty, ends with nothing held. -/
def World.releasedAll (os : OS) (w w' : World) : Prop :=
  ∃ l, w'.trace = w.trace ++ l ∧ (account os w.tick ⟨[], []⟩ l).held = []

/-- The calls between `w` and `w'` leave at most the resources `P` held on top of what
was held before them. -/
def World.owes (os : OS) (P : List Resource) (w w' : World) : Prop :=
  ∃ l, w'.trace = w.trace ++ l ∧ w'.tick = w.tick + l.length ∧
    ∀ g : Ledger, ((account os w.tick g l).held : Multiset Resource) ≤
      (P : Multiset Resource) + (g.held : Multiset Resource)

/-- Calls of the compositor thumbnail primitive. -/
def Event.isThumbnailCall : Event → Bool
  | .DwmGetIconicThumbnail _ _ _ _ => true
  | _ => false

/-- Whether a call made at tick `t` is a thumbnail attempt whose bitmap converts: the
primitive succeeds, hands out a non-null bitmap, and `ReadHBitmapToBgra`, which runs next,
returns true (its result depends on the system, the handle and the tick only). -/
def thumbnailConverts (os : OS) (t : Nat) : Event → Bool
  | .DwmGetIconicThumbnail hwnd tw th _ =>
    decide (0 ≤ (os.DwmGetIconicThumbnail t hwnd tw th).1 ∧
      (os.DwmGetIconicThumbnail t hwnd tw th).2 ≠ 0) &&
    (ReadHBitmapToBgra os (os.DwmGetIconicThumbnail t hwnd tw th).2 [] 0 0 ⟨t + 1, []⟩).ok
  | _ => false

/-- Whether some call of a trace that starts at tick `t` is a converting thumbnail
attempt. -/
def anyConverts (os : OS) : Nat → List Event → Bool
  | _, [] => false
  | t, e :: rest => thumbnailConverts os t e || anyConverts os (t + 1) rest

/-- No thumbnail call follows a converting thumbnail attempt, in a trace that starts at
tick `t`. -/
def stopsAfterConversion (os : OS) : Nat → List Event → Bool
  | _, [] => true
  | t, e :: rest =>
    (!thumbnailConverts os t e || rest.all (fun x => !x.isThumbnailCall)) &&
      stopsAfterConversion os (t + 1) rest

/-- The retry policy on the calls between `w` and `w'`: at most three thumbnail calls, and
none after a converting attempt. -/
def World.retriesThumbnail (os : OS) (w w' : World) : Prop :=
  ∃ l, w'.trace = w.trace ++ l ∧ l.countP Event.isThumbnailCall ≤ 3 ∧
    stopsAfterConversion os w.tick l = true

/-- The world `w'` continues `w` by calls none of which is a thumbnail call. -/
def World.advances (w w' : World) : Prop :=
  ∃ l, w'.trace = w.trace ++ l ∧ w'.tick = w.tick + l.length ∧
    ∀ e ∈ l, e.isThumbnailCall = false

/-- The world `w'` continues `w` by at most `n` thumbnail calls, none after a converting
attempt; `conv` tells whether an attempt converted. -/
def World.retries (os : OS) (n : Nat) (conv : Bool) (w w' : World) : Prop :=
  ∃ l, w'.trace = w.trace ++ l ∧ w'.tick = w.tick + l.length ∧
    l.countP Event.isThumbnailCall ≤ n ∧ stopsAfterConversion os w.tick l = true ∧
    anyConverts os w.tick l = conv

/-! ## Conditions on the calls of one request -/

/-- Whether every call of a trace that starts at tick `t` satisfies `f` at its own tick. -/
def allAt (f : Nat → Event → Bool) : Nat → List Event → Bool
  | _, [] => true
  | t, e :: rest => f t e && allAt f (t + 1) rest

/-- Every call made between `w` and `w'` satisfies `f` at its own tick. -/
def World.throughout (f : Nat → Event → Bool) (w w' : World) : Prop :=
  ∀ l, w'.trace = w.trace ++ l → allAt f w.tick l = true

/-- Whether a call made at tick `t` is a compositor call, live preview or thumbnail, whose
bitmap converts: the primitive succeeds, hands out a non-null bitmap, and
`ReadHBitmapToBgra`, which runs next, returns true. -/
def bitmapConverts (os : OS) (t : Nat) : Event → Bool
  | .DwmGetIconicLivePreviewBitmap hwnd _ =>
    decide (0 ≤ (os.DwmGetIconicLivePreviewBitmap t hwnd).1 ∧
      (os.DwmGetIconicLivePreviewBitmap t hwnd).2 ≠ 0) &&
    (ReadHBitmapToBgra os (os.DwmGetIconicLivePreviewBitmap t hwnd).2 [] 0 0 ⟨t + 1, []⟩).ok
  | .DwmGetIconicThumbnail hwnd tw th _ =>
    decide (0 ≤ (os.DwmGetIconicThumbnail t hwnd tw th).1 ∧
      (os.DwmGetIconicThumbnail t hwnd tw th).2 ≠ 0) &&
    (ReadHBitmapToBgra os (os.DwmGetIconicThumbnail t hwnd tw th).2 [] 0 0 ⟨t + 1, []⟩).ok
  | _ => false

/-- Whether a call made at tick `t` is a render that succeeds: a `PrintWindow` or a
`BitBlt` that returns true. -/
def renderSucceeds (os : OS) (t : Nat) : Event → Bool
  | .PrintWindow hwnd dc => os.PrintWindow t hwnd dc
  | .BitBlt dst _ _ src _ _ => os.BitBlt t dst src
  | _ => false

/-- A call made at tick `t` yields no pixels: it is neither a converting compositor call
nor a succeeding render. -/
def yieldsNothing (os : OS) (t : Nat) (e : Event) : Bool :=
  !bitmapConverts os t e && !renderSucceeds os t e

/-- A thumbnail call made at tick `t` honours the requested size: if it hands out a bitmap
whose metadata `GetObject` reports at the next tick, the bitmap is no larger than the
request. Every other call satisfies this. -/
def honoursRequest (os : OS) (t : Nat) : Event → Bool
  | .DwmGetIconicThumbnail hwnd tw th _ =>
    if 0 ≤ (os.DwmGetIconicThumbnail t hwnd tw th).1 ∧
        (os.DwmGetIconicThumbnail t hwnd tw th).2 ≠ 0 then
      match os.GetObject (t + 1) (os.DwmGetIconicThumbnail t hwnd tw th).2 with
      | some (bw, bh) => decide (wrapInt32 bw ≤ tw ∧ wrapInt32 bh ≤ th)
      | Option.none => true
    else true
  | _ => true

/-- A measurement of a window rectangle made at tick `t` is non-degenerate: if
`GetWindowRect` succeeds, the rectangle has positive width and height. Every other call
satisfies this. -/
def measuresNonDegenerate (os : OS) (t : Nat) : Event → Bool
  | .GetWindowRect hwnd =>
    match os.GetWindowRect t hwnd with
    | some rc => decide (0 < wrapInt32 (rc.right - rc.left) ∧ 0 < wrapInt32 (rc.bottom - rc.top))
    | Option.none => true
  | _ => true

/-- The world `w'` continues `w`, and `Q` holds whenever every call in between satisfies
`f` at its own tick. -/
def World.spans (f : Nat → Event → Bool) (w w' : World) (Q : Prop) : Prop :=
  ∃ l, w'.trace = w.trace ++ l ∧ w'.tick = w.tick + l.length ∧ (allAt f w.tick l = true → Q)

/-! ## Concrete operating systems used as test inputs -/

/-- An operating system on which every primitive succeeds: a 2x1 window that is not
minimized, non-null handles everywhere, bitmaps of 2x1 pixels read back in full. -/
def cooperativeOS : OS where
  GetWindowRect := fun _ _ => some ⟨10, 10, 12, 11⟩
  IsIconic := fun _ _ => false
  IsWindow := fun _ _ => true
  IsChild := fun _ _ _ => false
  GetForegroundWindow := fun _ => 9
  hasLivePreview := true
  DwmGetIconicLivePreviewBitmap := fun _ _ => (0, 21)
  hasThumbnail := true
  DwmGetIconicThumbnail := fun _ _ _ _ => (0, 22)
  GetObject := fun _ _ => some (2, 1)
  GetDC := fun _ _ => 31
  GetWindowDC := fun _ _ => 32
  CreateCompatibleDC := fun _ _ => 33
  CreateDIBSection := fun _ _ _ _ => (41, 4096)
  SelectObject := fun _ _ _ => 42
  GetDIBits := fun _ _ _ height => (height, fun _ => 255)
  PrintWindow := fun _ _ _ => true
  BitBlt := fun _ _ _ => true
  StretchBlt := fun _ _ _ => true
  GetSystemMetrics := fun _ m =>
    match m with
    | .SM_XVIRTUALSCREEN => 0
    | .SM_YVIRTUALSCREEN => 0
    | .SM_CXVIRTUALSCREEN => 2
    | .SM_CYVIRTUALSCREEN => 1
  dibMemory := fun _ _ _ => 255
  IsWindowVisible := fun _ _ => true
  GetWindowOwner := fun _ _ => 0
  hasToolWindowStyle := fun _ _ => false
  GetWindowTextW := fun _ _ => (5, "title")
  EnumWindows := fun _ => [7, 8]
  EnumDisplayMonitors := fun _ => [51, 52]
  GetMonitorInfoW := fun _ _ => some ⟨⟨0, 0, 2, 1⟩, true, "DISPLAY1"⟩

/-- A minimized 2x1 window whose live preview (bitmap 21, 2x1) reads back in full, whose
thumbnail (bitmap 22, 1x1) is handed out but reads back no scan line, and whose restored
render fails (`PrintWindow` fails, no window device context). -/
def staleCandidateOS : OS :=
  { cooperativeOS with
    IsIconic := fun _ _ => true
    GetObject := fun _ hbmp => if hbmp = 21 then some (2, 1) else some (1, 1)
    GetDIBits := fun _ _ hbmp height => (if hbmp = 21 then height else 0, fun _ => 255)
    PrintWindow := fun _ _ _ => false
    GetWindowDC := fun _ _ => 0 }

/-- A minimized 2x1 window without compositor bitmaps, on a system that hands out no screen
device context. -/
def noScreenDcOS : OS :=
  { cooperativeOS with
    IsIconic := fun _ _ => true
    hasLivePreview := false
    hasThumbnail := false
    GetDC := fun _ _ => 0 }

/-- A minimized 2x1 window whose live preview converts, with no thumbnail entry point, on a
system that hands out no memory device context. -/
def noMemDcOS : OS :=
  { cooperativeOS with
    IsIconic := fun _ _ => true
    hasThumbnail := false
    CreateCompatibleDC := fun _ _ => 0 }

/-- A minimized 4x2 window whose compositor thumbnail is a 4x2 bitmap whatever size is
requested. -/
def oversizedThumbnailOS : OS :=
  { cooperativeOS with
    GetWindowRect := fun _ _ => some ⟨0, 0, 4, 2⟩
    IsIconic := fun _ _ => true
    GetObject := fun _ _ => some (4, 2) }

/-- A minimized 4x2 window on a system whose compositor honours the requested size: it
hands out bitmap 23, of 1x1 pixel, for every request of at least 1x1, and nothing else. -/
def honestCompositorOS : OS :=
  { cooperativeOS with
    GetWindowRect := fun _ _ => some ⟨0, 0, 4, 2⟩
    IsIconic := fun _ _ => true
    DwmGetIconicThumbnail := fun _ _ tw th => if tw = 0 ∨ th = 0 then (-1, 0) else (0, 23)
    GetObject := fun _ hbmp =>
      if hbmp = 0 then none else if hbmp = 23 then some (1, 1) else some (2, 1) }

/-- A normal window whose rectangle is reported empty for the first three primitive calls
(up to the measurement of the handler) and 4x2 afterwards. -/
def lateRectOS : OS :=
  { cooperativeOS with
    GetWindowRect := fun t _ => if t ≤ 2 then some ⟨0, 0, 0, 0⟩ else some ⟨0, 0, 4, 2⟩ }

/-- A thumbnail request for window 7 with `maxWidth = 2` and `maxHeight = 1`. -/
def smallThumbnailRequest : Arguments :=
  .map [("hwnd", .int64 7), ("maxWidth", .int32 2), ("maxHeight", .int32 1)]

/-- A system on which no monitor handle resolves. -/
def noMonitorOS : OS := { cooperativeOS with GetMonitorInfoW := fun _ _ => none }

/-- Three monitors, the second of which does not answer the info query. -/
def threeMonitorsOS : OS :=
  { cooperativeOS with
    EnumDisplayMonitors := fun _ => [51, 52, 53]
    GetMonitorInfoW := fun _ hmon =>
      if hmon = 52 then none else some ⟨⟨0, 0, 2, 1⟩, decide (hmon = 51), "DISPLAY"⟩ }

/-- The caller's window 1 is foreground until it is minimized; window 9 is foreground
afterwards. -/
def selfForegroundOS : OS :=
  { cooperativeOS with GetForegroundWindow := fun t => if t = 0 then 1 else 9 }

/-- A monitor request for the id 77. -/
def unknownMonitorRequest : Arguments := .map [("monitorId", .int64 77)]

/-- A minimized 2x1 window on a system where every primitive succeeds. -/
def minimizedOS : OS := { cooperativeOS with IsIconic := fun _ _ => true }

/-- A minimized 2x1 window 7 that yields nothing (the compositor calls fail for it,
`PrintWindow` fails and it has no window device context), next to windows that are
captured without trouble. -/
def unresponsiveWindowOS : OS :=
  { cooperativeOS with
    IsIconic := fun _ _ => true
    DwmGetIconicLivePreviewBitmap := fun _ hwnd => if hwnd = 7 then (-1, 0) else (0, 21)
    DwmGetIconicThumbnail := fun _ hwnd _ _ => if hwnd = 7 then (-1, 0) else (0, 22)
    PrintWindow := fun _ hwnd _ => decide (hwnd ≠ 7)
    GetWindowDC := fun _ hwnd => if hwnd = 7 then 0 else 32 }

/-! # Theorems -/

/-! ## Binary64 rounding -/

namespace Double

theorem normShift_reaches (a b : Nat) :
    ∀ fuel k, (∃ j, k ≤ j ∧ j < k + fuel ∧ 2 ^ 52 * b ≤ a * 2 ^ j) →
      2 ^ 52 * b ≤ a * 2 ^ normShift a b fuel k := by
  intro fuel
  induction fuel with
  | zero =>
    intro k h
    obtain ⟨j, h1, h2, _⟩ := h
    omega
  | succ n ih =>
    intro k h
    obtain ⟨j, h1, h2, h3⟩ := h
    unfold normShift
    by_cases hk : 2 ^ 52 * b ≤ a * 2 ^ k
    · rw [if_pos hk]; exact hk
    · rw [if_neg hk]
      apply ih
      refine ⟨j, ?_, by omega, h3⟩
      rcases Nat.eq_or_lt_of_le h1 with h4 | h4
      · subst h4; exact absurd h3 hk
      · exact h4

theorem normShift_least (a b : Nat) :
    ∀ fuel k j, k ≤ j → j < normShift a b fuel k → a * 2 ^ j < 2 ^ 52 * b := by
  intro fuel
  induction fuel with
  | zero =>
    intro k j h1 h2
    simp only [normShift] at h2
    omega
  | succ n ih =>
    intro k j h1 h2
    unfold normShift at h2
    by_cases hk : 2 ^ 52 * b ≤ a * 2 ^ k
    · rw [if_pos hk] at h2
      omega
    · rw [if_neg hk] at h2
      rcases Nat.eq_or_lt_of_le h1 with h4 | h4
      · subst h4; omega
      · exact ih (k + 1) j h4 h2

theorem normShift_spec (a b : Nat) (ha : 0 < a) :
    2 ^ 52 * b ≤ a * 2 ^ normShift a b (2 ^ 52 * b + 1) 0 := by
  apply normShift_reaches
  refine ⟨2 ^ 52 * b, Nat.zero_le _, by omega, ?_⟩
  have h1 : 2 ^ 52 * b < 2 ^ (2 ^ 52 * b) := Nat.lt_two_pow _
  calc 2 ^ 52 * b ≤ 1 * 2 ^ (2 ^ 52 * b) := by omega
    _ ≤ a * 2 ^ (2 ^ 52 * b) := Nat.mul_le_mul_right _ ha

/-- Half-unit bounds for a quotient rounded down or up. -/
theorem round_aux (N b : Nat) (hb : 0 < b) :
    (2 * (N % b) ≤ b → 2 * (N / b * b) ≤ 2 * N + b ∧ 2 * N ≤ 2 * (N / b * b) + b) ∧
    (b ≤ 2 * (N % b) → 2 * ((N / b + 1) * b) ≤ 2 * N + b ∧ 2 * N ≤ 2 * ((N / b + 1) * b) + b) := by
  have hdm := Nat.div_add_mod N b
  have hr := Nat.mod_lt N hb
  have e1 : N / b * b = b * (N / b) := Nat.mul_comm _ _
  have e2 : (N / b + 1) * b = b * (N / b) + b := by rw [Nat.add_mul, Nat.one_mul, Nat.mul_comm]
  rw [e1, e2]
  generalize b * (N / b) = t at hdm
  omega

/-- The rounded significand is within half a unit of the scaled quotient. -/
theorem roundNearestEven_near (a b : Nat) (ha : 0 < a) (hb : 0 < b) :
    2 ^ 52 * b ≤ a * 2 ^ (roundNearestEven a b).sc ∧
    2 * ((roundNearestEven a b).man * b) ≤ 2 * (a * 2 ^ (roundNearestEven a b).sc) + b ∧
    2 * (a * 2 ^ (roundNearestEven a b).sc) ≤ 2 * ((roundNearestEven a b).man * b) + b := by
  have hs := normShift_spec a b ha
  have hx := round_aux (a * 2 ^ normShift a b (2 ^ 52 * b + 1) 0) b hb
  have hne : a ≠ 0 := by omega
  simp only [roundNearestEven, hne, if_false]
  split_ifs with h1 h2 h3
  · exact ⟨hs, hx.1 (by omega)⟩
  · exact ⟨hs, hx.2 (by omega)⟩
  · exact ⟨hs, hx.1 (by omega)⟩
  · exact ⟨hs, hx.2 (by omega)⟩

/-- Below `2^53` the rounded significand has 53 bits: the result is a binary64 value. -/
theorem roundNearestEven_significand (a b : Nat) (ha : 0 < a) (hb : 0 < b)
    (hlt : a < 2 ^ 53 * b) :
    2 ^ 52 ≤ (roundNearestEven a b).man ∧ (roundNearestEven a b).man ≤ 2 ^ 53 := by
  have hs := normShift_spec a b ha
  have hl := normShift_least a b (2 ^ 52 * b + 1) 0
  have hne : a ≠ 0 := by omega
  have hup : a * 2 ^ normShift a b (2 ^ 52 * b + 1) 0 < 2 ^ 53 * b := by
    rcases Nat.eq_zero_or_pos (normShift a b (2 ^ 52 * b + 1) 0) with h0 | h0
    · rw [h0, Nat.pow_zero, Nat.mul_one]
      exact hlt
    · obtain ⟨j, hj⟩ : ∃ j, normShift a b (2 ^ 52 * b + 1) 0 = j + 1 :=
        ⟨_, (Nat.succ_pred_eq_of_pos h0).symm⟩
      have h1 := hl j (Nat.zero_le _) (by omega)
      rw [hj, Nat.pow_succ, ← Nat.mul_assoc]
      omega
  have hq1 : 2 ^ 52 ≤ a * 2 ^ normShift a b (2 ^ 52 * b + 1) 0 / b :=
    (Nat.le_div_iff_mul_le hb).2 hs
  have hq2 : a * 2 ^ normShift a b (2 ^ 52 * b + 1) 0 / b < 2 ^ 53 :=
    (Nat.div_lt_iff_lt_mul hb).2 hup
  simp only [roundNearestEven, hne, if_false]
  split_ifs <;> simp only [] <;> omega

/-- Relative error of one rounding, upper side: at most `2^-53`. -/
theorem toRat_roundNearestEven_le (a b : Nat) (hb : 0 < b) :
    (roundNearestEven a b).toRat ≤ (a : ℚ) / b * (1 + 1 / 2 ^ 53) := by
  rcases Nat.eq_zero_or_pos a with ha | ha
  · subst ha
    simp [roundNearestEven, toRat]
  · obtain ⟨h1, h2, -⟩ := roundNearestEven_near a b ha hb
    unfold toRat
    generalize (roundNearestEven a b).man = n at h2 ⊢
    generalize (roundNearestEven a b).sc = k at h1 h2 ⊢
    have hK : (0 : ℚ) < 2 ^ k := by positivity
    have hB : (0 : ℚ) < b := by exact_mod_cast hb
    have h1q : (2 : ℚ) ^ 52 * b ≤ a * 2 ^ k := by exact_mod_cast h1
    have h2q : (2 : ℚ) * (n * b) ≤ 2 * (a * 2 ^ k) + b := by exact_mod_cast h2
    rw [div_le_iff₀ hK]
    have e : (a : ℚ) / b * (1 + 1 / 2 ^ 53) * 2 ^ k = (a * 2 ^ k * (1 + 1 / 2 ^ 53)) / b := by
      field_simp
      ring
    rw [e, le_div_iff₀ hB]
    linarith

/-- Relative error of one rounding, lower side: at most `2^-53`. -/
theorem toRat_roundNearestEven_ge (a b : Nat) (hb : 0 < b) :
    (a : ℚ) / b * (1 - 1 / 2 ^ 53) ≤ (roundNearestEven a b).toRat := by
  rcases Nat.eq_zero_or_pos a with ha | ha
  · subst ha
    simp [roundNearestEven, toRat]
  · obtain ⟨h1, -, h3⟩ := roundNearestEven_near a b ha hb
    unfold toRat
    generalize (roundNearestEven a b).man = n at h3 ⊢
    generalize (roundNearestEven a b).sc = k at h1 h3 ⊢
    have hK : (0 : ℚ) < 2 ^ k := by positivity
    have hB : (0 : ℚ) < b := by exact_mod_cast hb
    have h1q : (2 : ℚ) ^ 52 * b ≤ a * 2 ^ k := by exact_mod_cast h1
    have h3q : (2 : ℚ) * (a * 2 ^ k) ≤ 2 * (n * b) + b := by exact_mod_cast h3
    rw [le_div_iff₀ hK]
    have e : (a : ℚ) / b * (1 - 1 / 2 ^ 53) * 2 ^ k = (a * 2 ^ k * (1 - 1 / 2 ^ 53)) / b := by
      field_simp
      ring
    rw [e, div_le_iff₀ hB]
    linarith

theorem toRat_nonneg (x : Double) : 0 ≤ x.toRat := by
  unfold toRat
  positivity

theorem toRat_ofInt (n : Int) (h : 0 ≤ n) : (ofInt n).toRat = (n : ℚ) := by
  unfold toRat ofInt
  simp only [pow_zero, div_one]
  have : ((n.toNat : Int) : ℚ) = (n : ℚ) := by rw [Int.toNat_of_nonneg h]
  exact_mod_cast this

theorem toRat_div_le (x y : Double) (hy : 0 < y.man) :
    (div x y).toRat ≤ x.toRat / y.toRat * (1 + 1 / 2 ^ 53) := by
  have h := toRat_roundNearestEven_le (x.man * 2 ^ y.sc) (y.man * 2 ^ x.sc)
    (Nat.mul_pos hy (by positivity))
  have hyq : (0 : ℚ) < y.man := by exact_mod_cast hy
  have e : ((x.man * 2 ^ y.sc : Nat) : ℚ) / ((y.man * 2 ^ x.sc : Nat) : ℚ)
      = x.toRat / y.toRat := by
    unfold toRat
    push_cast
    rw [div_div_div_eq, mul_comm (2 ^ x.sc : ℚ)]
  rw [e] at h
  exact h

theorem toRat_div_ge (x y : Double) (hy : 0 < y.man) :
    x.toRat / y.toRat * (1 - 1 / 2 ^ 53) ≤ (div x y).toRat := by
  have h := toRat_roundNearestEven_ge (x.man * 2 ^ y.sc) (y.man * 2 ^ x.sc)
    (Nat.mul_pos hy (by positivity))
  have hyq : (0 : ℚ) < y.man := by exact_mod_cast hy
  have e : ((x.man * 2 ^ y.sc : Nat) : ℚ) / ((y.man * 2 ^ x.sc : Nat) : ℚ)
      = x.toRat / y.toRat := by
    unfold toRat
    push_cast
    rw [div_div_div_eq, mul_comm (2 ^ x.sc : ℚ)]
  rw [e] at h
  exact h

theorem toRat_mul_le (x y : Double) :
    (mul x y).toRat ≤ x.toRat * y.toRat * (1 + 1 / 2 ^ 53) := by
  have h := toRat_roundNearestEven_le (x.man * y.man) (2 ^ (x.sc + y.sc)) (by positivity)
  have e : ((x.man * y.man : Nat) : ℚ) / ((2 ^ (x.sc + y.sc) : Nat) : ℚ)
      = x.toRat * y.toRat := by
    unfold toRat
    push_cast
    rw [pow_add]
    field_simp
  rw [e] at h
  exact h

theorem toRat_mul_ge (x y : Double) :
    x.toRat * y.toRat * (1 - 1 / 2 ^ 53) ≤ (mul x y).toRat := by
  have h := toRat_roundNearestEven_ge (x.man * y.man) (2 ^ (x.sc + y.sc)) (by positivity)
  have e : ((x.man * y.man : Nat) : ℚ) / ((2 ^ (x.sc + y.sc) : Nat) : ℚ)
      = x.toRat * y.toRat := by
    unfold toRat
    push_cast
    rw [pow_add]
    field_simp
  rw [e] at h
  exact h

theorem lt_iff (x y : Double) : lt x y = true ↔ x.toRat < y.toRat := by
  unfold lt toRat
  rw [decide_eq_true_iff, div_lt_div_iff₀ (by positivity) (by positivity)]
  exact_mod_cast Iff.rfl

/-- Truncation is the floor of the value. -/
theorem toInt_le (x : Double) : ((toInt x : Int) : ℚ) ≤ x.toRat := by
  unfold toInt toRat
  rw [le_div_iff₀ (by positivity)]
  have h := Nat.div_mul_le_self x.man (2 ^ x.sc)
  exact_mod_cast h

theorem lt_toInt_add_one (x : Double) : x.toRat < ((toInt x : Int) : ℚ) + 1 := by
  unfold toInt toRat
  rw [div_lt_iff₀ (by positivity)]
  have h := Nat.lt_div_mul_add (a := x.man) (b := 2 ^ x.sc) (by positivity)
  have h2 : x.man < (x.man / 2 ^ x.sc + 1) * 2 ^ x.sc := by
    rw [Nat.add_mul, Nat.one_mul]; exact h
  exact_mod_cast h2

/-- Multiplying by `1.0` and truncating gives the integer back. -/
theorem toInt_mul_one (n : Int) (h : 0 < n) : toInt (mul (ofInt n) one) = n := by
  have hn : n.toNat ≠ 0 := by omega
  simp only [mul, ofInt, one, roundNearestEven, Nat.mul_one, hn, if_false, Nat.add_zero,
    Nat.pow_zero, Nat.mod_one, Nat.mul_zero, Nat.lt_one_iff, if_true, Nat.div_one, toInt]
  rw [Nat.mul_div_cancel _ (by positivity)]
  omega

end Double

/-! ## The scale calculator: auxiliary facts -/

theorem ScaleToFit_of_fits (src_w src_h max_w max_h : Int) (hw : 0 < src_w) (hh : 0 < src_h)
    (h1 : src_w ≤ effectiveMax src_w max_w) (h2 : src_h ≤ effectiveMax src_h max_h) :
    ScaleToFit src_w src_h max_w max_h = (src_w, src_h) := by
  unfold effectiveMax at h1 h2
  have hc : ¬ (src_w ≤ 0 ∨ src_h ≤ 0) := by omega
  have hs : ¬ (src_w > (if max_w ≤ 0 then src_w else max_w) ∨
      src_h > (if max_h ≤ 0 then src_h else max_h)) := by omega
  simp only [ScaleToFit, hc, hs, if_false, Double.toInt_mul_one _ hw, Double.toInt_mul_one _ hh]
  have e1 : ¬ src_w < 1 := by omega
  have e2 : ¬ src_h < 1 := by omega
  simp only [e1, e2, if_false]

theorem ScaleToFit_of_exceeds (src_w src_h max_w max_h : Int) (hw : 0 < src_w) (hh : 0 < src_h)
    (h : effectiveMax src_w max_w < src_w ∨ effectiveMax src_h max_h < src_h) :
    ScaleToFit src_w src_h max_w max_h =
      (max 1 (Double.toInt (Double.mul (Double.ofInt src_w)
          (fitScale src_w src_h (effectiveMax src_w max_w) (effectiveMax src_h max_h)))),
       max 1 (Double.toInt (Double.mul (Double.ofInt src_h)
          (fitScale src_w src_h (effectiveMax src_w max_w) (effectiveMax src_h max_h))))) := by
  unfold effectiveMax at h ⊢
  have hc : ¬ (src_w ≤ 0 ∨ src_h ≤ 0) := by omega
  have hs : (src_w > (if max_w ≤ 0 then src_w else max_w) ∨
      src_h > (if max_h ≤ 0 then src_h else max_h)) := by omega
  simp only [ScaleToFit, hc, hs, if_false, if_true, fitScale]
  refine Prod.ext ?_ ?_ <;> simp only [] <;> split_ifs <;> omega

/-- The chosen scale is at most either rounded axis ratio. -/
theorem fitScale_le (src_w src_h mw mh : Int) :
    (fitScale src_w src_h mw mh).toRat ≤
        (Double.div (Double.ofInt mw) (Double.ofInt src_w)).toRat ∧
    (fitScale src_w src_h mw mh).toRat ≤
        (Double.div (Double.ofInt mh) (Double.ofInt src_h)).toRat := by
  unfold fitScale
  split_ifs with h
  · rw [Double.lt_iff] at h
    exact ⟨le_refl _, le_of_lt h⟩
  · rw [Double.lt_iff, not_lt] at h
    exact ⟨h, le_refl _⟩

/-- A source dimension times a scale that is at most `(M / W) (1 + 2^-53)` truncates to
at most `M`, for `M` in the range of `int`. -/
theorem toInt_mul_le (W M : Int) (s : Double) (hW : 0 < W) (hM : 0 < M) (hMr : M < 2 ^ 31)
    (hs : s.toRat ≤ (M : ℚ) / W * (1 + 1 / 2 ^ 53)) :
    Double.toInt (Double.mul (Double.ofInt W) s) ≤ M := by
  have h1 := Double.toInt_le (Double.mul (Double.ofInt W) s)
  have h2 := Double.toRat_mul_le (Double.ofInt W) s
  rw [Double.toRat_ofInt W (le_of_lt hW)] at h2
  have hWq : (0 : ℚ) < W := by exact_mod_cast hW
  have hMq : (0 : ℚ) < M := by exact_mod_cast hM
  have hMr' : (M : ℚ) ≤ 2 ^ 31 - 1 := by
    have : M ≤ 2 ^ 31 - 1 := by omega
    exact_mod_cast this
  have h3 : (W : ℚ) * s.toRat ≤ M * (1 + 1 / 2 ^ 53) := by
    calc (W : ℚ) * s.toRat ≤ W * ((M : ℚ) / W * (1 + 1 / 2 ^ 53)) :=
          mul_le_mul_of_nonneg_left hs (le_of_lt hWq)
      _ = M * (1 + 1 / 2 ^ 53) := by
          field_simp
          ring
  have h4 : (W : ℚ) * s.toRat * (1 + 1 / 2 ^ 53) ≤ M * (1 + 1 / 2 ^ 53) * (1 + 1 / 2 ^ 53) :=
    mul_le_mul_of_nonneg_right h3 (by norm_num)
  have h5 : ((Double.toInt (Double.mul (Double.ofInt W) s) : Int) : ℚ) < (M : ℚ) + 1 := by
    have : (M : ℚ) * (1 + 1 / 2 ^ 53) * (1 + 1 / 2 ^ 53) < M + 1 := by nlinarith
    linarith
  have h6 : Double.toInt (Double.mul (Double.ofInt W) s) < M + 1 := by exact_mod_cast h5
  omega

/-- The rounded ratio of two positive `int`s, upper bound. -/
theorem div_ofInt_le (M W : Int) (hM : 0 ≤ M) (hW : 0 < W) :
    (Double.div (Double.ofInt M) (Double.ofInt W)).toRat ≤ (M : ℚ) / W * (1 + 1 / 2 ^ 53) := by
  have h := Double.toRat_div_le (Double.ofInt M) (Double.ofInt W)
    (by simp only [Double.ofInt]; omega)
  rw [Double.toRat_ofInt M hM, Double.toRat_ofInt W (le_of_lt hW)] at h
  exact h

/-- When the source exceeds a maximum, the chosen scale is at most `1 + 2^-53`. -/
theorem fitScale_le_one (src_w src_h mw mh : Int) (hw : 0 < src_w) (hh : 0 < src_h)
    (hmw : 0 < mw) (hmh : 0 < mh) (h : mw < src_w ∨ mh < src_h) :
    (fitScale src_w src_h mw mh).toRat ≤ 1 + 1 / 2 ^ 53 := by
  obtain ⟨h1, h2⟩ := fitScale_le src_w src_h mw mh
  have hWq : (0 : ℚ) < src_w := by exact_mod_cast hw
  have hHq : (0 : ℚ) < src_h := by exact_mod_cast hh
  rcases h with h | h
  · have h3 := div_ofInt_le mw src_w (le_of_lt hmw) hw
    have h4 : (mw : ℚ) / src_w ≤ 1 := by
      rw [div_le_one hWq]
      exact_mod_cast le_of_lt h
    have h5 : (mw : ℚ) / src_w * (1 + 1 / 2 ^ 53) ≤ 1 * (1 + 1 / 2 ^ 53) :=
      mul_le_mul_of_nonneg_right h4 (by norm_num)
    linarith
  · have h3 := div_ofInt_le mh src_h (le_of_lt hmh) hh
    have h4 : (mh : ℚ) / src_h ≤ 1 := by
      rw [div_le_one hHq]
      exact_mod_cast le_of_lt h
    have h5 : (mh : ℚ) / src_h * (1 + 1 / 2 ^ 53) ≤ 1 * (1 + 1 / 2 ^ 53) :=
      mul_le_mul_of_nonneg_right h4 (by norm_num)
    linarith

theorem effectiveMax_pos (src max : Int) (h : 0 < src) : 0 < effectiveMax src max := by
  unfold effectiveMax
  split_ifs <;> omega

/-- Bounds on the output of `ScaleToFit` against the effective maxima and the source. -/
theorem ScaleToFit_bounds (src_w src_h max_w max_h : Int) (hw : 0 < src_w) (hh : 0 < src_h)
    (hwr : src_w < 2 ^ 31) (hhr : src_h < 2 ^ 31) (hmwr : max_w < 2 ^ 31)
    (hmhr : max_h < 2 ^ 31) :
    (ScaleToFit src_w src_h max_w max_h).1 ≤ effectiveMax src_w max_w ∧
    (ScaleToFit src_w src_h max_w max_h).2 ≤ effectiveMax src_h max_h ∧
    (ScaleToFit src_w src_h max_w max_h).1 ≤ src_w ∧
    (ScaleToFit src_w src_h max_w max_h).2 ≤ src_h := by
  have hmw := effectiveMax_pos src_w max_w hw
  have hmh := effectiveMax_pos src_h max_h hh
  have hmw2 : effectiveMax src_w max_w < 2 ^ 31 := by
    unfold effectiveMax; split_ifs <;> omega
  have hmh2 : effectiveMax src_h max_h < 2 ^ 31 := by
    unfold effectiveMax; split_ifs <;> omega
  by_cases hfit : effectiveMax src_w max_w < src_w ∨ effectiveMax src_h max_h < src_h
  · rw [ScaleToFit_of_exceeds src_w src_h max_w max_h hw hh hfit]
    obtain ⟨h1, h2⟩ := fitScale_le src_w src_h (effectiveMax src_w max_w)
      (effectiveMax src_h max_h)
    have h3 := div_ofInt_le (effectiveMax src_w max_w) src_w (le_of_lt hmw) hw
    have h4 := div_ofInt_le (effectiveMax src_h max_h) src_h (le_of_lt hmh) hh
    have h5 := fitScale_le_one src_w src_h _ _ hw hh hmw hmh hfit
    have hWq : (src_w : ℚ) ≠ 0 := by exact_mod_cast (ne_of_gt hw)
    have hHq : (src_h : ℚ) ≠ 0 := by exact_mod_cast (ne_of_gt hh)
    have a1 := toInt_mul_le src_w (effectiveMax src_w max_w) _ hw hmw hmw2 (le_trans h1 h3)
    have a2 := toInt_mul_le src_h (effectiveMax src_h max_h) _ hh hmh hmh2 (le_trans h2 h4)
    have a3 := toInt_mul_le src_w src_w _ hw hw hwr (by rw [div_self hWq, one_mul]; exact h5)
    have a4 := toInt_mul_le src_h src_h _ hh hh hhr (by rw [div_self hHq, one_mul]; exact h5)
    simp only []
    refine ⟨?_, ?_, ?_, ?_⟩ <;> omega
  · have h1 : src_w ≤ effectiveMax src_w max_w := by omega
    have h2 : src_h ≤ effectiveMax src_h max_h := by omega
    rw [ScaleToFit_of_fits src_w src_h max_w max_h hw hh h1 h2]
    exact ⟨h1, h2, le_refl _, le_refl _⟩

/-- The clamps at the end of `ScaleToFit` keep both outputs at 1 or more. -/
theorem ScaleToFit_ge_one (src_w src_h max_w max_h : Int) (hw : 0 < src_w) (hh : 0 < src_h) :
    1 ≤ (ScaleToFit src_w src_h max_w max_h).1 ∧ 1 ≤ (ScaleToFit src_w src_h max_w max_h).2 := by
  have hc : ¬ (src_w ≤ 0 ∨ src_h ≤ 0) := by omega
  simp only [ScaleToFit, hc, if_false]
  constructor <;> split_ifs <;> omega

/-! ## Buffers and machine integers -/

theorem wrapInt32_range (x : Int) : -2 ^ 31 ≤ wrapInt32 x ∧ wrapInt32 x < 2 ^ 31 := by
  unfold wrapInt32
  omega

theorem wrapInt32_le_of_pos (x : Int) (h : 0 < x) : wrapInt32 x ≤ x := by
  unfold wrapInt32
  omega

theorem le_of_wrapInt32_nonpos (x : Int) (h : 0 < x) (h2 : wrapInt32 x ≤ 0) : 2 ^ 31 ≤ x := by
  unfold wrapInt32 at h2
  omega

theorem bufferSize_eq (width height : Int) (hw : 0 < width) (hh : 0 < height)
    (hw2 : width < 2 ^ 31) (hh2 : height < 2 ^ 31) :
    ((bufferSize width height : Nat) : Int) = width * height * 4 := by
  unfold bufferSize wrapSize
  have h1 : width.toNat < 2 ^ 31 := by omega
  have h2 : height.toNat < 2 ^ 31 := by omega
  have h3 : width.toNat * height.toNat < 2 ^ 31 * 2 ^ 31 := Nat.mul_lt_mul'' h1 h2
  have e1 : ((width.toNat : Nat) : Int) = width := Int.toNat_of_nonneg (le_of_lt hw)
  have e2 : ((height.toNat : Nat) : Int) = height := Int.toNat_of_nonneg (le_of_lt hh)
  have h4 : width.toNat * height.toNat % 2 ^ 64 = width.toNat * height.toNat :=
    Nat.mod_eq_of_lt (by omega)
  rw [h4]
  have h5 : width.toNat * height.toNat * 4 % 2 ^ 64 = width.toNat * height.toNat * 4 :=
    Nat.mod_eq_of_lt (by omega)
  rw [h5]
  push_cast
  rw [e1, e2]

theorem length_resize (v : List Nat) (n : Nat) : (resize v n).length = n := by
  unfold resize
  simp only [List.length_append, List.length_take, List.length_replicate]
  omega

theorem length_overwrite (v : List Nat) (src : Nat → Nat) :
    (overwrite v src).length = v.length := by
  simp [overwrite]

theorem length_copyFrom (size : Nat) (src : Nat → Nat) : (copyFrom size src).length = size := by
  simp [copyFrom]

/-! ## Bitmap-to-buffer conversion -/

/-- A successful conversion reports positive dimensions and a buffer of exactly
`width * height * 4` bytes. -/
theorem ReadHBitmapToBgra_wellFormed (os : OS) (hbmp : HBITMAP) (out : List Nat)
    (width height : Int) (w : World) :
    (ReadHBitmapToBgra os hbmp out width height w).ok = true →
    (ReadHBitmapToBgra os hbmp out width height w).wellFormed := by
  simp only [ReadHBitmapToBgra]
  repeat' split
  all_goals intro h
  all_goals try (simp only [Bool.false_eq_true] at h)
  rename_i bw bh _ hpos _
  have r1 := wrapInt32_range bw
  have r2 := wrapInt32_range bh
  simp only [Capture.wellFormed, length_overwrite, length_resize]
  exact ⟨by omega, by omega, bufferSize_eq _ _ (by omega) (by omega) r1.2 r2.2⟩

/-! ## Scaled window capture and region capture: the buffer invariant -/

theorem scaledThumbnailLoop_wellFormed (os : OS) (hwnd : HWND) (tw th : Nat) :
    ∀ (n : Nat) (c : Capture), (scaledThumbnailLoop os hwnd tw th n c).ok = true →
      (scaledThumbnailLoop os hwnd tw th n c).wellFormed := by
  intro n
  induction n with
  | zero =>
    intro c h
    simp [scaledThumbnailLoop] at h
  | succ n ih =>
    intro c
    simp only [scaledThumbnailLoop]
    repeat' split
    · rename_i hok
      intro _
      exact ReadHBitmapToBgra_wellFormed _ _ _ _ _ _ hok
    · exact ih _
    · exact ih _

theorem renderScaled_wellFormed (os : OS) (hwnd : HWND) (src_w src_h : Int) (out : List Nat)
    (width height : Int) (w : World) (hw : 0 < width) (hh : 0 < height)
    (hw2 : width < 2 ^ 31) (hh2 : height < 2 ^ 31) :
    (renderScaled os hwnd src_w src_h out width height w).ok = true →
    (renderScaled os hwnd src_w src_h out width height w).wellFormed := by
  simp only [renderScaled]
  repeat' split
  all_goals intro h
  all_goals try (simp only [Bool.false_eq_true] at h)
  simp only [Capture.wellFormed, length_copyFrom]
  exact ⟨hw, hh, bufferSize_eq _ _ hw hh hw2 hh2⟩

theorem CaptureWindowBgraScaled_wellFormed (os : OS) (hwnd : HWND) (target_w target_h : Int)
    (out : List Nat) (width height : Int) (w : World)
    (ht1 : target_w < 2 ^ 31) (ht2 : target_h < 2 ^ 31) :
    (CaptureWindowBgraScaled os hwnd target_w target_h out width height w).ok = true →
    (CaptureWindowBgraScaled os hwnd target_w target_h out width height w).wellFormed := by
  rcases hrc : os.GetWindowRect w.tick hwnd with _ | rc
  · simp [CaptureWindowBgraScaled, hrc]
  · have r1 := wrapInt32_range (rc.right - rc.left)
    have r2 := wrapInt32_range (rc.bottom - rc.top)
    simp only [CaptureWindowBgraScaled, hrc]
    repeat' split
    all_goals try (intro h; simp only [Bool.false_eq_true] at h)
    all_goals first
      | exact scaledThumbnailLoop_wellFormed _ _ _ _ _ _
      | exact renderScaled_wellFormed _ _ _ _ _ _ _ _ (by omega) (by omega) (by omega) (by omega)

theorem CaptureRectBgra_wellFormed (os : OS) (x y src_w src_h : Int) (out : List Nat)
    (w : World) (h1 : src_w < 2 ^ 31) (h2 : src_h < 2 ^ 31) :
    (CaptureRectBgra os x y src_w src_h out w).ok = true →
    (CaptureRectBgra os x y src_w src_h out w).wellFormed := by
  simp only [CaptureRectBgra]
  repeat' split
  all_goals intro h
  all_goals try (simp only [Bool.false_eq_true] at h)
  simp only [Capture.wellFormed, length_copyFrom]
  exact ⟨by omega, by omega, bufferSize_eq _ _ (by omega) (by omega) h1 h2⟩

theorem CaptureRectBgraScaled_wellFormed (os : OS) (x y src_w src_h max_w max_h : Int)
    (out : List Nat) (w : World) (h1 : src_w < 2 ^ 31) (h2 : src_h < 2 ^ 31)
    (h3 : max_w < 2 ^ 31) (h4 : max_h < 2 ^ 31) :
    (CaptureRectBgraScaled os x y src_w src_h max_w max_h out w).ok = true →
    (CaptureRectBgraScaled os x y src_w src_h max_w max_h out w).wellFormed := by
  by_cases hs : src_w ≤ 0 ∨ src_h ≤ 0
  · have e : ScaleToFit src_w src_h max_w max_h = (0, 0) := by simp [ScaleToFit, hs]
    simp [CaptureRectBgraScaled, e]
  · have hb := ScaleToFit_bounds src_w src_h max_w max_h (by omega) (by omega) h1 h2 h3 h4
    simp only [CaptureRectBgraScaled]
    repeat' split
    all_goals intro h
    all_goals try (simp only [Bool.false_eq_true] at h)
    simp only [Capture.wellFormed, length_copyFrom]
    exact ⟨by omega, by omega, bufferSize_eq _ _ (by omega) (by omega) (by omega) (by omega)⟩

theorem CaptureScreenBgra_wellFormed (os : OS) (out : List Nat) (w : World) :
    (CaptureScreenBgra os out w).ok = true → (CaptureScreenBgra os out w).wellFormed := by
  simp only [CaptureScreenBgra]
  split
  · intro h
    simp only [Bool.false_eq_true] at h
  · exact CaptureRectBgra_wellFormed _ _ _ _ _ _ _ (wrapInt32_range _).2 (wrapInt32_range _).2

/-! ## The thumbnail handler: reported size -/

/-- A successful conversion reports the dimensions `GetObject` gave for the bitmap. -/
theorem ReadHBitmapToBgra_dims (os : OS) (hbmp : HBITMAP) (out : List Nat)
    (width height : Int) (w : World) :
    (ReadHBitmapToBgra os hbmp out width height w).ok = true →
    ∃ bw bh, os.GetObject w.tick hbmp = some (bw, bh) ∧
      (ReadHBitmapToBgra os hbmp out width height w).width = wrapInt32 bw ∧
      (ReadHBitmapToBgra os hbmp out width height w).height = wrapInt32 bh := by
  simp only [ReadHBitmapToBgra]
  repeat' split
  all_goals intro h
  all_goals try (simp only [Bool.false_eq_true] at h)
  rename_i bw bh heq _ _
  exact ⟨bw, bh, heq, rfl, rfl⟩

/-- The render path of the scaled capture reports the size it was asked for. -/
theorem renderScaled_dims (os : OS) (hwnd : HWND) (src_w src_h : Int) (out : List Nat)
    (width height : Int) (w : World) :
    (renderScaled os hwnd src_w src_h out width height w).width = width ∧
    (renderScaled os hwnd src_w src_h out width height w).height = height := by
  simp only [renderScaled]
  repeat' split
  all_goals exact ⟨rfl, rfl⟩

/-- The effective maximum for a narrowed positive request does not exceed the request. -/
theorem effectiveMax_wrap_le (src raw : Int) (hraw : 0 < raw) (hs : src < 2 ^ 31) :
    effectiveMax src (wrapInt32 raw) ≤ raw := by
  unfold effectiveMax
  split_ifs with h
  · have := le_of_wrapInt32_nonpos raw hraw h
    omega
  · exact wrapInt32_le_of_pos raw hraw

/-! ## Bitmap-to-buffer conversion: when it succeeds -/

/-- Success of the conversion, read off the answers of the operating system. -/
theorem ReadHBitmapToBgra_ok_iff (os : OS) (hbmp : HBITMAP) (out : List Nat)
    (width height : Int) (w : World) :
    (ReadHBitmapToBgra os hbmp out width height w).ok = true ↔
      hbmp ≠ 0 ∧ ∃ bw bh, os.GetObject w.tick hbmp = some (bw, bh) ∧
        0 < wrapInt32 bw ∧ 0 < wrapInt32 bh ∧ os.GetDC (w.tick + 1) 0 ≠ 0 ∧
        wrapInt32 (os.GetDIBits (w.tick + 2) (os.GetDC (w.tick + 1) 0) hbmp
          (wrapInt32 bh).toNat).1 = wrapInt32 bh := by
  by_cases h0 : hbmp = 0
  · simp [ReadHBitmapToBgra, h0]
  · rcases hg : os.GetObject w.tick hbmp with _ | ⟨bw, bh⟩
    · simp [ReadHBitmapToBgra, h0, hg]
    · by_cases h1 : wrapInt32 bw ≤ 0 ∨ wrapInt32 bh ≤ 0
      · have h1' : ¬ (0 < wrapInt32 bw ∧ 0 < wrapInt32 bh) := by omega
        simp only [ReadHBitmapToBgra, h0, hg, h1, if_true, if_false, Bool.false_eq_true,
          false_iff, ne_eq, not_false_eq_true, true_and, Option.some.injEq, Prod.mk.injEq,
          not_exists, not_and]
        rintro a b ⟨rfl, rfl⟩ ha hb
        exact absurd ⟨ha, hb⟩ h1'
      · by_cases h2 : os.GetDC (w.tick + 1) 0 = 0
        · have e : (w.emit (Event.GetObject hbmp)).tick = w.tick + 1 := rfl
          simp only [ReadHBitmapToBgra, h0, hg, h1, if_false, e, h2, if_true,
            Bool.false_eq_true, false_iff, ne_eq, not_false_eq_true, true_and,
            Option.some.injEq, Prod.mk.injEq, not_exists, not_and]
          rintro a b ⟨rfl, rfl⟩ _ _ hc
          exact absurd trivial hc
        · have e : (w.emit (Event.GetObject hbmp)).tick = w.tick + 1 := rfl
          have e2 : ∀ ev, ((w.emit (Event.GetObject hbmp)).emit ev).tick = w.tick + 2 :=
            fun _ => rfl
          simp only [ReadHBitmapToBgra, h0, hg, h1, if_false, e, e2, h2,
            decide_eq_true_eq, ne_eq, not_false_eq_true, true_and,
            Option.some.injEq, Prod.mk.injEq]
          constructor
          · intro h
            have hp : 0 < wrapInt32 bw ∧ 0 < wrapInt32 bh := by omega
            exact ⟨bw, bh, ⟨rfl, rfl⟩, hp.1, hp.2, h⟩
          · rintro ⟨a, b, ⟨rfl, rfl⟩, _, _, h⟩
            exact h

/-! ## Traces: what a call appends -/

theorem ext_refl (p : Event → Bool) (w : World) : World.extendsWithout p w w :=
  ⟨[], by simp, by simp⟩

theorem ext_emit {p : Event → Bool} {w w' : World} {e : Event} (he : p e = false)
    (h : World.extendsWithout p w w') : World.extendsWithout p w (w'.emit e) := by
  obtain ⟨l, h1, h2⟩ := h
  refine ⟨l ++ [e], ?_, ?_⟩
  · simp [World.emit, h1]
  · intro x hx
    rcases List.mem_append.1 hx with h | h
    · exact h2 x h
    · rw [List.mem_singleton.1 h]; exact he

theorem ext_trans {p : Event → Bool} {w w' w'' : World} (h1 : World.extendsWithout p w w')
    (h2 : World.extendsWithout p w' w'') : World.extendsWithout p w w'' := by
  obtain ⟨l, a1, a2⟩ := h1
  obtain ⟨m, b1, b2⟩ := h2
  refine ⟨l ++ m, ?_, ?_⟩
  · rw [b1, a1, List.append_assoc]
  · intro x hx
    rcases List.mem_append.1 hx with h | h
    · exact a2 x h
    · exact b2 x h

theorem ReadHBitmapToBgra_ext (p : Event → Bool)
    (hp : ∀ e, e.isShowRequest = false → p e = false) (os : OS) (hbmp : HBITMAP)
    (out : List Nat) (width height : Int) (w : World) :
    World.extendsWithout p w (ReadHBitmapToBgra os hbmp out width height w).world := by
  simp only [ReadHBitmapToBgra]
  repeat' split
  all_goals try dsimp only
  all_goals repeat (first | exact ext_refl _ _ | apply ext_emit (hp _ (by rfl)))

theorem ForceDwmIconicBitmaps_ext (p : Event → Bool)
    (hp : ∀ e, e.isShowRequest = false → p e = false) (hwnd : HWND) (w : World) :
    World.extendsWithout p w (ForceDwmIconicBitmaps hwnd w) := by
  simp only [ForceDwmIconicBitmaps]
  repeat' split
  all_goals repeat (first | exact ext_refl _ _ | apply ext_emit (hp _ (by rfl)))

theorem renderWindow_ext (p : Event → Bool)
    (hp : ∀ e, e.isShowRequest = false → p e = false) (os : OS) (hwnd : HWND) (dc : HDC)
    (width height : Int) (w : World) :
    World.extendsWithout p w (renderWindow os hwnd dc width height w).2 := by
  simp only [renderWindow]
  repeat' split
  all_goals try dsimp only
  all_goals repeat (first | exact ext_refl _ _ | apply ext_emit (hp _ (by rfl)))

theorem isSelfRequest_of_not_show (e : Event) (h : e.isShowRequest = false) :
    e.isSelfRequest = false := by
  cases e <;> simp_all [Event.isShowRequest, Event.isSelfRequest]

theorem livePreviewStep_ext (p : Event → Bool)
    (hp : ∀ e, e.isShowRequest = false → p e = false) (os : OS) (hwnd : HWND)
    (fb : Fallback) : World.extendsWithout p fb.world (livePreviewStep os hwnd fb).world := by
  simp only [livePreviewStep]
  repeat' split
  all_goals try dsimp only
  all_goals repeat (first
    | exact ext_refl _ _
    | apply ext_emit (hp _ (by rfl))
    | apply ext_trans _ (ReadHBitmapToBgra_ext p hp _ _ _ _ _ _))

theorem thumbnailLoop_ext (p : Event → Bool)
    (hp : ∀ e, e.isShowRequest = false → p e = false) (os : OS) (hwnd : HWND) (tw th : Nat) :
    ∀ (n : Nat) (fb : Fallback),
      World.extendsWithout p fb.world (thumbnailLoop os hwnd tw th n fb).world := by
  intro n
  induction n with
  | zero => intro fb; exact ext_refl _ _
  | succ n ih =>
    intro fb
    simp only [thumbnailLoop]
    repeat' split
    all_goals try dsimp only
    · apply ext_emit (hp _ (by rfl))
      apply ext_trans _ (ReadHBitmapToBgra_ext p hp _ _ _ _ _ _)
      apply ext_emit (hp _ (by rfl))
      exact ext_refl _ _
    · apply ext_trans _ (ih _)
      apply ext_trans _ (ForceDwmIconicBitmaps_ext p hp _ _)
      apply ext_emit (hp _ (by rfl))
      apply ext_emit (hp _ (by rfl))
      apply ext_trans _ (ReadHBitmapToBgra_ext p hp _ _ _ _ _ _)
      apply ext_emit (hp _ (by rfl))
      exact ext_refl _ _
    · apply ext_trans _ (ih _)
      apply ext_trans _ (ForceDwmIconicBitmaps_ext p hp _ _)
      apply ext_emit (hp _ (by rfl))
      apply ext_emit (hp _ (by rfl))
      exact ext_refl _ _

theorem iconicFallbackChain_ext (p : Event → Bool)
    (hp : ∀ e, e.isShowRequest = false → p e = false) (os : OS) (hwnd : HWND)
    (width height : Int) (w : World) :
    World.extendsWithout p w (iconicFallbackChain os hwnd width height w).world := by
  simp only [iconicFallbackChain]
  split
  · apply ext_trans _ (thumbnailLoop_ext p hp _ _ _ _ _ _)
    apply ext_trans _ (livePreviewStep_ext p hp _ _ _)
    exact ForceDwmIconicBitmaps_ext p hp _ _
  · apply ext_trans _ (livePreviewStep_ext p hp _ _ _)
    exact ForceDwmIconicBitmaps_ext p hp _ _

theorem restoreFromIconic_ext (p : Event → Bool)
    (hp : ∀ e, e.isShowRequest = false → p e = false)
    (ha : ∀ hwnd cmd, p (.ShowWindowAsync hwnd cmd) = false) (os : OS) (hwnd : HWND)
    (width height : Int) (w : World) :
    World.extendsWithout p w (restoreFromIconic os hwnd width height w).2.2 := by
  simp only [restoreFromIconic]
  repeat' split
  all_goals try dsimp only
  all_goals repeat (first
    | exact ext_refl _ _
    | apply ext_emit (hp _ (by rfl))
    | apply ext_emit (ha _ _))

theorem renderCapture_ext (p : Event → Bool)
    (hp : ∀ e, e.isShowRequest = false → p e = false)
    (ha : ∀ hwnd cmd, p (.ShowWindowAsync hwnd cmd) = false) (os : OS) (hwnd : HWND)
    (r : Bool) (fb : Fallback) (out : List Nat) (width height : Int) (w : World) :
    World.extendsWithout p w (renderCapture os hwnd r fb out width height w).world := by
  simp only [renderCapture]
  repeat' split
  all_goals try dsimp only
  all_goals repeat (first
    | exact ext_refl _ _
    | apply ext_emit (hp _ (by rfl))
    | apply ext_emit (ha _ _)
    | apply ext_trans _ (renderWindow_ext p hp _ _ _ _ _ _))

theorem CaptureWindowBgra_ext (p : Event → Bool)
    (hp : ∀ e, e.isShowRequest = false → p e = false)
    (ha : ∀ hwnd cmd, p (.ShowWindowAsync hwnd cmd) = false) (os : OS) (hwnd : HWND)
    (out : List Nat) (width height : Int) (w : World) :
    World.extendsWithout p w (CaptureWindowBgra os hwnd out width height w).world := by
  simp only [CaptureWindowBgra]
  repeat' split
  all_goals try dsimp only
  all_goals repeat (first
    | exact ext_refl _ _
    | apply ext_emit (hp _ (by rfl))
    | apply ext_trans _ (renderCapture_ext p hp ha _ _ _ _ _ _ _ _)
    | apply ext_trans _ (restoreFromIconic_ext p hp ha _ _ _ _ _)
    | apply ext_trans _ (iconicFallbackChain_ext p hp _ _ _ _ _))

theorem CaptureRectBgra_ext (p : Event → Bool)
    (hp : ∀ e, e.isShowRequest = false → p e = false) (os : OS) (x y src_w src_h : Int)
    (out : List Nat) (w : World) :
    World.extendsWithout p w (CaptureRectBgra os x y src_w src_h out w).world := by
  simp only [CaptureRectBgra]
  repeat' split
  all_goals try dsimp only
  all_goals repeat (first | exact ext_refl _ _ | apply ext_emit (hp _ (by rfl)))

theorem CaptureScreenBgra_ext (p : Event → Bool)
    (hp : ∀ e, e.isShowRequest = false → p e = false) (os : OS) (out : List Nat)
    (w : World) : World.extendsWithout p w (CaptureScreenBgra os out w).world := by
  simp only [CaptureScreenBgra]
  repeat' split
  all_goals try dsimp only
  all_goals repeat (first
    | exact ext_refl _ _
    | apply ext_emit (hp _ (by rfl))
    | apply ext_trans _ (CaptureRectBgra_ext p hp _ _ _ _ _ _ _))

theorem isSelfOrChild_ext (p : Event → Bool)
    (hp : ∀ e, e.isShowRequest = false → p e = false) (os : OS) (self target : HWND)
    (w : World) : World.extendsWithout p w (isSelfOrChild os self target w).2 := by
  simp only [isSelfOrChild]
  repeat' split
  all_goals try dsimp only
  all_goals repeat (first | exact ext_refl _ _ | apply ext_emit (hp _ (by rfl)))

theorem isSelfOrChild_self_ne (os : OS) (self target : HWND) (w : World)
    (h : (isSelfOrChild os self target w).1 = true) : self ≠ 0 := by
  intro h0
  simp [isSelfOrChild, h0] at h

theorem waitForForeground_ext (p : Event → Bool)
    (hp : ∀ e, e.isShowRequest = false → p e = false) (os : OS) (self : HWND) :
    ∀ (n : Nat) (fg : HWND) (w : World),
      World.extendsWithout p w (waitForForeground os self n fg w).2 := by
  intro n
  induction n with
  | zero => intro fg w; exact ext_refl _ _
  | succ n ih =>
    intro fg w
    simp only [waitForForeground]
    repeat' split
    all_goals try dsimp only
    all_goals repeat (first
      | exact ext_refl _ _
      | apply ext_emit (hp _ (by rfl))
      | apply ext_trans _ (ih _ _))

theorem restoreSelf_selfRestored (self : HWND) (m : Bool) (w w' : World)
    (h : beforeRestore self m w w') : selfRestored self w (restoreSelf self m w') := by
  obtain ⟨l, e, h1, h2⟩ := h
  cases m with
  | false =>
    have hall := h2 rfl
    refine ⟨l, ?_, ?_, ?_⟩
    · simp [restoreSelf, e]
    · intro hm
      have := hall _ hm
      simp [Event.isSelfRequest] at this
    · intro _; exact hall
  | true =>
    obtain ⟨hm, hs⟩ := h1 rfl
    refine ⟨l ++ [Event.ShowWindow self .SW_RESTORE, Event.SetForegroundWindow self], ?_, ?_, ?_⟩
    · simp [restoreSelf, hs, World.emit, e]
    · intro _; exact ⟨l, rfl, hm⟩
    · intro hn
      exact absurd (List.mem_append_left _ hm) hn

theorem none_of_not_show (e : Event) (_ : e.isShowRequest = false) : Event.none e = false :=
  rfl

/-- After a minimize of the caller's window, whatever follows keeps it in the trace. -/
theorem beforeRestore_of_minimized (self : HWND) (w s w' : World) (hs : self ≠ 0)
    (h1 : World.extendsWithout Event.none w s)
    (h2 : World.extendsWithout Event.none (s.emit (.ShowWindow self .SW_MINIMIZE)) w') :
    beforeRestore self true w w' := by
  obtain ⟨la, ea, -⟩ := h1
  obtain ⟨lb, eb, -⟩ := h2
  refine ⟨la ++ [Event.ShowWindow self .SW_MINIMIZE] ++ lb, ?_, ?_, ?_⟩
  · rw [eb]
    simp [World.emit, ea]
  · intro _
    exact ⟨by simp, hs⟩
  · intro h; exact absurd h (by simp)

theorem beforeRestore_of_not_minimized (self : HWND) (w w' : World)
    (h : World.extendsWithout Event.isSelfRequest w w') : beforeRestore self false w w' := by
  obtain ⟨l, e, hl⟩ := h
  exact ⟨l, e, fun h => absurd h (by simp), fun _ => hl⟩

theorem captureScreenPixels_selfRestored (os : OS) (self : HWND) (w : World) :
    selfRestored self w (captureScreenPixels os self w).2 := by
  have a1 := isSelfOrChild_ext Event.none none_of_not_show os self
    (os.GetForegroundWindow w.tick)
    (w.emit (.GetForegroundWindow (os.GetForegroundWindow w.tick)))
  have a2 := isSelfOrChild_ext Event.isSelfRequest isSelfRequest_of_not_show os self
    (os.GetForegroundWindow w.tick)
    (w.emit (.GetForegroundWindow (os.GetForegroundWindow w.tick)))
  have a3 := isSelfOrChild_self_ne os self (os.GetForegroundWindow w.tick)
    (w.emit (.GetForegroundWindow (os.GetForegroundWindow w.tick)))
  simp only [captureScreenPixels]
  generalize isSelfOrChild os self (os.GetForegroundWindow w.tick)
    (w.emit (.GetForegroundWindow (os.GetForegroundWindow w.tick))) = s at a1 a2 a3 ⊢
  obtain ⟨m, ws⟩ := s
  have b1 : World.extendsWithout Event.none w ws :=
    ext_trans (ext_emit (by rfl) (ext_refl _ _)) a1
  have b2 : World.extendsWithout Event.isSelfRequest w ws :=
    ext_trans (ext_emit (by rfl) (ext_refl _ _)) a2
  cases m with
  | false =>
    simp only [Bool.false_eq_true, if_false]
    have key : beforeRestore self false w (CaptureScreenBgra os [] ws).world :=
      beforeRestore_of_not_minimized self w _
        (ext_trans b2 (CaptureScreenBgra_ext _ isSelfRequest_of_not_show _ _ _))
    have := restoreSelf_selfRestored self false w _ key
    split <;> exact this
  | true =>
    simp only [if_true]
    have key : beforeRestore self true w (CaptureScreenBgra os []
        ((ws.emit (.ShowWindow self .SW_MINIMIZE)).emit (.Sleep 120))).world :=
      beforeRestore_of_minimized self w ws _ (a3 rfl) b1
        (ext_trans (ext_emit (by rfl) (ext_refl _ _))
          (CaptureScreenBgra_ext _ none_of_not_show _ _ _))
    have := restoreSelf_selfRestored self true w _ key
    split <;> exact this

theorem captureActiveWindowPixels_selfRestored (os : OS) (self : HWND) (w : World) :
    selfRestored self w (captureActiveWindowPixels os self w).2 := by
  have a1 := isSelfOrChild_ext Event.none none_of_not_show os self
    (os.GetForegroundWindow w.tick)
    (w.emit (.GetForegroundWindow (os.GetForegroundWindow w.tick)))
  have a2 := isSelfOrChild_ext Event.isSelfRequest isSelfRequest_of_not_show os self
    (os.GetForegroundWindow w.tick)
    (w.emit (.GetForegroundWindow (os.GetForegroundWindow w.tick)))
  have a3 := isSelfOrChild_self_ne os self (os.GetForegroundWindow w.tick)
    (w.emit (.GetForegroundWindow (os.GetForegroundWindow w.tick)))
  simp only [captureActiveWindowPixels]
  generalize isSelfOrChild os self (os.GetForegroundWindow w.tick)
    (w.emit (.GetForegroundWindow (os.GetForegroundWindow w.tick))) = s at a1 a2 a3 ⊢
  obtain ⟨m, ws⟩ := s
  have b1 : World.extendsWithout Event.none w ws :=
    ext_trans (ext_emit (by rfl) (ext_refl _ _)) a1
  have b2 : World.extendsWithout Event.isSelfRequest w ws :=
    ext_trans (ext_emit (by rfl) (ext_refl _ _)) a2
  cases m with
  | false =>
    simp only [Bool.false_eq_true, if_false]
    have c1 : World.extendsWithout Event.isSelfRequest w
        (if os.GetForegroundWindow w.tick = 0 then (true, ws)
          else isSelfOrChild os self (os.GetForegroundWindow w.tick) ws).2 := by
      split
      · exact b2
      · exact ext_trans b2 (isSelfOrChild_ext _ isSelfRequest_of_not_show _ _ _ _)
    generalize (if os.GetForegroundWindow w.tick = 0 then (true, ws)
          else isSelfOrChild os self (os.GetForegroundWindow w.tick) ws) = blocked at c1 ⊢
    split
    · exact restoreSelf_selfRestored self false w _
        (beforeRestore_of_not_minimized self w _ c1)
    · have key : beforeRestore self false w
          (CaptureWindowBgra os (os.GetForegroundWindow w.tick) [] 0 0 blocked.2).world :=
        beforeRestore_of_not_minimized self w _
          (ext_trans c1 (CaptureWindowBgra_ext _ isSelfRequest_of_not_show
            (fun _ _ => rfl) _ _ _ _ _ _))
      have := restoreSelf_selfRestored self false w _ key
      split <;> exact this
  | true =>
    simp only [if_true]
    have c0 := waitForForeground_ext Event.none none_of_not_show os self 10
      (os.GetForegroundWindow w.tick)
      ((ws.emit (.ShowWindow self .SW_MINIMIZE)).emit (.Sleep 120))
    generalize waitForForeground os self 10 (os.GetForegroundWindow w.tick)
      ((ws.emit (.ShowWindow self .SW_MINIMIZE)).emit (.Sleep 120)) = r at c0 ⊢
    have c1 : World.extendsWithout Event.none (ws.emit (.ShowWindow self .SW_MINIMIZE))
        (if r.1 = 0 then (true, r.2) else isSelfOrChild os self r.1 r.2).2 := by
      have c2 : World.extendsWithout Event.none (ws.emit (.ShowWindow self .SW_MINIMIZE)) r.2 :=
        ext_trans (ext_emit (by rfl) (ext_refl _ _)) c0
      split
      · exact c2
      · exact ext_trans c2 (isSelfOrChild_ext _ none_of_not_show _ _ _ _)
    generalize (if r.1 = 0 then (true, r.2) else isSelfOrChild os self r.1 r.2) = blocked
      at c1 ⊢
    split
    · exact restoreSelf_selfRestored self true w _
        (beforeRestore_of_minimized self w ws _ (a3 rfl) b1 c1)
    · have key : beforeRestore self true w
          (CaptureWindowBgra os r.1 [] 0 0 blocked.2).world :=
        beforeRestore_of_minimized self w ws _ (a3 rfl) b1
          (ext_trans c1 (CaptureWindowBgra_ext _ none_of_not_show
            (fun _ _ => rfl) _ _ _ _ _ _))
      have := restoreSelf_selfRestored self true w _ key
      split <;> exact this

/-! ## Full-resolution capture: failure -/

/-- A failed render part leaves `out` as it was. -/
theorem renderCapture_out (os : OS) (hwnd : HWND) (r : Bool) (fb : Fallback)
    (out : List Nat) (width height : Int) (w : World) :
    (renderCapture os hwnd r fb out width height w).ok = false →
    (renderCapture os hwnd r fb out width height w).out = out := by
  simp only [renderCapture]
  repeat' split
  all_goals intro h
  all_goals try (simp only [Bool.true_eq_false] at h)
  all_goals rfl

/-- A failed `CaptureWindowBgra` leaves the caller's `out` as it was. -/
theorem CaptureWindowBgra_out (os : OS) (hwnd : HWND) (out : List Nat) (width height : Int)
    (w : World) :
    (CaptureWindowBgra os hwnd out width height w).ok = false →
    (CaptureWindowBgra os hwnd out width height w).out = out := by
  simp only [CaptureWindowBgra]
  repeat' split
  all_goals try (intro _; rfl)
  all_goals exact renderCapture_out _ _ _ _ _ _ _ _

/-! ## Monitor enumeration -/

theorem monitorEnumCallback_numbered (os : OS) (ctx : MonCtx) (hmon : HMONITOR)
    (h : ctx.numbered) : (monitorEnumCallback os ctx hmon).numbered := by
  obtain ⟨h1, h2, h3⟩ := h
  simp only [monitorEnumCallback]
  repeat' split
  · exact ⟨h1, h2, h3⟩
  · exact ⟨h1, h2, h3⟩
  · rename_i mi _ hpos
    refine ⟨?_, ?_, ?_⟩
    · simp only [List.length_append, List.length_singleton, h1]
      push_cast
      rfl
    · simp only [List.map_append, List.length_append, List.length_singleton, List.range_succ,
        List.map_cons, List.map_nil, h2, h1]
    · intro m hm
      rcases List.mem_append.1 hm with hm | hm
      · exact h3 m hm
      · rw [List.mem_singleton.1 hm]
        simp only []
        omega

theorem foldl_monitorEnumCallback_numbered (os : OS) :
    ∀ (monitors : List HMONITOR) (ctx : MonCtx), ctx.numbered →
      (monitors.foldl (monitorEnumCallback os) ctx).numbered := by
  intro monitors
  induction monitors with
  | nil => intro ctx h; exact h
  | cons a l ih =>
    intro ctx h
    exact ih _ (monitorEnumCallback_numbered os ctx a h)

theorem foldl_monitorEnumCallback_sublist (os : OS) :
    ∀ (monitors : List HMONITOR) (ctx : MonCtx),
      ∃ l, (monitors.foldl (monitorEnumCallback os) ctx).out = ctx.out ++ l ∧
        (l.map (fun m => m.id)).Sublist monitors := by
  intro monitors
  induction monitors with
  | nil => intro ctx; exact ⟨[], by simp, by simp⟩
  | cons a l ih =>
    intro ctx
    obtain ⟨l', e, hs⟩ := ih (monitorEnumCallback os ctx a)
    simp only [List.foldl_cons]
    have hcb : (monitorEnumCallback os ctx a).out = ctx.out ∨
        ∃ m, m.id = a ∧ (monitorEnumCallback os ctx a).out = ctx.out ++ [m] := by
      simp only [monitorEnumCallback]
      repeat' split
      · exact Or.inl rfl
      · exact Or.inl rfl
      · exact Or.inr ⟨_, rfl, rfl⟩
    rcases hcb with hcb | ⟨m, hm, hcb⟩
    · exact ⟨l', by rw [e, hcb], hs.cons a⟩
    · refine ⟨m :: l', by rw [e, hcb, List.append_assoc]; rfl, ?_⟩
      simp only [List.map_cons, hm]
      exact hs.cons₂ a

theorem listMonitors_spec (os : OS) (w : World) :
    ∃ l, (listMonitors os w).1 = .MonitorList l ∧
      l.map (fun m => m.index) = (List.range l.length).map (fun (k : Nat) => (k : Int) + 1) ∧
      (∀ m ∈ l, 0 < m.width ∧ 0 < m.height) ∧
      (l.map (fun m => m.id)).Sublist (os.EnumDisplayMonitors w.tick) := by
  have h0 : (MonCtx.mk 0 [] (w.emit .EnumDisplayMonitors)).numbered :=
    ⟨rfl, rfl, by simp⟩
  have hn := foldl_monitorEnumCallback_numbered os (os.EnumDisplayMonitors w.tick) _ h0
  simp only [listMonitors]
  refine ⟨_, rfl, hn.2.1, hn.2.2, ?_⟩
  obtain ⟨l, e, hs⟩ := foldl_monitorEnumCallback_sublist os (os.EnumDisplayMonitors w.tick)
    ⟨0, [], w.emit .EnumDisplayMonitors⟩
  rw [e]
  simpa using hs

/-! ## Window enumeration -/

theorem CaptureRectBgraScaled_dims (os : OS) (x y src_w src_h max_w max_h : Int)
    (out : List Nat) (w : World) :
    ((CaptureRectBgraScaled os x y src_w src_h max_w max_h out w).width,
      (CaptureRectBgraScaled os x y src_w src_h max_w max_h out w).height) =
      ScaleToFit src_w src_h max_w max_h := by
  simp only [CaptureRectBgraScaled]
  repeat' split
  all_goals rfl

theorem CaptureRectBgra_dims (os : OS) (x y src_w src_h : Int) (out : List Nat) (w : World) :
    ((CaptureRectBgra os x y src_w src_h out w).width,
      (CaptureRectBgra os x y src_w src_h out w).height) = (src_w, src_h) := by
  simp only [CaptureRectBgra]
  repeat' split
  all_goals rfl

/-! ## Release of resources -/

theorem account_append (os : OS) : ∀ (l m : List Event) (t : Nat) (g : Ledger),
    account os t g (l ++ m) = account os (t + l.length) (account os t g l) m := by
  intro l
  induction l with
  | nil => intro m t g; simp [account]
  | cons e l ih =>
    intro m t g
    have e1 : t + (l.length + 1) = t + 1 + l.length := by omega
    simp only [List.cons_append, account, List.length_cons]
    rw [e1]
    exact ih m (t + 1) _

theorem step_held (os : OS) (t : Nat) (g : Ledger) (e : Event) :
    (g.step os t e).held =
      match e.releases with
      | some r => g.held.erase r
      | none =>
        match e.acquires os t with
        | some r => r :: g.held
        | none => g.held := by
  unfold Ledger.step
  split
  · split
    · rfl
    · rename_i h
      simp [List.erase_of_not_mem h]
  · split <;> rfl

theorem owes_refl (os : OS) (P : List Resource) (w : World) : World.owes os P w w := by
  refine ⟨[], by simp, by simp, ?_⟩
  intro g
  simp only [account]
  exact Multiset.le_add_left _ _

theorem owes_step {os : OS} {P Q : List Resource} {w w' : World} {e : Event}
    (hs : ∀ g : Ledger, ∀ H : List Resource, (g.held : Multiset Resource) ≤ (Q : Multiset Resource) + H →
      ((g.step os w'.tick e).held : Multiset Resource) ≤ (P : Multiset Resource) + H)
    (h : World.owes os Q w w') : World.owes os P w (w'.emit e) := by
  obtain ⟨l, h1, h2, h3⟩ := h
  refine ⟨l ++ [e], by simp [World.emit, h1], by simp [World.emit, h2]; omega, ?_⟩
  intro g
  rw [account_append]
  simp only [account]
  rw [← h2]
  exact hs _ _ (h3 g)

theorem owes_neutral {os : OS} {P : List Resource} {w w' : World} {e : Event}
    (h1 : e.releases = none) (h2 : e.acquires os w'.tick = none)
    (h : World.owes os P w w') : World.owes os P w (w'.emit e) := by
  refine owes_step ?_ h
  intro g H hg
  rw [step_held, h1, h2]
  exact hg

theorem owes_release {os : OS} {P : List Resource} {w w' : World} {e : Event} {r : Resource}
    (h1 : e.releases = some r)
    (h : World.owes os (r :: P) w w') : World.owes os P w (w'.emit e) := by
  refine owes_step ?_ h
  intro g H hg
  rw [step_held, h1]
  simp only
  rw [← Multiset.coe_erase]
  have := Multiset.erase_le_erase r hg
  rw [← Multiset.cons_coe, Multiset.cons_add, Multiset.erase_cons_head] at this
  exact this

theorem owes_acquire {os : OS} {P : List Resource} {w w' : World} {e : Event} {r : Resource}
    (h1 : e.releases = none) (h2 : ∀ r', e.acquires os w'.tick = some r' → r' = r)
    (h : World.owes os P w w') : World.owes os (r :: P) w (w'.emit e) := by
  refine owes_step ?_ h
  intro g H hg
  rw [step_held, h1]
  simp only
  rw [← Multiset.cons_coe, Multiset.cons_add]
  cases ha : e.acquires os w'.tick with
  | none => exact hg.trans (Multiset.le_cons_self _ _)
  | some r' =>
    rw [h2 r' ha]
    simp only
    rw [← Multiset.cons_coe]
    exact Multiset.cons_le_cons _ hg

theorem owes_swap {os : OS} {P : List Resource} {w w' : World} {a b : Resource}
    (h : World.owes os (b :: a :: P) w w') : World.owes os (a :: b :: P) w w' := by
  obtain ⟨l, h1, h2, h3⟩ := h
  refine ⟨l, h1, h2, ?_⟩
  intro g
  have := h3 g
  rwa [show ((a :: b :: P : List Resource) : Multiset Resource) = (b :: a :: P : List Resource) from
    Quot.sound (List.Perm.swap _ _ _)]

theorem owes_trans {os : OS} {P : List Resource} {w w' w'' : World}
    (h1 : World.owes os P w w') (h2 : World.owes os [] w' w'') : World.owes os P w w'' := by
  obtain ⟨l, a1, a2, a3⟩ := h1
  obtain ⟨m, b1, b2, b3⟩ := h2
  refine ⟨l ++ m, by rw [b1, a1, List.append_assoc], by rw [b2, a2, List.length_append]; omega, ?_⟩
  intro g
  rw [account_append, ← a2]
  have := b3 (account os w.tick g l)
  simp only [Multiset.coe_nil, zero_add] at this
  exact this.trans (a3 g)

theorem owes_releasedAll {os : OS} {w w' : World} (h : World.owes os [] w w') :
    World.releasedAll os w w' := by
  obtain ⟨l, h1, _, h3⟩ := h
  refine ⟨l, h1, ?_⟩
  have := h3 ⟨[], []⟩
  simp only [Multiset.coe_nil, add_zero] at this
  have h0 := Multiset.le_zero.1 this
  exact (Multiset.coe_eq_zero _).1 h0

theorem ReadHBitmapToBgra_owes (os : OS) (hbmp : HBITMAP) (out : List Nat) (width height : Int) (w : World) :
    World.owes os [] w (ReadHBitmapToBgra os hbmp out width height w).world := by
  simp only [ReadHBitmapToBgra]
  repeat' split
  all_goals try dsimp only
  all_goals repeat (first
    | exact owes_refl _ _ _
    | apply owes_neutral (by rfl) (by rfl)
    | apply owes_release (by rfl)
    | apply owes_acquire (by rfl) (by
          intro r2 h2
          simp only [Event.acquires, handedOut] at h2
          split_ifs at h2
          cases h2
          rfl)
    | apply owes_neutral (by rfl) (by simp_all [Event.acquires, handedOut]))

theorem ForceDwmIconicBitmaps_owes (os : OS) (hwnd : HWND) (w : World) :
    World.owes os [] w (ForceDwmIconicBitmaps hwnd w) := by
  simp only [ForceDwmIconicBitmaps]
  repeat' split
  all_goals repeat (first
    | exact owes_refl _ _ _
    | apply owes_neutral (by rfl) (by rfl))

theorem renderWindow_owes (os : OS) (hwnd : HWND) (dc : HDC) (width height : Int) (w : World) :
    World.owes os [] w (renderWindow os hwnd dc width height w).2 := by
  simp only [renderWindow]
  repeat' split
  all_goals try dsimp only
  all_goals repeat (first
    | exact owes_refl _ _ _
    | apply owes_neutral (by rfl) (by rfl)
    | apply owes_release (by rfl)
    | apply owes_acquire (by rfl) (by
          intro r2 h2
          simp only [Event.acquires, handedOut] at h2
          split_ifs at h2
          cases h2
          rfl)
    | apply owes_neutral (by rfl) (by simp_all [Event.acquires, handedOut]))

theorem livePreviewStep_owes (os : OS) (hwnd : HWND) (fb : Fallback) :
    World.owes os [] fb.world (livePreviewStep os hwnd fb).world := by
  simp only [livePreviewStep]
  repeat' split
  all_goals try dsimp only
  all_goals repeat (first
    | exact owes_refl _ _ _
    | apply owes_neutral (by rfl) (by rfl)
    | apply owes_release (by rfl)
    | apply owes_acquire (by rfl) (by
          intro r2 h2
          simp only [Event.acquires, handedOut] at h2
          split_ifs at h2
          cases h2
          rfl)
    | apply owes_neutral (by rfl) (by simp_all [Event.acquires, handedOut])
    | apply owes_trans _ (ReadHBitmapToBgra_owes _ _ _ _ _ _))

theorem thumbnailLoop_owes (os : OS) (hwnd : HWND) (tw th : Nat) :
    ∀ (n : Nat) (fb : Fallback),
      World.owes os [] fb.world (thumbnailLoop os hwnd tw th n fb).world := by
  intro n
  induction n with
  | zero => intro fb; exact owes_refl _ _ _
  | succ n ih =>
    intro fb
    simp only [thumbnailLoop]
    repeat' split
    all_goals try refine owes_trans ?_ (ih _)
    all_goals dsimp only
    all_goals repeat (first
      | exact owes_refl _ _ _
      | apply owes_neutral (by rfl) (by rfl)
      | apply owes_release (by rfl)
      | apply owes_acquire (by rfl) (by
            intro r2 h2
            simp only [Event.acquires, handedOut] at h2
            split_ifs at h2
            cases h2
            rfl)
      | apply owes_neutral (by rfl) (by simp_all [Event.acquires, handedOut])
      | apply owes_trans _ (ReadHBitmapToBgra_owes _ _ _ _ _ _)
      | apply owes_trans _ (ForceDwmIconicBitmaps_owes _ _ _))

theorem iconicFallbackChain_owes (os : OS) (hwnd : HWND) (width height : Int) (w : World) :
    World.owes os [] w (iconicFallbackChain os hwnd width height w).world := by
  simp only [iconicFallbackChain]
  repeat' split
  all_goals repeat (first
    | exact owes_refl _ _ _
    | apply owes_trans _ (thumbnailLoop_owes _ _ _ _ _ _)
    | apply owes_trans _ (livePreviewStep_owes _ _ _)
    | apply owes_trans _ (ForceDwmIconicBitmaps_owes _ _ _))

theorem restoreFromIconic_owes (os : OS) (hwnd : HWND) (width height : Int) (w : World) :
    World.owes os [] w (restoreFromIconic os hwnd width height w).2.2 := by
  simp only [restoreFromIconic]
  repeat' split
  all_goals try dsimp only
  all_goals repeat (first
    | exact owes_refl _ _ _
    | apply owes_neutral (by rfl) (by rfl))

theorem renderCapture_owes (os : OS) (hwnd : HWND) (restored_from_iconic : Bool) (fb : Fallback) (out : List Nat) (width height : Int) (w : World) :
    World.owes os [] w (renderCapture os hwnd restored_from_iconic fb out width height w).world := by
  simp only [renderCapture]
  repeat' split
  all_goals try dsimp only
  all_goals repeat (first
    | exact owes_refl _ _ _
    | apply owes_neutral (by rfl) (by rfl)
    | apply owes_release (by rfl)
    | apply owes_acquire (by rfl) (by
          intro r2 h2
          simp only [Event.acquires, handedOut] at h2
          split_ifs at h2
          cases h2
          rfl)
    | apply owes_neutral (by rfl) (by simp_all [Event.acquires, handedOut])
    | apply owes_trans _ (renderWindow_owes _ _ _ _ _ _))

theorem CaptureWindowBgra_owes (os : OS) (hwnd : HWND) (out : List Nat) (width height : Int) (w : World) :
    World.owes os [] w (CaptureWindowBgra os hwnd out width height w).world := by
  simp only [CaptureWindowBgra]
  repeat' split
  all_goals try dsimp only
  all_goals repeat (first
    | exact owes_refl _ _ _
    | apply owes_neutral (by rfl) (by rfl)
    | apply owes_trans _ (renderCapture_owes _ _ _ _ _ _ _ _)
    | apply owes_trans _ (restoreFromIconic_owes _ _ _ _ _)
    | apply owes_trans _ (iconicFallbackChain_owes _ _ _ _ _))

theorem scaledThumbnailLoop_owes (os : OS) (hwnd : HWND) (tw th : Nat) :
    ∀ (n : Nat) (c : Capture),
      World.owes os [] c.world (scaledThumbnailLoop os hwnd tw th n c).world := by
  intro n
  induction n with
  | zero => intro c; exact owes_refl _ _ _
  | succ n ih =>
    intro c
    simp only [scaledThumbnailLoop]
    repeat' split
    all_goals try refine owes_trans ?_ (ih _)
    all_goals dsimp only
    all_goals repeat (first
      | exact owes_refl _ _ _
      | apply owes_neutral (by rfl) (by rfl)
      | apply owes_release (by rfl)
      | apply owes_acquire (by rfl) (by
            intro r2 h2
            simp only [Event.acquires, handedOut] at h2
            split_ifs at h2
            cases h2
            rfl)
      | apply owes_neutral (by rfl) (by simp_all [Event.acquires, handedOut])
      | apply owes_trans _ (ReadHBitmapToBgra_owes _ _ _ _ _ _)
      | apply owes_trans _ (ForceDwmIconicBitmaps_owes _ _ _))

theorem renderScaled_owes (os : OS) (hwnd : HWND) (src_w src_h : Int) (out : List Nat) (width height : Int) (w : World) :
    World.owes os [] w (renderScaled os hwnd src_w src_h out width height w).world := by
  simp only [renderScaled, releaseScaled]
  repeat' split
  all_goals try dsimp only
  all_goals repeat (first
    | exact owes_refl _ _ _
    | apply owes_neutral (by rfl) (by rfl)
    | apply owes_release (by rfl)
    | apply owes_acquire (by rfl) (by
          intro r2 h2
          simp only [Event.acquires, handedOut] at h2
          split_ifs at h2
          cases h2
          rfl)
    | (apply owes_swap; apply owes_acquire (by rfl) (by
          intro r2 h2
          simp only [Event.acquires, handedOut] at h2
          split_ifs at h2
          cases h2
          rfl))
    | apply owes_neutral (by rfl) (by simp_all [Event.acquires, handedOut])
    | apply owes_trans _ (renderWindow_owes _ _ _ _ _ _))

theorem CaptureWindowBgraScaled_owes (os : OS) (hwnd : HWND) (target_w target_h : Int) (out : List Nat) (width height : Int) (w : World) :
    World.owes os [] w (CaptureWindowBgraScaled os hwnd target_w target_h out width height w).world := by
  simp only [CaptureWindowBgraScaled]
  repeat' split
  all_goals try dsimp only
  all_goals repeat (first
    | exact owes_refl _ _ _
    | apply owes_neutral (by rfl) (by rfl)
    | apply owes_trans _ (renderScaled_owes _ _ _ _ _ _ _ _)
    | apply owes_trans _ (scaledThumbnailLoop_owes _ _ _ _ _ _)
    | apply owes_trans _ (ForceDwmIconicBitmaps_owes _ _ _))

theorem CaptureRectBgra_owes (os : OS) (x y src_w src_h : Int) (out : List Nat) (w : World) :
    World.owes os [] w (CaptureRectBgra os x y src_w src_h out w).world := by
  simp only [CaptureRectBgra]
  repeat' split
  all_goals try dsimp only
  all_goals repeat (first
    | exact owes_refl _ _ _
    | apply owes_neutral (by rfl) (by rfl)
    | apply owes_release (by rfl)
    | apply owes_acquire (by rfl) (by
          intro r2 h2
          simp only [Event.acquires, handedOut] at h2
          split_ifs at h2
          cases h2
          rfl)
    | apply owes_neutral (by rfl) (by simp_all [Event.acquires, handedOut]))

theorem CaptureRectBgraScaled_owes (os : OS) (x y src_w src_h max_w max_h : Int) (out : List Nat) (w : World) :
    World.owes os [] w (CaptureRectBgraScaled os x y src_w src_h max_w max_h out w).world := by
  simp only [CaptureRectBgraScaled]
  repeat' split
  all_goals try dsimp only
  all_goals repeat (first
    | exact owes_refl _ _ _
    | apply owes_neutral (by rfl) (by rfl)
    | apply owes_release (by rfl)
    | apply owes_acquire (by rfl) (by
          intro r2 h2
          simp only [Event.acquires, handedOut] at h2
          split_ifs at h2
          cases h2
          rfl)
    | apply owes_neutral (by rfl) (by simp_all [Event.acquires, handedOut]))

/-! ## Thumbnail retries -/

theorem adv_refl (w : World) : World.advances w w := ⟨[], by simp, by simp, by simp⟩

theorem adv_emit {w w' : World} {e : Event} (he : e.isThumbnailCall = false)
    (h : World.advances w w') : World.advances w (w'.emit e) := by
  obtain ⟨l, h1, h2, h3⟩ := h
  refine ⟨l ++ [e], by simp [World.emit, h1], by simp [World.emit, h2]; omega, ?_⟩
  intro x hx
  rcases List.mem_append.1 hx with h | h
  · exact h3 x h
  · rw [List.mem_singleton.1 h]; exact he

theorem adv_trans {w w' w'' : World} (h1 : World.advances w w')
    (h2 : World.advances w' w'') : World.advances w w'' := by
  obtain ⟨l, a1, a2, a3⟩ := h1
  obtain ⟨m, b1, b2, b3⟩ := h2
  refine ⟨l ++ m, by rw [b1, a1, List.append_assoc],
    by rw [b2, a2, List.length_append]; omega, ?_⟩
  intro x hx
  rcases List.mem_append.1 hx with h | h
  · exact a3 x h
  · exact b3 x h

theorem quiet_not_converts (os : OS) (t : Nat) (e : Event) (h : e.isThumbnailCall = false) :
    thumbnailConverts os t e = false := by
  cases e <;> first | rfl | simp [Event.isThumbnailCall] at h

theorem quiet_anyConverts (os : OS) : ∀ (l : List Event) (t : Nat),
    (∀ e ∈ l, e.isThumbnailCall = false) → anyConverts os t l = false := by
  intro l
  induction l with
  | nil => intro t _; rfl
  | cons e l ih =>
    intro t h
    simp only [anyConverts, quiet_not_converts os t e (h e (List.mem_cons_self _ _)),
      Bool.false_or]
    exact ih _ (fun x hx => h x (List.mem_cons_of_mem _ hx))

theorem quiet_stops (os : OS) : ∀ (l : List Event) (t : Nat),
    (∀ e ∈ l, e.isThumbnailCall = false) → stopsAfterConversion os t l = true := by
  intro l
  induction l with
  | nil => intro t _; rfl
  | cons e l ih =>
    intro t h
    simp only [stopsAfterConversion, quiet_not_converts os t e (h e (List.mem_cons_self _ _)),
      Bool.not_false, Bool.true_or, Bool.true_and]
    exact ih _ (fun x hx => h x (List.mem_cons_of_mem _ hx))

theorem quiet_countP (l : List Event) (h : ∀ e ∈ l, e.isThumbnailCall = false) :
    l.countP Event.isThumbnailCall = 0 := by
  rw [List.countP_eq_zero]
  intro e he
  simp [h e he]

theorem anyConverts_append (os : OS) : ∀ (l m : List Event) (t : Nat),
    anyConverts os t (l ++ m) = (anyConverts os t l || anyConverts os (t + l.length) m) := by
  intro l
  induction l with
  | nil => intro m t; simp [anyConverts]
  | cons e l ih =>
    intro m t
    have e1 : t + (l.length + 1) = t + 1 + l.length := by omega
    simp only [List.cons_append, anyConverts, List.length_cons, e1, Bool.or_assoc]
    rw [← ih m (t + 1)]
    rfl

theorem stops_append (os : OS) : ∀ (l m : List Event) (t : Nat),
    stopsAfterConversion os t l = true → stopsAfterConversion os (t + l.length) m = true →
    (anyConverts os t l = true → ∀ e ∈ m, e.isThumbnailCall = false) →
    stopsAfterConversion os t (l ++ m) = true := by
  intro l
  induction l with
  | nil => intro m t _ h2 _; simpa using h2
  | cons e l ih =>
    intro m t h1 h2 h3
    have e1 : t + (l.length + 1) = t + 1 + l.length := by omega
    simp only [stopsAfterConversion, Bool.and_eq_true, Bool.or_eq_true, Bool.not_eq_true',
      List.all_eq_true] at h1
    simp only [List.cons_append, stopsAfterConversion, Bool.and_eq_true, Bool.or_eq_true,
      Bool.not_eq_true', List.all_eq_true]
    simp only [List.length_cons, e1] at h2
    simp only [anyConverts, Bool.or_eq_true] at h3
    refine ⟨?_, ih m (t + 1) h1.2 h2 (fun h => h3 (.inr h))⟩
    rcases h1.1 with hc | hq
    · exact .inl hc
    · cases hc : thumbnailConverts os t e
      · exact .inl rfl
      · right
        intro x hx
        rcases List.mem_append.1 hx with h | h
        · exact hq x h
        · simp [h3 (.inl hc) x h]

theorem retries_of_adv {os : OS} {w w' : World} (n : Nat) (h : World.advances w w') :
    World.retries os n false w w' := by
  obtain ⟨l, h1, h2, h3⟩ := h
  exact ⟨l, h1, h2, by rw [quiet_countP l h3]; omega, quiet_stops os l _ h3,
    quiet_anyConverts os l _ h3⟩

theorem retries_after {os : OS} {n : Nat} {conv : Bool} {w w' w'' : World}
    (h1 : World.advances w w') (h2 : World.retries os n conv w' w'') :
    World.retries os n conv w w'' := by
  obtain ⟨l, a1, a2, a3⟩ := h1
  obtain ⟨m, b1, b2, b3, b4, b5⟩ := h2
  refine ⟨l ++ m, by rw [b1, a1, List.append_assoc],
    by rw [b2, a2, List.length_append]; omega, ?_, ?_, ?_⟩
  · rw [List.countP_append, quiet_countP l a3]; omega
  · refine stops_append os l m _ (quiet_stops os l _ a3) (by rw [← a2]; exact b4) ?_
    intro h
    rw [quiet_anyConverts os l _ a3] at h
    cases h
  · rw [anyConverts_append, quiet_anyConverts os l _ a3, ← a2, b5, Bool.false_or]

theorem retries_before {os : OS} {n : Nat} {conv : Bool} {w w' w'' : World}
    (h1 : World.retries os n conv w w') (h2 : World.advances w' w'') :
    World.retries os n conv w w'' := by
  obtain ⟨l, a1, a2, a3, a4, a5⟩ := h1
  obtain ⟨m, b1, b2, b3⟩ := h2
  refine ⟨l ++ m, by rw [b1, a1, List.append_assoc],
    by rw [b2, a2, List.length_append]; omega, ?_, ?_, ?_⟩
  · rw [List.countP_append, quiet_countP m b3]; omega
  · exact stops_append os l m _ a4 (quiet_stops os m _ b3) (fun _ => b3)
  · rw [anyConverts_append, a5, quiet_anyConverts os m _ b3, Bool.or_false]

theorem retries_mono {os : OS} {n m : Nat} {conv : Bool} {w w' : World} (hnm : n ≤ m)
    (h : World.retries os n conv w w') : World.retries os m conv w w' := by
  obtain ⟨l, a1, a2, a3, a4, a5⟩ := h
  exact ⟨l, a1, a2, by omega, a4, a5⟩

theorem retries_attempt_failed {os : OS} {n : Nat} {conv : Bool} {w w' : World} (e : Event)
    (hc : thumbnailConverts os w.tick e = false)
    (h : World.retries os n conv (w.emit e) w') : World.retries os (n + 1) conv w w' := by
  obtain ⟨l, a1, a2, a3, a4, a5⟩ := h
  refine ⟨e :: l, by simp [a1, World.emit], by simp [a2, World.emit]; omega, ?_, ?_, ?_⟩
  · rw [List.countP_cons]
    split <;> omega
  · simp only [stopsAfterConversion, hc, Bool.not_false, Bool.true_or, Bool.true_and]
    exact a4
  · simp only [anyConverts, hc, Bool.false_or]
    exact a5

theorem retries_attempt_converted {os : OS} {n : Nat} {w w' : World} (e : Event)
    (hc : thumbnailConverts os w.tick e = true)
    (h : World.advances (w.emit e) w') : World.retries os (n + 1) true w w' := by
  obtain ⟨l, a1, a2, a3⟩ := h
  refine ⟨e :: l, by simp [a1, World.emit], by simp [a2, World.emit]; omega, ?_, ?_, ?_⟩
  · rw [List.countP_cons, quiet_countP l a3]
    split <;> omega
  · simp only [stopsAfterConversion, Bool.and_eq_true, Bool.or_eq_true, List.all_eq_true]
    refine ⟨.inr ?_, quiet_stops os l _ a3⟩
    intro x hx
    simp [a3 x hx]
  · simp only [anyConverts, hc, Bool.true_or]

theorem retries_retriesThumbnail {os : OS} {n : Nat} {conv : Bool} {w w' : World}
    (hn : n ≤ 3) (h : World.retries os n conv w w') : World.retriesThumbnail os w w' := by
  obtain ⟨l, a1, _, a3, a4, _⟩ := h
  exact ⟨l, a1, by omega, a4⟩

theorem ReadHBitmapToBgra_ok_tick (os : OS) (hbmp : HBITMAP) (out out2 : List Nat)
    (width height width2 height2 : Int) (w w2 : World) (ht : w.tick = w2.tick) :
    (ReadHBitmapToBgra os hbmp out width height w).ok =
      (ReadHBitmapToBgra os hbmp out2 width2 height2 w2).ok := by
  rw [Bool.eq_iff_iff, ReadHBitmapToBgra_ok_iff, ReadHBitmapToBgra_ok_iff, ht]

theorem ReadHBitmapToBgra_adv (os : OS) (hbmp : HBITMAP) (out : List Nat) (width height : Int) (w : World) :
    World.advances w (ReadHBitmapToBgra os hbmp out width height w).world := by
  simp only [ReadHBitmapToBgra]
  repeat' split
  all_goals try dsimp only
  all_goals repeat (first
    | exact adv_refl _
    | apply adv_emit (by rfl))

theorem ForceDwmIconicBitmaps_adv (hwnd : HWND) (w : World) :
    World.advances w (ForceDwmIconicBitmaps hwnd w) := by
  simp only [ForceDwmIconicBitmaps]
  repeat' split
  all_goals repeat (first
    | exact adv_refl _
    | apply adv_emit (by rfl))

theorem renderWindow_adv (os : OS) (hwnd : HWND) (dc : HDC) (width height : Int) (w : World) :
    World.advances w (renderWindow os hwnd dc width height w).2 := by
  simp only [renderWindow]
  repeat' split
  all_goals try dsimp only
  all_goals repeat (first
    | exact adv_refl _
    | apply adv_emit (by rfl))

theorem livePreviewStep_adv (os : OS) (hwnd : HWND) (fb : Fallback) :
    World.advances fb.world (livePreviewStep os hwnd fb).world := by
  simp only [livePreviewStep]
  repeat' split
  all_goals try dsimp only
  all_goals repeat (first
    | exact adv_refl _
    | apply adv_emit (by rfl)
    | apply adv_trans _ (ReadHBitmapToBgra_adv _ _ _ _ _ _))

theorem restoreFromIconic_adv (os : OS) (hwnd : HWND) (width height : Int) (w : World) :
    World.advances w (restoreFromIconic os hwnd width height w).2.2 := by
  simp only [restoreFromIconic]
  repeat' split
  all_goals try dsimp only
  all_goals repeat (first
    | exact adv_refl _
    | apply adv_emit (by rfl))

theorem renderCapture_adv (os : OS) (hwnd : HWND) (restored_from_iconic : Bool) (fb : Fallback) (out : List Nat) (width height : Int) (w : World) :
    World.advances w (renderCapture os hwnd restored_from_iconic fb out width height w).world := by
  simp only [renderCapture]
  repeat' split
  all_goals try dsimp only
  all_goals repeat (first
    | exact adv_refl _
    | apply adv_emit (by rfl)
    | apply adv_trans _ (renderWindow_adv _ _ _ _ _ _))

theorem renderScaled_adv (os : OS) (hwnd : HWND) (src_w src_h : Int) (out : List Nat) (width height : Int) (w : World) :
    World.advances w (renderScaled os hwnd src_w src_h out width height w).world := by
  simp only [renderScaled, releaseScaled]
  repeat' split
  all_goals try dsimp only
  all_goals repeat (first
    | exact adv_refl _
    | apply adv_emit (by rfl)
    | apply adv_trans _ (renderWindow_adv _ _ _ _ _ _))

theorem thumbnailLoop_retries (os : OS) (hwnd : HWND) (tw th : Nat) :
    ∀ (n : Nat) (fb : Fallback), ∃ conv,
      World.retries os n conv fb.world (thumbnailLoop os hwnd tw th n fb).world ∧
      (conv = true → ∃ (t : Nat) (out0 : List Nat) (w0 : World),
        (ReadHBitmapToBgra os (os.DwmGetIconicThumbnail t hwnd tw th).2 out0 0 0 w0).ok = true ∧
        (thumbnailLoop os hwnd tw th n fb).have_dwm_fallback = true ∧
        (thumbnailLoop os hwnd tw th n fb).dwm_fallback_bytes =
          (ReadHBitmapToBgra os (os.DwmGetIconicThumbnail t hwnd tw th).2 out0 0 0 w0).out ∧
        (thumbnailLoop os hwnd tw th n fb).dwm_fallback_w =
          (ReadHBitmapToBgra os (os.DwmGetIconicThumbnail t hwnd tw th).2 out0 0 0 w0).width ∧
        (thumbnailLoop os hwnd tw th n fb).dwm_fallback_h =
          (ReadHBitmapToBgra os (os.DwmGetIconicThumbnail t hwnd tw th).2 out0 0 0 w0).height) ∧
      (conv = false →
        (thumbnailLoop os hwnd tw th n fb).have_dwm_fallback = fb.have_dwm_fallback ∧
        (thumbnailLoop os hwnd tw th n fb).dwm_fallback_w = fb.dwm_fallback_w ∧
        (thumbnailLoop os hwnd tw th n fb).dwm_fallback_h = fb.dwm_fallback_h) := by
  intro n
  induction n with
  | zero =>
    intro fb
    refine ⟨false, retries_of_adv 0 (adv_refl _), ?_, ?_⟩
    · intro h
      cases h
    · intro _
      exact ⟨rfl, rfl, rfl⟩
  | succ n ih =>
    intro fb
    simp only [thumbnailLoop]
    split
    · rename_i hc
      split
      · rename_i hok
        refine ⟨true, retries_attempt_converted (.DwmGetIconicThumbnail hwnd tw th
          (os.DwmGetIconicThumbnail fb.world.tick hwnd tw th).2) ?_
          (adv_emit (by rfl) (ReadHBitmapToBgra_adv _ _ _ _ _ _)), ?_, ?_⟩
        · simp only [thumbnailConverts]
          rw [decide_eq_true hc, Bool.true_and, ← hok]
          exact ReadHBitmapToBgra_ok_tick _ _ _ _ _ _ _ _ _ _ rfl
        · intro _
          exact ⟨fb.world.tick, fb.dwm_fallback_bytes, _, hok, rfl, rfl, rfl, rfl⟩
        · intro h
          cases h
      · rename_i hok
        obtain ⟨conv, h1, h2, h3⟩ := ih ⟨(ReadHBitmapToBgra os
          (os.DwmGetIconicThumbnail fb.world.tick hwnd tw th).2 fb.dwm_fallback_bytes 0 0
          (fb.world.emit (.DwmGetIconicThumbnail hwnd tw th
            (os.DwmGetIconicThumbnail fb.world.tick hwnd tw th).2))).out,
          fb.dwm_fallback_w, fb.dwm_fallback_h, fb.have_dwm_fallback, _⟩
        refine ⟨conv, retries_attempt_failed (.DwmGetIconicThumbnail hwnd tw th
          (os.DwmGetIconicThumbnail fb.world.tick hwnd tw th).2) ?_ (retries_after ?_ h1), h2, h3⟩
        · simp only [thumbnailConverts]
          rw [decide_eq_true hc, Bool.true_and, ← Bool.not_eq_true,
            ← ReadHBitmapToBgra_ok_tick os _ fb.dwm_fallback_bytes [] 0 0 0 0
            (fb.world.emit (.DwmGetIconicThumbnail hwnd tw th
              (os.DwmGetIconicThumbnail fb.world.tick hwnd tw th).2)) ⟨fb.world.tick + 1, []⟩ rfl]
          exact hok
        · exact adv_trans (adv_emit (by rfl) (adv_emit (by rfl)
            (ReadHBitmapToBgra_adv _ _ _ _ _ _))) (ForceDwmIconicBitmaps_adv _ _)
    · rename_i hc
      obtain ⟨conv, h1, h2, h3⟩ := ih { fb with world := _ }
      refine ⟨conv, retries_attempt_failed (.DwmGetIconicThumbnail hwnd tw th
          (os.DwmGetIconicThumbnail fb.world.tick hwnd tw th).2) ?_ (retries_after ?_ h1), h2, h3⟩
      · simp only [thumbnailConverts]
        rw [decide_eq_false hc, Bool.false_and]
      · exact adv_trans (adv_emit (by rfl) (adv_refl _)) (ForceDwmIconicBitmaps_adv _ _)

theorem scaledThumbnailLoop_retries (os : OS) (hwnd : HWND) (tw th : Nat) :
    ∀ (n : Nat) (c : Capture), ∃ conv,
      World.retries os n conv c.world (scaledThumbnailLoop os hwnd tw th n c).world := by
  intro n
  induction n with
  | zero =>
    intro c
    exact ⟨false, retries_of_adv 0 (adv_refl _)⟩
  | succ n ih =>
    intro c
    simp only [scaledThumbnailLoop]
    split
    · rename_i hc
      split
      · rename_i hok
        refine ⟨true, retries_attempt_converted (.DwmGetIconicThumbnail hwnd tw th
          (os.DwmGetIconicThumbnail c.world.tick hwnd tw th).2) ?_
          (adv_emit (by rfl) (ReadHBitmapToBgra_adv _ _ _ _ _ _))⟩
        simp only [thumbnailConverts]
        rw [decide_eq_true hc, Bool.true_and, ← hok]
        exact ReadHBitmapToBgra_ok_tick _ _ _ _ _ _ _ _ _ _ rfl
      · rename_i hok
        obtain ⟨conv, h1⟩ := ih ⟨false, (ReadHBitmapToBgra os
          (os.DwmGetIconicThumbnail c.world.tick hwnd tw th).2 c.out 0 0
          (c.world.emit (.DwmGetIconicThumbnail hwnd tw th
            (os.DwmGetIconicThumbnail c.world.tick hwnd tw th).2))).out,
          c.width, c.height, _⟩
        refine ⟨conv, retries_attempt_failed (.DwmGetIconicThumbnail hwnd tw th
          (os.DwmGetIconicThumbnail c.world.tick hwnd tw th).2) ?_ (retries_after ?_ h1)⟩
        · simp only [thumbnailConverts]
          rw [decide_eq_true hc, Bool.true_and, ← Bool.not_eq_true,
            ← ReadHBitmapToBgra_ok_tick os _ c.out [] 0 0 0 0
            (c.world.emit (.DwmGetIconicThumbnail hwnd tw th
              (os.DwmGetIconicThumbnail c.world.tick hwnd tw th).2)) ⟨c.world.tick + 1, []⟩ rfl]
          exact hok
        · exact adv_trans (adv_emit (by rfl) (adv_emit (by rfl)
            (ReadHBitmapToBgra_adv _ _ _ _ _ _))) (ForceDwmIconicBitmaps_adv _ _)
    · rename_i hc
      obtain ⟨conv, h1⟩ := ih { c with world := _ }
      refine ⟨conv, retries_attempt_failed (.DwmGetIconicThumbnail hwnd tw th
          (os.DwmGetIconicThumbnail c.world.tick hwnd tw th).2) ?_ (retries_after ?_ h1)⟩
      · simp only [thumbnailConverts]
        rw [decide_eq_false hc, Bool.false_and]
      · exact adv_trans (adv_emit (by rfl) (adv_refl _)) (ForceDwmIconicBitmaps_adv _ _)

theorem iconicFallbackChain_retries (os : OS) (hwnd : HWND) (width height : Int) (w : World) :
    ∃ conv, World.retries os 3 conv w (iconicFallbackChain os hwnd width height w).world := by
  simp only [iconicFallbackChain]
  split
  · obtain ⟨conv, h, _⟩ := thumbnailLoop_retries os hwnd (if width > 0 then width else 1).toNat
      (if height > 0 then height else 1).toNat 3
      (livePreviewStep os hwnd ⟨[], 0, 0, false, ForceDwmIconicBitmaps hwnd w⟩)
    exact ⟨conv, retries_after (adv_trans (ForceDwmIconicBitmaps_adv _ _)
      (livePreviewStep_adv os hwnd ⟨[], 0, 0, false, ForceDwmIconicBitmaps hwnd w⟩)) h⟩
  · exact ⟨false, retries_of_adv 3 (adv_trans (ForceDwmIconicBitmaps_adv _ _)
      (livePreviewStep_adv os hwnd ⟨[], 0, 0, false, ForceDwmIconicBitmaps hwnd w⟩))⟩

theorem CaptureWindowBgra_retries (os : OS) (hwnd : HWND) (out : List Nat)
    (width height : Int) (w : World) :
    ∃ conv, World.retries os 3 conv w (CaptureWindowBgra os hwnd out width height w).world := by
  simp only [CaptureWindowBgra]
  split
  · exact ⟨false, retries_of_adv 3 (adv_emit (by rfl) (adv_refl _))⟩
  · split
    · exact ⟨false, retries_of_adv 3 (adv_emit (by rfl) (adv_refl _))⟩
    · split
      · obtain ⟨conv, h⟩ := iconicFallbackChain_retries os hwnd _ _
          ((w.emit (.GetWindowRect hwnd)).emit (.IsIconic hwnd))
        exact ⟨conv, retries_before (retries_after (adv_emit (by rfl) (adv_emit (by rfl)
          (adv_refl _))) h) (adv_trans (restoreFromIconic_adv _ _ _ _ _)
          (renderCapture_adv _ _ _ _ _ _ _ _))⟩
      · exact ⟨false, retries_of_adv 3 (adv_trans (adv_emit (by rfl) (adv_emit (by rfl)
          (adv_refl _))) (renderCapture_adv _ _ _ _ _ _ _ _))⟩

theorem scaledThumbnailLoop_retries_from (os : OS) (hwnd : HWND) (tw th n : Nat)
    (c : Capture) (w : World) (h : World.advances w c.world) :
    ∃ conv, World.retries os n conv w (scaledThumbnailLoop os hwnd tw th n c).world := by
  obtain ⟨conv, h1⟩ := scaledThumbnailLoop_retries os hwnd tw th n c
  exact ⟨conv, retries_after h h1⟩

theorem CaptureWindowBgraScaled_retries (os : OS) (hwnd : HWND) (target_w target_h : Int)
    (out : List Nat) (width height : Int) (w : World) :
    ∃ conv, World.retries os 3 conv w
      (CaptureWindowBgraScaled os hwnd target_w target_h out width height w).world := by
  simp only [CaptureWindowBgraScaled]
  repeat' split
  all_goals try dsimp only
  all_goals first
    | apply scaledThumbnailLoop_retries_from
    | refine ⟨false, retries_of_adv 3 ?_⟩
  all_goals try dsimp only
  all_goals repeat (first
    | exact adv_refl _
    | apply adv_emit (by rfl)
    | apply adv_trans _ (ForceDwmIconicBitmaps_adv _ _)
    | apply adv_trans _ (renderScaled_adv _ _ _ _ _ _ _ _))

/-! ## Conditions on the calls of one request: consequences -/

theorem allAt_append (f : Nat → Event → Bool) : ∀ (l m : List Event) (t : Nat),
    allAt f t (l ++ m) = (allAt f t l && allAt f (t + l.length) m) := by
  intro l
  induction l with
  | nil => intro m t; simp [allAt]
  | cons e l ih =>
    intro m t
    have e1 : t + (l.length + 1) = t + 1 + l.length := by omega
    simp only [List.cons_append, allAt, List.length_cons, e1, Bool.and_assoc]
    rw [← ih m (t + 1)]
    rfl

theorem allAt_mono {f g : Nat → Event → Bool} (h : ∀ t e, g t e = true → f t e = true) :
    ∀ (l : List Event) (t : Nat), allAt g t l = true → allAt f t l = true := by
  intro l
  induction l with
  | nil => intro t _; rfl
  | cons e l ih =>
    intro t hg
    simp only [allAt, Bool.and_eq_true] at hg ⊢
    exact ⟨h t e hg.1, ih _ hg.2⟩

theorem allAt_and (f g : Nat → Event → Bool) : ∀ (l : List Event) (t : Nat),
    allAt f t l = true → allAt g t l = true → allAt (fun t e => f t e && g t e) t l = true := by
  intro l
  induction l with
  | nil => intro t _ _; rfl
  | cons e l ih =>
    intro t hf hg
    simp only [allAt, Bool.and_eq_true] at hf hg ⊢
    exact ⟨⟨hf.1, hg.1⟩, ih _ hf.2 hg.2⟩

theorem spans_refl {f : Nat → Event → Bool} {w : World} {Q : Prop} (h : Q) :
    World.spans f w w Q :=
  ⟨[], by simp, by simp, fun _ => h⟩

theorem spans_emit {f : Nat → Event → Bool} {w w' : World} {Q : Prop} {e : Event}
    (h : World.spans f w w' Q) : World.spans f w (w'.emit e) (Q ∧ f w'.tick e = true) := by
  obtain ⟨l, h1, h2, h3⟩ := h
  refine ⟨l ++ [e], by simp [World.emit, h1], by simp [World.emit, h2]; omega, ?_⟩
  intro ha
  rw [allAt_append, Bool.and_eq_true, ← h2] at ha
  refine ⟨h3 ha.1, ?_⟩
  have := ha.2
  simp only [allAt, Bool.and_true] at this
  exact this

theorem spans_trans {f : Nat → Event → Bool} {w w' w'' : World} {Q R : Prop}
    (h1 : World.spans f w w' Q) (h2 : World.spans f w' w'' R) :
    World.spans f w w'' (Q ∧ R) := by
  obtain ⟨l, a1, a2, a3⟩ := h1
  obtain ⟨m, b1, b2, b3⟩ := h2
  refine ⟨l ++ m, by rw [b1, a1, List.append_assoc],
    by rw [b2, a2, List.length_append]; omega, ?_⟩
  intro ha
  rw [allAt_append, Bool.and_eq_true, ← a2] at ha
  exact ⟨a3 ha.1, b3 ha.2⟩

theorem spans_then {f : Nat → Event → Bool} {w w' w'' : World} {Q R : Prop}
    (h2 : World.spans f w' w'' R) (h1 : World.spans f w w' Q) :
    World.spans f w w'' (Q ∧ R) :=
  spans_trans h1 h2

theorem spans_mono {f : Nat → Event → Bool} {w w' : World} {Q R : Prop}
    (h : World.spans f w w' Q) (hq : Q → R) : World.spans f w w' R := by
  obtain ⟨l, a1, a2, a3⟩ := h
  exact ⟨l, a1, a2, fun ha => hq (a3 ha)⟩

theorem spans_weaken {f g : Nat → Event → Bool} {w w' : World} {Q : Prop}
    (hfg : ∀ t e, g t e = true → f t e = true) (h : World.spans f w w' Q) :
    World.spans g w w' Q := by
  obtain ⟨l, a1, a2, a3⟩ := h
  exact ⟨l, a1, a2, fun ha => a3 (allAt_mono hfg l _ ha)⟩

theorem spans_of_owes {os : OS} {P : List Resource} (f : Nat → Event → Bool) {w w' : World}
    (h : World.owes os P w w') : World.spans f w w' True := by
  obtain ⟨l, a1, a2, _⟩ := h
  exact ⟨l, a1, a2, fun _ => trivial⟩

theorem spans_throughout {f : Nat → Event → Bool} {w w' : World} {Q : Prop}
    (h : World.spans f w w' Q) (ht : World.throughout f w w') : Q := by
  obtain ⟨l, a1, _, a3⟩ := h
  exact a3 (ht l a1)

theorem throughout_and {f g : Nat → Event → Bool} {w w' : World}
    (hf : World.throughout f w w') (hg : World.throughout g w w') :
    World.throughout (fun t e => f t e && g t e) w w' :=
  fun l hl => allAt_and f g l _ (hf l hl) (hg l hl)

theorem isSelfOrChild_spans (f : Nat → Event → Bool) (os : OS) (self target : HWND)
    (w : World) : World.spans f w (isSelfOrChild os self target w).2 True := by
  simp only [isSelfOrChild]
  repeat' split
  all_goals try dsimp only
  · exact spans_refl trivial
  · exact spans_refl trivial
  · exact spans_mono (spans_emit (spans_refl trivial)) (fun _ => trivial)

theorem renderWindow_spans (os : OS) (hwnd : HWND) (dc : HDC) (width height : Int)
    (w : World) :
    World.spans (yieldsNothing os) w (renderWindow os hwnd dc width height w).2
      ((renderWindow os hwnd dc width height w).1 = false) := by
  simp only [renderWindow]
  repeat' split
  all_goals try dsimp only
  all_goals
    apply spans_mono
    · repeat (first
        | exact spans_refl trivial
        | apply spans_emit)
    · intro h
      simp_all [yieldsNothing, bitmapConverts, renderSucceeds]

theorem livePreviewStep_spans (os : OS) (hwnd : HWND) (fb : Fallback) :
    World.spans (yieldsNothing os) fb.world (livePreviewStep os hwnd fb).world
      ((livePreviewStep os hwnd fb).have_dwm_fallback = fb.have_dwm_fallback) := by
  simp only [livePreviewStep]
  repeat' split
  all_goals try dsimp only
  · rename_i _ hc hok
    refine spans_mono (spans_emit (spans_emit (spans_trans (spans_emit (spans_refl trivial))
      (spans_of_owes _ (ReadHBitmapToBgra_owes _ _ _ _ _ _))))) ?_
    intro h
    have h1 := h.1.1.1.2
    simp only [yieldsNothing, bitmapConverts, renderSucceeds, Bool.not_false, Bool.and_true,
      Bool.not_eq_true'] at h1
    rw [decide_eq_true hc, Bool.true_and,
      ReadHBitmapToBgra_ok_tick os _ [] fb.dwm_fallback_bytes 0 0 0 0 ⟨fb.world.tick + 1, []⟩
        (fb.world.emit (.DwmGetIconicLivePreviewBitmap hwnd
          (os.DwmGetIconicLivePreviewBitmap fb.world.tick hwnd).2)) rfl, hok] at h1
    cases h1
  · exact spans_mono (spans_emit (spans_trans (spans_emit (spans_refl trivial))
      (spans_of_owes _ (ReadHBitmapToBgra_owes _ _ _ _ _ _)))) (fun _ => rfl)
  · exact spans_mono (spans_emit (spans_refl trivial)) (fun _ => rfl)
  · exact spans_refl rfl

theorem thumbnailLoop_spans (os : OS) (hwnd : HWND) (tw th : Nat) :
    ∀ (n : Nat) (fb : Fallback),
      World.spans (yieldsNothing os) fb.world (thumbnailLoop os hwnd tw th n fb).world
        ((thumbnailLoop os hwnd tw th n fb).have_dwm_fallback = fb.have_dwm_fallback) := by
  intro n
  induction n with
  | zero =>
    intro fb
    exact spans_refl rfl
  | succ n ih =>
    intro fb
    simp only [thumbnailLoop]
    repeat' split
    all_goals try dsimp only
    · rename_i hc hok
      refine spans_mono (spans_emit (spans_trans (spans_emit (spans_refl trivial))
        (spans_of_owes _ (ReadHBitmapToBgra_owes _ _ _ _ _ _)))) ?_
      intro h
      have h1 := h.1.1.2
      simp only [yieldsNothing, bitmapConverts, renderSucceeds, Bool.not_false, Bool.and_true,
        Bool.not_eq_true'] at h1
      rw [decide_eq_true hc, Bool.true_and,
        ReadHBitmapToBgra_ok_tick os _ [] fb.dwm_fallback_bytes 0 0 0 0 ⟨fb.world.tick + 1, []⟩
          (fb.world.emit (.DwmGetIconicThumbnail hwnd tw th
            (os.DwmGetIconicThumbnail fb.world.tick hwnd tw th).2)) rfl, hok] at h1
      cases h1
    · refine spans_mono (spans_trans (spans_trans (spans_emit (spans_emit (spans_trans
        (spans_emit (spans_refl trivial))
        (spans_of_owes _ (ReadHBitmapToBgra_owes _ _ _ _ _ _)))))
        (spans_of_owes _ (ForceDwmIconicBitmaps_owes os _ _))) (ih _)) ?_
      intro h
      exact h.2
    · refine spans_mono (spans_trans (spans_trans (spans_emit (spans_emit (spans_refl trivial)))
        (spans_of_owes _ (ForceDwmIconicBitmaps_owes os _ _))) (ih _)) ?_
      intro h
      exact h.2

theorem iconicFallbackChain_spans (os : OS) (hwnd : HWND) (width height : Int) (w : World) :
    World.spans (yieldsNothing os) w (iconicFallbackChain os hwnd width height w).world
      ((iconicFallbackChain os hwnd width height w).have_dwm_fallback = false) := by
  simp only [iconicFallbackChain]
  split
  · refine spans_mono (spans_trans (spans_trans
      (spans_of_owes _ (ForceDwmIconicBitmaps_owes os hwnd w))
      (livePreviewStep_spans os hwnd ⟨[], 0, 0, false, ForceDwmIconicBitmaps hwnd w⟩))
      (thumbnailLoop_spans os hwnd _ _ 3 _)) ?_
    intro h
    rw [h.2, h.1.2]
  · refine spans_mono (spans_trans
      (spans_of_owes _ (ForceDwmIconicBitmaps_owes os hwnd w))
      (livePreviewStep_spans os hwnd ⟨[], 0, 0, false, ForceDwmIconicBitmaps hwnd w⟩)) ?_
    intro h
    rw [h.2]

theorem renderCapture_spans (os : OS) (hwnd : HWND) (restored_from_iconic : Bool)
    (fb : Fallback) (out : List Nat) (width height : Int) (w : World) :
    World.spans (yieldsNothing os) w
      (renderCapture os hwnd restored_from_iconic fb out width height w).world
      (fb.have_dwm_fallback = false →
        (renderCapture os hwnd restored_from_iconic fb out width height w).ok = false) := by
  simp only [renderCapture]
  repeat' split
  all_goals try dsimp only
  all_goals
    apply spans_mono
    · repeat (first
        | exact spans_refl trivial
        | apply spans_emit
        | apply spans_then (renderWindow_spans _ _ _ _ _ _))
    · intro h
      simp_all

theorem CaptureWindowBgra_spans (os : OS) (hwnd : HWND) (out : List Nat)
    (width height : Int) (w : World) :
    World.spans (yieldsNothing os) w (CaptureWindowBgra os hwnd out width height w).world
      ((CaptureWindowBgra os hwnd out width height w).ok = false) := by
  simp only [CaptureWindowBgra]
  repeat' split
  all_goals try dsimp only
  · exact spans_mono (spans_emit (spans_refl trivial)) (fun _ => rfl)
  · exact spans_mono (spans_emit (spans_refl trivial)) (fun _ => rfl)
  · refine spans_mono (spans_trans (spans_trans (spans_trans
      (spans_emit (spans_emit (spans_refl trivial)))
      (iconicFallbackChain_spans os hwnd _ _ _))
      (spans_of_owes _ (restoreFromIconic_owes os hwnd _ _ _)))
      (renderCapture_spans os hwnd true _ out _ _ _)) ?_
    intro h
    exact h.2 h.1.1.2
  · refine spans_mono (spans_trans (spans_emit (spans_emit (spans_refl trivial)))
      (renderCapture_spans os hwnd false _ out _ _ _)) ?_
    intro h
    exact h.2 rfl

theorem captureWindow_spans (os : OS) (self : HWND) (hwnd_val : Int) (w : World) :
    World.spans (yieldsNothing os) w (captureWindow os self hwnd_val w).2
      ((∃ code msg, (captureWindow os self hwnd_val w).1 = .Error code msg) ∧
        (hwnd_val ≠ 0 → os.IsWindow w.tick (toHandle hwnd_val) = true →
          (isSelfOrChild os self (toHandle hwnd_val)
            (w.emit (.IsWindow (toHandle hwnd_val)))).1 = false →
          (captureWindow os self hwnd_val w).1 =
            .Error "CAPTURE_FAILED" "Failed to capture window.")) := by
  simp only [captureWindow]
  repeat' split
  all_goals try dsimp only
  · exact spans_refl ⟨⟨_, _, rfl⟩, fun h => absurd ‹hwnd_val = 0› h⟩
  · refine spans_mono (spans_emit (spans_refl trivial)) ?_
    intro _
    refine ⟨⟨_, _, rfl⟩, ?_⟩
    intro _ h
    simp_all
  · refine spans_mono (spans_trans (spans_emit (spans_refl trivial))
      (isSelfOrChild_spans _ os self _ _)) ?_
    intro _
    refine ⟨⟨_, _, rfl⟩, ?_⟩
    intro _ _ h
    simp_all
  · exact spans_mono (spans_trans (spans_trans (spans_emit (spans_refl trivial))
      (isSelfOrChild_spans _ os self _ _)) (CaptureWindowBgra_spans os _ _ _ _ _))
      (fun _ => ⟨⟨_, _, rfl⟩, fun _ _ _ => rfl⟩)
  · refine spans_mono (spans_trans (spans_trans (spans_emit (spans_refl trivial))
      (isSelfOrChild_spans _ os self _ _)) (CaptureWindowBgra_spans os _ _ _ _ _)) ?_
    intro h
    rename_i hok
    exact absurd h.2 hok

theorem scaledThumbnailLoop_spans (os : OS) (hwnd : HWND) (tw th : Nat) :
    ∀ (n : Nat) (c : Capture),
      World.spans (honoursRequest os) c.world (scaledThumbnailLoop os hwnd tw th n c).world
        ((scaledThumbnailLoop os hwnd tw th n c).ok = true →
          (scaledThumbnailLoop os hwnd tw th n c).width ≤ tw ∧
          (scaledThumbnailLoop os hwnd tw th n c).height ≤ th) := by
  intro n
  induction n with
  | zero =>
    intro c
    refine spans_refl ?_
    intro h
    simp [scaledThumbnailLoop] at h
  | succ n ih =>
    intro c
    simp only [scaledThumbnailLoop]
    repeat' split
    all_goals try dsimp only
    · rename_i hc hok
      refine spans_mono (spans_emit (spans_trans (spans_emit (spans_refl trivial))
        (spans_of_owes _ (ReadHBitmapToBgra_owes _ _ _ _ _ _)))) ?_
      intro h _
      have h1 := h.1.1.2
      obtain ⟨bw, bh, hg, e1, e2⟩ := ReadHBitmapToBgra_dims _ _ _ _ _ _ hok
      have hg2 : os.GetObject (c.world.tick + 1)
          (os.DwmGetIconicThumbnail c.world.tick hwnd tw th).2 = some (bw, bh) := hg
      simp only [honoursRequest] at h1
      rw [if_pos hc, hg2] at h1
      rw [e1, e2]
      exact of_decide_eq_true h1
    · refine spans_mono (spans_trans (spans_trans (spans_emit (spans_emit (spans_trans
        (spans_emit (spans_refl trivial))
        (spans_of_owes _ (ReadHBitmapToBgra_owes _ _ _ _ _ _)))))
        (spans_of_owes _ (ForceDwmIconicBitmaps_owes os _ _))) (ih _)) ?_
      intro h
      exact h.2
    · refine spans_mono (spans_trans (spans_trans (spans_emit (spans_emit (spans_refl trivial)))
        (spans_of_owes _ (ForceDwmIconicBitmaps_owes os _ _))) (ih _)) ?_
      intro h
      exact h.2

theorem CaptureWindowBgraScaled_spans (os : OS) (hwnd : HWND) (target_w target_h : Int)
    (out : List Nat) (width height : Int) (w : World) :
    World.spans (honoursRequest os) w
      (CaptureWindowBgraScaled os hwnd target_w target_h out width height w).world
      (0 < target_w → 0 < target_h →
        (CaptureWindowBgraScaled os hwnd target_w target_h out width height w).ok = true →
        (CaptureWindowBgraScaled os hwnd target_w target_h out width height w).width
          ≤ target_w ∧
        (CaptureWindowBgraScaled os hwnd target_w target_h out width height w).height
          ≤ target_h) := by
  by_cases h1 : 0 < target_w
  swap
  · exact spans_mono (spans_of_owes _ (CaptureWindowBgraScaled_owes os _ _ _ _ _ _ _))
      (fun _ h => absurd h h1)
  by_cases h2 : 0 < target_h
  swap
  · exact spans_mono (spans_of_owes _ (CaptureWindowBgraScaled_owes os _ _ _ _ _ _ _))
      (fun _ _ h => absurd h h2)
  have e1 : ((target_w.toNat : Nat) : Int) = target_w := Int.toNat_of_nonneg (le_of_lt h1)
  have e2 : ((target_h.toNat : Nat) : Int) = target_h := Int.toNat_of_nonneg (le_of_lt h2)
  simp only [CaptureWindowBgraScaled, gt_iff_lt, h1, h2, if_true]
  repeat' split
  all_goals try dsimp only
  · exact spans_mono (spans_emit (spans_refl trivial)) (fun _ _ _ h => by cases h)
  · exact spans_mono (spans_emit (spans_refl trivial)) (fun _ _ _ h => by cases h)
  · exact spans_mono (spans_emit (spans_refl trivial)) (fun _ _ _ h => by cases h)
  · refine spans_mono (spans_trans (spans_trans (spans_emit (spans_emit (spans_refl trivial)))
      (spans_of_owes _ (ForceDwmIconicBitmaps_owes os _ _)))
      (scaledThumbnailLoop_spans os hwnd _ _ 3 _)) ?_
    intro h _ _ hok
    have := h.2 hok
    rw [e1, e2] at this
    exact this
  · exact spans_mono (spans_trans (spans_emit (spans_emit (spans_refl trivial)))
      (spans_of_owes _ (ForceDwmIconicBitmaps_owes os _ _))) (fun _ _ _ h => by cases h)
  · exact spans_mono (spans_trans (spans_emit (spans_emit (spans_refl trivial)))
      (spans_of_owes _ (renderScaled_owes os _ _ _ _ _ _ _)))
      (fun _ _ _ _ => ⟨le_of_eq (renderScaled_dims _ _ _ _ _ _ _ _).1,
        le_of_eq (renderScaled_dims _ _ _ _ _ _ _ _).2⟩)

theorem captureWindowThumbnail_spans (os : OS) (self : HWND) (hwnd_val max_w max_h : Int)
    (w : World) (width height : Int) (bytes : List Nat) (hmw : max_w < 2 ^ 31)
    (hmh : max_h < 2 ^ 31) :
    World.spans (fun t e => honoursRequest os t e && measuresNonDegenerate os t e) w
      (captureWindowThumbnail os self hwnd_val max_w max_h w).2
      ((captureWindowThumbnail os self hwnd_val max_w max_h w).1 = .Success width height bytes →
        ∃ src_w src_h : Int, src_w < 2 ^ 31 ∧ src_h < 2 ^ 31 ∧
          width ≤ effectiveMax src_w max_w ∧ height ≤ effectiveMax src_h max_h) := by
  simp only [captureWindowThumbnail]
  repeat' split
  all_goals try dsimp only
  · exact spans_refl (fun h => by cases h)
  · exact spans_mono (spans_emit (spans_refl trivial)) (fun _ h => by cases h)
  · exact spans_mono (spans_trans (spans_emit (spans_refl trivial))
      (isSelfOrChild_spans _ os self _ _)) (fun _ h => by cases h)
  · exact spans_mono (spans_emit (spans_trans (spans_emit (spans_refl trivial))
      (isSelfOrChild_spans _ os self _ _))) (fun _ h => by cases h)
  · exact spans_mono (spans_trans (spans_emit (spans_trans (spans_emit (spans_refl trivial))
      (isSelfOrChild_spans _ os self _ _)))
      (spans_of_owes _ (CaptureWindowBgraScaled_owes os _ _ _ _ _ _ _)))
      (fun _ h => by cases h)
  · rename_i rc hrc hok
    refine spans_mono (spans_trans (spans_emit (spans_trans (spans_emit (spans_refl trivial))
      (isSelfOrChild_spans _ os self _ _)))
      (spans_weaken (fun t e h => (Bool.and_eq_true _ _ ▸ h).1)
        (CaptureWindowBgraScaled_spans os _ _ _ [] 0 0 _))) ?_
    intro h hs
    simp only [MethodResult.Success.injEq] at hs
    obtain ⟨e1, e2, -⟩ := hs
    have hm := h.1.2
    simp only [honoursRequest, measuresNonDegenerate, hrc, Bool.true_and,
      decide_eq_true_eq] at hm
    have r1 := wrapInt32_range (rc.right - rc.left)
    have r2 := wrapInt32_range (rc.bottom - rc.top)
    have g1 := ScaleToFit_ge_one _ _ max_w max_h hm.1 hm.2
    have g2 := ScaleToFit_bounds _ _ max_w max_h hm.1 hm.2 r1.2 r2.2 hmw hmh
    have hfit := h.2 (by omega) (by omega) (Bool.eq_true_of_not_eq_false hok)
    rw [e1, e2] at hfit
    exact ⟨_, _, r1.2, r2.2, le_trans hfit.1 g2.1, le_trans hfit.2 g2.2.1⟩

/-! ## Claims -/

/-- C1 (code defect). A successful `CaptureWindowBgra` can return a buffer whose length is
not `width * height * 4`: for a minimized window whose live preview (2x1) converted, whose
thumbnail (1x1) was handed out but failed to read back, and whose restored render failed,
the call succeeds with `width = 2`, `height = 1` and a 4-byte buffer. -/
theorem CaptureWindowBgra_stale_candidate :
    (CaptureWindowBgra staleCandidateOS 7 [] 0 0 World.init).ok = true ∧
    (CaptureWindowBgra staleCandidateOS 7 [] 0 0 World.init).width = 2 ∧
    (CaptureWindowBgra staleCandidateOS 7 [] 0 0 World.init).height = 1 ∧
    (CaptureWindowBgra staleCandidateOS 7 [] 0 0 World.init).out.length = 4 ∧
    ¬ (CaptureWindowBgra staleCandidateOS 7 [] 0 0 World.init).wellFormed := by
  decide

/-- C2. Whatever the operating system answers, a successful `CaptureWindowBgraScaled`,
`CaptureRectBgra`, `CaptureRectBgraScaled` or `CaptureScreenBgra` reports `width > 0`,
`height > 0` and a buffer of exactly `width * height * 4` bytes (integer arguments in the
range of `int`). -/
theorem scaled_and_region_captures_wellFormed (os : OS) (w : World) (out : List Nat)
    (hwnd : HWND) (x y a b c d width height : Int)
    (ha : a < 2 ^ 31) (hb : b < 2 ^ 31) (hc : c < 2 ^ 31) (hd : d < 2 ^ 31) :
    ((CaptureWindowBgraScaled os hwnd a b out width height w).ok = true →
      (CaptureWindowBgraScaled os hwnd a b out width height w).wellFormed) ∧
    ((CaptureRectBgra os x y a b out w).ok = true →
      (CaptureRectBgra os x y a b out w).wellFormed) ∧
    ((CaptureRectBgraScaled os x y a b c d out w).ok = true →
      (CaptureRectBgraScaled os x y a b c d out w).wellFormed) ∧
    ((CaptureScreenBgra os out w).ok = true → (CaptureScreenBgra os out w).wellFormed) :=
  ⟨CaptureWindowBgraScaled_wellFormed os hwnd a b out width height w ha hb,
   CaptureRectBgra_wellFormed os x y a b out w ha hb,
   CaptureRectBgraScaled_wellFormed os x y a b c d out w ha hb hc hd,
   CaptureScreenBgra_wellFormed os out w⟩

/-- C2, on a system where everything succeeds: all four calls succeed and are well formed. -/
theorem scaled_and_region_captures_wellFormed_witness :
    (CaptureWindowBgraScaled cooperativeOS 7 2 1 [] 0 0 World.init).wellFormed ∧
    (CaptureRectBgra cooperativeOS 0 0 2 1 [] World.init).wellFormed ∧
    (CaptureRectBgraScaled cooperativeOS 0 0 2 1 4 4 [] World.init).wellFormed ∧
    (CaptureScreenBgra cooperativeOS [] World.init).wellFormed :=
  have h := scaled_and_region_captures_wellFormed cooperativeOS World.init [] 7 0 0 2 1 4 4 0 0
    (by decide) (by decide) (by decide) (by decide)
  ⟨h.1 (by decide), h.2.1 (by decide), h.2.2.1 (by decide), h.2.2.2 (by decide)⟩

/-- C3 (code defect). A minimized window that was shown with `SW_SHOWNOACTIVATE` is not
re-minimized when the screen device context cannot be acquired afterwards: the call fails
and its trace holds the show request but no `SW_MINIMIZE` request. -/
theorem CaptureWindowBgra_leaves_window_shown :
    (CaptureWindowBgra noScreenDcOS 7 [] 0 0 World.init).ok = false ∧
    Event.ShowWindowAsync 7 .SW_SHOWNOACTIVATE ∈
      (CaptureWindowBgra noScreenDcOS 7 [] 0 0 World.init).world.trace ∧
    Event.ShowWindowAsync 7 .SW_MINIMIZE ∉
      (CaptureWindowBgra noScreenDcOS 7 [] 0 0 World.init).world.trace := by
  decide

/-- C4 (code defect). With a fallback candidate in hand (the live preview converted), a
failure to create the memory device context in the restore-and-render step makes
`CaptureWindowBgra` fail instead of returning the candidate. -/
theorem CaptureWindowBgra_drops_candidate :
    (iconicFallbackChain noMemDcOS 7 2 1
      ((World.init.emit (.GetWindowRect 7)).emit (.IsIconic 7))).have_dwm_fallback = true ∧
    (CaptureWindowBgra noMemDcOS 7 [] 0 0 World.init).ok = false := by
  decide

/-- C5 (code defect). The downscale rule with exact ratios gives `(200, 200)` for a 289x289
source under the default maxima 320x200, but `ScaleToFit`, which rounds the ratio and the
products to binary64 and truncates, gives `(199, 199)`; the witness of the claim,
`ScaleToFit(800, 600, 400, 0) = (400, 300)`, does hold. -/
theorem ScaleToFit_downscale_rounds_below :
    ScaleToFit 289 289 320 200 = (199, 199) ∧
    scaleToFitExact 289 289 320 200 = (200, 200) ∧
    ScaleToFit 800 600 400 0 = (400, 300) := by
  refine ⟨by decide, ?_, by decide⟩
  norm_num [scaleToFitExact, min_def]

/-- C6. `ScaleToFit` never upscales: a source that fits within both maxima, a maximum `≤ 0`
counting as no constraint, is returned unchanged. -/
theorem ScaleToFit_no_upscale (src_w src_h max_w max_h : Int) (hw : 0 < src_w)
    (hh : 0 < src_h) (h1 : max_w ≤ 0 ∨ src_w ≤ max_w) (h2 : max_h ≤ 0 ∨ src_h ≤ max_h) :
    ScaleToFit src_w src_h max_w max_h = (src_w, src_h) := by
  apply ScaleToFit_of_fits src_w src_h max_w max_h hw hh
  · unfold effectiveMax; split_ifs <;> omega
  · unfold effectiveMax; split_ifs <;> omega

/-- C6 at the inputs named by the claim. -/
theorem ScaleToFit_no_upscale_witness :
    ScaleToFit 100 50 1000 1000 = (100, 50) ∧ ScaleToFit 800 600 0 0 = (800, 600) :=
  ⟨ScaleToFit_no_upscale 100 50 1000 1000 (by decide) (by decide) (by decide) (by decide),
   ScaleToFit_no_upscale 800 600 0 0 (by decide) (by decide) (by decide) (by decide)⟩

/-- C7. `ScaleToFit` answers `(0, 0)` for every source with a dimension `≤ 0`, whatever the
maxima. -/
theorem ScaleToFit_degenerate (src_w src_h max_w max_h : Int) (h : src_w ≤ 0 ∨ src_h ≤ 0) :
    ScaleToFit src_w src_h max_w max_h = (0, 0) := by
  simp only [ScaleToFit, h, if_true]

/-- C7 at the input named by the claim. -/
theorem ScaleToFit_degenerate_witness : ScaleToFit 0 600 100 100 = (0, 0) :=
  ScaleToFit_degenerate 0 600 100 100 (by decide)

/-- C8. For a source with both dimensions positive, both outputs of `ScaleToFit` are at
least 1, whatever the maxima. -/
theorem ScaleToFit_at_least_one (src_w src_h max_w max_h : Int) (hw : 0 < src_w)
    (hh : 0 < src_h) :
    1 ≤ (ScaleToFit src_w src_h max_w max_h).1 ∧ 1 ≤ (ScaleToFit src_w src_h max_w max_h).2 :=
  ScaleToFit_ge_one src_w src_h max_w max_h hw hh

/-- C8 at a source squeezed into a 1x1 box and at non-positive maxima. -/
theorem ScaleToFit_at_least_one_witness :
    (1 ≤ (ScaleToFit 5000 3 1 1).1 ∧ 1 ≤ (ScaleToFit 5000 3 1 1).2) ∧
    (1 ≤ (ScaleToFit 4 3 (-7) 0).1 ∧ 1 ≤ (ScaleToFit 4 3 (-7) 0).2) :=
  ⟨ScaleToFit_at_least_one 5000 3 1 1 (by decide) (by decide),
   ScaleToFit_at_least_one 4 3 (-7) 0 (by decide) (by decide)⟩

/-- C9. For a source with both dimensions positive (all arguments in the range of `int`),
the output of `ScaleToFit` is within the effective maxima, and within the source. -/
theorem ScaleToFit_within_constraint (src_w src_h max_w max_h : Int) (hw : 0 < src_w)
    (hh : 0 < src_h) (hwr : src_w < 2 ^ 31) (hhr : src_h < 2 ^ 31) (hmwr : max_w < 2 ^ 31)
    (hmhr : max_h < 2 ^ 31) :
    (ScaleToFit src_w src_h max_w max_h).1 ≤ (if 0 < max_w then max_w else src_w) ∧
    (ScaleToFit src_w src_h max_w max_h).2 ≤ (if 0 < max_h then max_h else src_h) ∧
    (ScaleToFit src_w src_h max_w max_h).1 ≤ src_w ∧
    (ScaleToFit src_w src_h max_w max_h).2 ≤ src_h := by
  have h := ScaleToFit_bounds src_w src_h max_w max_h hw hh hwr hhr hmwr hmhr
  unfold effectiveMax at h
  refine ⟨?_, ?_, h.2.2.1, h.2.2.2⟩
  · have := h.1
    split_ifs at this ⊢ <;> omega
  · have := h.2.1
    split_ifs at this ⊢ <;> omega

/-- C9 at a 289x289 source under the maxima 320x200. -/
theorem ScaleToFit_within_constraint_witness :
    (ScaleToFit 289 289 320 200).1 ≤ 320 ∧ (ScaleToFit 289 289 320 200).2 ≤ 200 ∧
    (ScaleToFit 289 289 320 200).1 ≤ 289 ∧ (ScaleToFit 289 289 320 200).2 ≤ 289 :=
  ScaleToFit_within_constraint 289 289 320 200 (by decide) (by decide) (by decide) (by decide)
    (by decide) (by decide)

/-- C10, as stated, fails. For a request with `maxWidth = 2`, `maxHeight = 1`: a
compositor that hands out a 4x2 thumbnail for a minimized window makes the request succeed
with `width = 4`, `height = 2`; and so does a normal window whose rectangle is empty when
the handler measures it and 4x2 when the capture measures it again. -/
theorem captureWindowThumbnailPixels_exceeds_max :
    requestedMax smallThumbnailRequest "maxWidth" 320 = 2 ∧
    requestedMax smallThumbnailRequest "maxHeight" 200 = 1 ∧
    (captureWindowThumbnailPixels oversizedThumbnailOS 1 smallThumbnailRequest World.init).1
      = .Success 4 2 (List.replicate 32 255) ∧
    (captureWindowThumbnailPixels lateRectOS 1 smallThumbnailRequest World.init).1
      = .Success 4 2 (List.replicate 32 255) ∧
    ¬ ((4 : Int) ≤ 2 ∧ (2 : Int) ≤ 1) := by
  decide

/-- C10, amended. A successful `captureWindowThumbnailPixels` request with positive
`maxWidth` and `maxHeight` (defaults 320 and 200) reports `width ≤ maxWidth` and
`height ≤ maxHeight`, for normal and minimized windows alike, provided that during the
request every thumbnail bitmap the compositor hands out is no larger than the size it was
requested at, and every measurement of the window's rectangle is non-degenerate. Both
provisos speak of the calls this request makes, at the moment it makes them, and of
nothing else. -/
theorem captureWindowThumbnailPixels_within_max (os : OS) (self : HWND) (args : Arguments)
    (w : World) (width height : Int) (bytes : List Nat)
    (hposW : 0 < requestedMax args "maxWidth" 320)
    (hposH : 0 < requestedMax args "maxHeight" 200)
    (hdwm : World.throughout (honoursRequest os) w
      (captureWindowThumbnailPixels os self args w).2)
    (hrect : World.throughout (measuresNonDegenerate os) w
      (captureWindowThumbnailPixels os self args w).2)
    (hres : (captureWindowThumbnailPixels os self args w).1 = .Success width height bytes) :
    width ≤ requestedMax args "maxWidth" 320 ∧ height ≤ requestedMax args "maxHeight" 200 := by
  have hboth := throughout_and hdwm hrect
  cases args with
  | map m =>
    simp only [requestedMax] at hposW hposH ⊢
    have hW : decodeMax (.map m) "maxWidth" 320 < 2 ^ 31 ∧
        ∀ src : Int, src < 2 ^ 31 →
          effectiveMax src (decodeMax (.map m) "maxWidth" 320) ≤
            (argInt m "maxWidth").getD 320 := by
      simp only [decodeMax]
      rcases hv : argInt m "maxWidth" with _ | v
      · refine ⟨by norm_num, ?_⟩
        intro src _
        simp [effectiveMax]
      · rw [hv] at hposW
        exact ⟨(wrapInt32_range v).2, fun src hs => effectiveMax_wrap_le src v hposW hs⟩
    have hH : decodeMax (.map m) "maxHeight" 200 < 2 ^ 31 ∧
        ∀ src : Int, src < 2 ^ 31 →
          effectiveMax src (decodeMax (.map m) "maxHeight" 200) ≤
            (argInt m "maxHeight").getD 200 := by
      simp only [decodeMax]
      rcases hv : argInt m "maxHeight" with _ | v
      · refine ⟨by norm_num, ?_⟩
        intro src _
        simp [effectiveMax]
      · rw [hv] at hposH
        exact ⟨(wrapInt32_range v).2, fun src hs => effectiveMax_wrap_le src v hposH hs⟩
    obtain ⟨src_w, src_h, h1, h2, h3, h4⟩ :=
      spans_throughout (captureWindowThumbnail_spans os self (decodeId (.map m) "hwnd")
        (decodeMax (.map m) "maxWidth" 320) (decodeMax (.map m) "maxHeight" 200) w width height
        bytes hW.1 hH.1) hboth hres
    exact ⟨le_trans h3 (hW.2 src_w h1), le_trans h4 (hH.2 src_h h2)⟩
  | _ => simp [captureWindowThumbnailPixels, captureWindowThumbnail, decodeId] at hres

/-- C10, amended, on two systems, for the request with `maxWidth = 2`, `maxHeight = 1`: a
minimized 4x2 window whose compositor hands out a 1x1 thumbnail, and a minimized 2x1
window whose compositor hands out 2x1 bitmaps whatever size is asked for (the request asks
for 2x1, so the bitmap handed out during the request is within it). -/
theorem captureWindowThumbnailPixels_within_max_witness :
    ((captureWindowThumbnailPixels honestCompositorOS 1 smallThumbnailRequest World.init).1
      = .Success 1 1 (List.replicate 4 255) ∧ (1 : Int) ≤ 2 ∧ (1 : Int) ≤ 1) ∧
    ((captureWindowThumbnailPixels minimizedOS 1 smallThumbnailRequest World.init).1
      = .Success 2 1 (List.replicate 8 255) ∧ (2 : Int) ≤ 2 ∧ (1 : Int) ≤ 1) :=
  have h1 : (captureWindowThumbnailPixels honestCompositorOS 1 smallThumbnailRequest
      World.init).1 = .Success 1 1 (List.replicate 4 255) := by decide
  have h2 : (captureWindowThumbnailPixels minimizedOS 1 smallThumbnailRequest
      World.init).1 = .Success 2 1 (List.replicate 8 255) := by decide
  ⟨⟨h1, captureWindowThumbnailPixels_within_max honestCompositorOS 1 smallThumbnailRequest
      World.init 1 1 (List.replicate 4 255) (by decide) (by decide)
      (by
        intro l hl
        have e : l = (captureWindowThumbnailPixels honestCompositorOS 1 smallThumbnailRequest
          World.init).2.trace := hl.symm
        rw [e]
        decide)
      (by
        intro l hl
        have e : l = (captureWindowThumbnailPixels honestCompositorOS 1 smallThumbnailRequest
          World.init).2.trace := hl.symm
        rw [e]
        decide)
      h1⟩,
   ⟨h2, captureWindowThumbnailPixels_within_max minimizedOS 1 smallThumbnailRequest
      World.init 2 1 (List.replicate 8 255) (by decide) (by decide)
      (by
        intro l hl
        have e : l = (captureWindowThumbnailPixels minimizedOS 1 smallThumbnailRequest
          World.init).2.trace := hl.symm
        rw [e]
        decide)
      (by
        intro l hl
        have e : l = (captureWindowThumbnailPixels minimizedOS 1 smallThumbnailRequest
          World.init).2.trace := hl.symm
        rw [e]
        decide)
      h2⟩⟩

/-- C11 (code defect). For a 145x232 source under the default maxima 320x200 the exact
downscale rule gives `(125, 200)`, which preserves the aspect ratio exactly, but
`ScaleToFit` gives `(124, 200)`, for which `|out_w * src_h - out_h * src_w| = 232` is not
below `max(src_w, src_h) = 232`. -/
theorem ScaleToFit_aspect_rounds_off :
    ScaleToFit 145 232 320 200 = (124, 200) ∧
    ¬ aspectPreserved 145 232 (ScaleToFit 145 232 320 200) ∧
    scaleToFitExact 145 232 320 200 = (125, 200) ∧
    aspectPreserved 145 232 (125, 200) := by
  refine ⟨by decide, by decide, ?_, by decide⟩
  norm_num [scaleToFitExact, min_def]

/-- C14. A `captureMonitorPixels` or `captureMonitorThumbnailPixels` request that supplies
a monitor id (non-zero; a zero or absent id is a missing identifier and is answered
`BAD_ARGS`) which `GetMonitorInfoW` cannot resolve is answered with the `NO_MONITOR` error,
which carries no buffer, and the only primitive called is `GetMonitorInfoW`: no region
capture is attempted. -/
theorem monitor_capture_unresolved (os : OS) (args : Arguments) (w : World)
    (hid : decodeId args "monitorId" ≠ 0)
    (hm : os.GetMonitorInfoW w.tick (toHandle (decodeId args "monitorId")) = none) :
    captureMonitorPixels os args w =
      (.Error "NO_MONITOR" "Monitor not found",
        w.emit (.GetMonitorInfoW (toHandle (decodeId args "monitorId")))) ∧
    captureMonitorThumbnailPixels os args w =
      (.Error "NO_MONITOR" "Monitor not found",
        w.emit (.GetMonitorInfoW (toHandle (decodeId args "monitorId")))) := by
  constructor
  · simp [captureMonitorPixels, captureMonitor, hid, hm]
  · simp [captureMonitorThumbnailPixels, captureMonitorThumbnail, hid, hm]

/-- C14 on a system that resolves no monitor, for the id 77. -/
theorem monitor_capture_unresolved_witness :
    captureMonitorPixels noMonitorOS unknownMonitorRequest World.init =
      (.Error "NO_MONITOR" "Monitor not found", ⟨1, [.GetMonitorInfoW 77]⟩) ∧
    captureMonitorThumbnailPixels noMonitorOS unknownMonitorRequest World.init =
      (.Error "NO_MONITOR" "Monitor not found", ⟨1, [.GetMonitorInfoW 77]⟩) :=
  monitor_capture_unresolved noMonitorOS unknownMonitorRequest World.init (by decide)
    (by decide)

/-- C15. If, during a call of `CaptureWindowBgra`, neither compositor primitive (live
preview, thumbnail) yields a bitmap that converts and no render (`PrintWindow` or its
`BitBlt` fallback) succeeds, the call returns failure and leaves the caller's buffer as it
was; and if this is so during a `captureWindowPixels` request, the reply is an error (no
width, height or bytes), which is `CAPTURE_FAILED` once the handle has passed validation.
Both conditions speak of the calls made for this window during this call only. -/
theorem CaptureWindowBgra_nothing_available (os : OS) (self hwnd : HWND) (out : List Nat)
    (width height : Int) (args : Arguments) (w : World) :
    (World.throughout (fun t e => !bitmapConverts os t e) w
        (CaptureWindowBgra os hwnd out width height w).world →
      World.throughout (fun t e => !renderSucceeds os t e) w
        (CaptureWindowBgra os hwnd out width height w).world →
      (CaptureWindowBgra os hwnd out width height w).ok = false ∧
      (CaptureWindowBgra os hwnd out width height w).out = out) ∧
    (World.throughout (fun t e => !bitmapConverts os t e) w
        (captureWindowPixels os self args w).2 →
      World.throughout (fun t e => !renderSucceeds os t e) w
        (captureWindowPixels os self args w).2 →
      (∃ code msg, (captureWindowPixels os self args w).1 = .Error code msg) ∧
      (decodeHwnd args ≠ 0 → os.IsWindow w.tick (toHandle (decodeHwnd args)) = true →
        (isSelfOrChild os self (toHandle (decodeHwnd args))
          (w.emit (.IsWindow (toHandle (decodeHwnd args))))).1 = false →
        (captureWindowPixels os self args w).1 =
          .Error "CAPTURE_FAILED" "Failed to capture window.")) := by
  constructor
  · intro h1 h2
    have hf := spans_throughout (CaptureWindowBgra_spans os hwnd out width height w)
      (throughout_and h1 h2)
    exact ⟨hf, CaptureWindowBgra_out _ _ _ _ _ _ hf⟩
  · intro h1 h2
    exact spans_throughout (captureWindow_spans os self (decodeHwnd args) w)
      (throughout_and h1 h2)

/-- C15 on the minimized window 7 of a system where only the other windows can be
captured. -/
theorem CaptureWindowBgra_nothing_available_witness :
    (CaptureWindowBgra unresponsiveWindowOS 7 [1, 2, 3] 0 0 World.init).ok = false ∧
    (CaptureWindowBgra unresponsiveWindowOS 7 [1, 2, 3] 0 0 World.init).out = [1, 2, 3] ∧
    (captureWindowPixels unresponsiveWindowOS 1 (.int64 7) World.init).1 =
      .Error "CAPTURE_FAILED" "Failed to capture window." ∧
    (CaptureWindowBgra unresponsiveWindowOS 8 [] 0 0 World.init).ok = true :=
  have h := CaptureWindowBgra_nothing_available unresponsiveWindowOS 1 7 [1, 2, 3] 0 0 (.int64 7)
    World.init
  have a := h.1
    (by
      intro l hl
      have e : l = (CaptureWindowBgra unresponsiveWindowOS 7 [1, 2, 3] 0 0
        World.init).world.trace := hl.symm
      rw [e]
      decide)
    (by
      intro l hl
      have e : l = (CaptureWindowBgra unresponsiveWindowOS 7 [1, 2, 3] 0 0
        World.init).world.trace := hl.symm
      rw [e]
      decide)
  have b := h.2
    (by
      intro l hl
      have e : l = (captureWindowPixels unresponsiveWindowOS 1 (.int64 7)
        World.init).2.trace := hl.symm
      rw [e]
      decide)
    (by
      intro l hl
      have e : l = (captureWindowPixels unresponsiveWindowOS 1 (.int64 7)
        World.init).2.trace := hl.symm
      rw [e]
      decide)
  ⟨a.1, a.2, b.2 (by decide) (by decide) (by decide), by decide⟩

/-- C17. `ReadHBitmapToBgra` returns true iff the handle is non-null, `GetObject` succeeds
with positive width and height, a screen device context is obtained, and `GetDIBits`
returns as many lines as the height; on success the reported width and height are the
bitmap's and the buffer holds `width * height * 4` bytes; and it returns false whenever
`GetDIBits` returns fewer lines than the height. -/
theorem ReadHBitmapToBgra_succeeds_iff (os : OS) (hbmp : HBITMAP) (out : List Nat)
    (width height : Int) (w : World) :
    ((ReadHBitmapToBgra os hbmp out width height w).ok = true ↔
      hbmp ≠ 0 ∧ ∃ bw bh, os.GetObject w.tick hbmp = some (bw, bh) ∧
        0 < wrapInt32 bw ∧ 0 < wrapInt32 bh ∧ os.GetDC (w.tick + 1) 0 ≠ 0 ∧
        wrapInt32 (os.GetDIBits (w.tick + 2) (os.GetDC (w.tick + 1) 0) hbmp
          (wrapInt32 bh).toNat).1 = wrapInt32 bh) ∧
    ((ReadHBitmapToBgra os hbmp out width height w).ok = true →
      (∃ bw bh, os.GetObject w.tick hbmp = some (bw, bh) ∧
        (ReadHBitmapToBgra os hbmp out width height w).width = wrapInt32 bw ∧
        (ReadHBitmapToBgra os hbmp out width height w).height = wrapInt32 bh) ∧
      ((ReadHBitmapToBgra os hbmp out width height w).out.length : Int) =
        (ReadHBitmapToBgra os hbmp out width height w).width *
          (ReadHBitmapToBgra os hbmp out width height w).height * 4) ∧
    (∀ bw bh, os.GetObject w.tick hbmp = some (bw, bh) →
      wrapInt32 (os.GetDIBits (w.tick + 2) (os.GetDC (w.tick + 1) 0) hbmp
        (wrapInt32 bh).toNat).1 < wrapInt32 bh →
      (ReadHBitmapToBgra os hbmp out width height w).ok = false) := by
  refine ⟨ReadHBitmapToBgra_ok_iff os hbmp out width height w, ?_, ?_⟩
  · intro h
    exact ⟨ReadHBitmapToBgra_dims os hbmp out width height w h,
      (ReadHBitmapToBgra_wellFormed os hbmp out width height w h).2.2⟩
  · intro bw bh hg hlt
    cases hok : (ReadHBitmapToBgra os hbmp out width height w).ok
    · rfl
    · obtain ⟨_, bw2, bh2, hg2, _, _, _, he⟩ :=
        (ReadHBitmapToBgra_ok_iff os hbmp out width height w).1 hok
      rw [hg] at hg2
      cases hg2
      omega

/-- C17 on a system that reads bitmap 21 (2x1) back in full: the conversion succeeds with
width 2, height 1 and 8 bytes. -/
theorem ReadHBitmapToBgra_succeeds_iff_witness :
    (ReadHBitmapToBgra cooperativeOS 21 [] 0 0 World.init).ok = true ∧
    ((ReadHBitmapToBgra cooperativeOS 21 [] 0 0 World.init).out.length : Int) =
      (ReadHBitmapToBgra cooperativeOS 21 [] 0 0 World.init).width *
        (ReadHBitmapToBgra cooperativeOS 21 [] 0 0 World.init).height * 4 :=
  have h := ReadHBitmapToBgra_succeeds_iff cooperativeOS 21 [] 0 0 World.init
  have hok := h.1.2 ⟨by decide, 2, 1, rfl, by decide, by decide, by decide, by decide⟩
  ⟨hok, (h.2.1 hok).2⟩

/-- C18. The list of `listMonitors` is numbered 1, 2, 3, ... in order (its k-th entry,
counting from 1, has index k) whatever monitors were skipped; every entry has positive
width and height; and the handles of the entries are an order-preserving sub-list of the
enumeration. -/
theorem listMonitors_consecutive_indices (os : OS) (w : World) :
    ∃ l, (listMonitors os w).1 = .MonitorList l ∧
      l.map (fun m => m.index) = (List.range l.length).map (fun (k : Nat) => (k : Int) + 1) ∧
      (∀ m ∈ l, 0 < m.width ∧ 0 < m.height) ∧
      (l.map (fun m => m.id)).Sublist (os.EnumDisplayMonitors w.tick) :=
  listMonitors_spec os w

/-- C18 on three monitors of which the second cannot be queried: the third is listed with
index 2. -/
theorem listMonitors_consecutive_indices_witness :
    (listMonitors threeMonitorsOS World.init).1 =
      .MonitorList [⟨51, 1, 2, 1, true, "DISPLAY"⟩, ⟨53, 2, 2, 1, false, "DISPLAY"⟩] ∧
    ∃ l, (listMonitors threeMonitorsOS World.init).1 = .MonitorList l ∧
      l.map (fun m => m.index) = (List.range l.length).map (fun (k : Nat) => (k : Int) + 1) ∧
      (∀ m ∈ l, 0 < m.width ∧ 0 < m.height) ∧
      (l.map (fun m => m.id)).Sublist (threeMonitorsOS.EnumDisplayMonitors World.init.tick) :=
  ⟨by decide, listMonitors_consecutive_indices threeMonitorsOS World.init⟩

/-- C19. `CaptureRectBgraScaled` fails without calling any primitive when `src_w <= 0` or
`src_h <= 0`, and on every success reports `ScaleToFit(src_w, src_h, max_w, max_h)`;
`CaptureRectBgra` fails (without calling any primitive) when `src_w <= 0` or `src_h <= 0`
and on every success reports `(src_w, src_h)`. -/
theorem region_capture_dimensions (os : OS) (x y src_w src_h max_w max_h : Int)
    (out : List Nat) (w : World) :
    (src_w ≤ 0 ∨ src_h ≤ 0 →
      (CaptureRectBgraScaled os x y src_w src_h max_w max_h out w).ok = false ∧
      (CaptureRectBgraScaled os x y src_w src_h max_w max_h out w).world = w) ∧
    ((CaptureRectBgraScaled os x y src_w src_h max_w max_h out w).ok = true →
      ((CaptureRectBgraScaled os x y src_w src_h max_w max_h out w).width,
        (CaptureRectBgraScaled os x y src_w src_h max_w max_h out w).height) =
        ScaleToFit src_w src_h max_w max_h) ∧
    (src_w ≤ 0 ∨ src_h ≤ 0 →
      (CaptureRectBgra os x y src_w src_h out w).ok = false ∧
      (CaptureRectBgra os x y src_w src_h out w).world = w) ∧
    ((CaptureRectBgra os x y src_w src_h out w).ok = true →
      ((CaptureRectBgra os x y src_w src_h out w).width,
        (CaptureRectBgra os x y src_w src_h out w).height) = (src_w, src_h)) := by
  refine ⟨?_, fun _ => ?_, ?_, fun _ => ?_⟩
  · intro hs
    have e : ScaleToFit src_w src_h max_w max_h = (0, 0) := by simp [ScaleToFit, hs]
    simp [CaptureRectBgraScaled, e]
  · rw [CaptureRectBgraScaled_dims]
  · intro hs
    simp [CaptureRectBgra, hs]
  · rw [CaptureRectBgra_dims]

/-- C19 on a 4x2 region with maxima 2x1 (scaled to 2x1), on a 2x1 region copied as is, and
on an empty region. -/
theorem region_capture_dimensions_witness :
    ((CaptureRectBgraScaled cooperativeOS 0 0 4 2 2 1 [] World.init).width,
      (CaptureRectBgraScaled cooperativeOS 0 0 4 2 2 1 [] World.init).height) = (2, 1) ∧
    ((CaptureRectBgra cooperativeOS 0 0 2 1 [] World.init).width,
      (CaptureRectBgra cooperativeOS 0 0 2 1 [] World.init).height) = (2, 1) ∧
    (CaptureRectBgraScaled cooperativeOS 0 0 0 2 2 1 [] World.init).ok = false :=
  have h := region_capture_dimensions cooperativeOS 0 0 4 2 2 1 [] World.init
  have h2 := region_capture_dimensions cooperativeOS 0 0 2 1 0 0 [] World.init
  have h0 := region_capture_dimensions cooperativeOS 0 0 0 2 2 1 [] World.init
  ⟨(h.2.1 (by decide)).trans (by decide), h2.2.2.2 (by decide), (h0.1 (.inl (by decide))).1⟩

/-- C20. In `captureActiveWindowPixels` and `captureScreenPixels`, whatever the reply: if
the handler minimized the caller's window, the last two requests of its trace are
`ShowWindow(self, SW_RESTORE)` and `SetForegroundWindow(self)`, issued after the minimize;
if it did not, its trace holds no `ShowWindow` and no `SetForegroundWindow` at all. -/
theorem self_occlusion_restored (os : OS) (self : HWND) (w : World) :
    selfRestored self w (captureActiveWindowPixels os self w).2 ∧
    selfRestored self w (captureScreenPixels os self w).2 :=
  ⟨captureActiveWindowPixels_selfRestored os self w, captureScreenPixels_selfRestored os self w⟩

/-- C20 when the caller's window 1 is foreground at the start: both handlers minimize it,
and both end with its restore. -/
theorem self_occlusion_restored_witness :
    Event.ShowWindow 1 .SW_MINIMIZE ∈
      (captureActiveWindowPixels selfForegroundOS 1 World.init).2.trace ∧
    Event.ShowWindow 1 .SW_MINIMIZE ∈
      (captureScreenPixels selfForegroundOS 1 World.init).2.trace ∧
    selfRestored 1 World.init (captureActiveWindowPixels selfForegroundOS 1 World.init).2 ∧
    selfRestored 1 World.init (captureScreenPixels selfForegroundOS 1 World.init).2 :=
  ⟨by decide, by decide, self_occlusion_restored selfForegroundOS 1 World.init⟩

/-- C21. On every return path of `CaptureWindowBgra`, `CaptureWindowBgraScaled`,
`CaptureRectBgra`, `CaptureRectBgraScaled` and `ReadHBitmapToBgra`, the account of the calls
made holds no resource: every device context, off-screen bitmap and compositor bitmap that
was handed out during the call was passed to its release primitive before the return. -/
theorem captures_release_all_resources (os : OS) (hwnd : HWND) (hbmp : HBITMAP)
    (target_w target_h x y src_w src_h max_w max_h : Int) (out : List Nat)
    (width height : Int) (w : World) :
    World.releasedAll os w (CaptureWindowBgra os hwnd out width height w).world ∧
    World.releasedAll os w
      (CaptureWindowBgraScaled os hwnd target_w target_h out width height w).world ∧
    World.releasedAll os w (CaptureRectBgra os x y src_w src_h out w).world ∧
    World.releasedAll os w
      (CaptureRectBgraScaled os x y src_w src_h max_w max_h out w).world ∧
    World.releasedAll os w (ReadHBitmapToBgra os hbmp out width height w).world :=
  ⟨owes_releasedAll (CaptureWindowBgra_owes os hwnd out width height w),
   owes_releasedAll (CaptureWindowBgraScaled_owes os hwnd target_w target_h out width height w),
   owes_releasedAll (CaptureRectBgra_owes os x y src_w src_h out w),
   owes_releasedAll (CaptureRectBgraScaled_owes os x y src_w src_h max_w max_h out w),
   owes_releasedAll (ReadHBitmapToBgra_owes os hbmp out width height w)⟩

/-- C21 on a minimized window for which every primitive succeeds: the capture acquires,
among others, the off-screen bitmap 41, and its account ends with nothing held. -/
theorem captures_release_all_resources_witness :
    Event.CreateDIBSection 31 2 1 41 ∈
      (CaptureWindowBgra minimizedOS 7 [] 0 0 World.init).world.trace ∧
    (account minimizedOS 0 ⟨[], []⟩
      (CaptureWindowBgra minimizedOS 7 [] 0 0 World.init).world.trace).held = [] := by
  refine ⟨by decide, ?_⟩
  obtain ⟨l, h1, h2⟩ :=
    (captures_release_all_resources minimizedOS 7 0 0 0 0 0 0 0 0 0 [] 0 0 World.init).1
  have e : (CaptureWindowBgra minimizedOS 7 [] 0 0 World.init).world.trace = l := h1
  rw [e]
  exact h2

/-- C22. In `CaptureWindowBgra` and in `CaptureWindowBgraScaled` the compositor thumbnail
primitive is called at most 3 times per call and never after an attempt whose bitmap
converted; and when an attempt of the retry loop of `CaptureWindowBgra` converts, whatever
candidate was held before, the candidate held afterwards is the converted thumbnail: its
bytes, width and height are those `ReadHBitmapToBgra` produced for a bitmap of the thumbnail
primitive, so the bytes number `width * height * 4`. -/
theorem thumbnail_retry_policy (os : OS) (hwnd : HWND) (target_w target_h : Int)
    (out : List Nat) (width height : Int) (w : World) (tw th : Nat) (fb : Fallback) :
    World.retriesThumbnail os w (CaptureWindowBgra os hwnd out width height w).world ∧
    World.retriesThumbnail os w
      (CaptureWindowBgraScaled os hwnd target_w target_h out width height w).world ∧
    (∀ l, (thumbnailLoop os hwnd tw th 3 fb).world.trace = fb.world.trace ++ l →
      anyConverts os fb.world.tick l = true →
      (thumbnailLoop os hwnd tw th 3 fb).have_dwm_fallback = true ∧
      ((thumbnailLoop os hwnd tw th 3 fb).dwm_fallback_bytes.length : Int) =
        (thumbnailLoop os hwnd tw th 3 fb).dwm_fallback_w *
          (thumbnailLoop os hwnd tw th 3 fb).dwm_fallback_h * 4 ∧
      ∃ (t : Nat) (out0 : List Nat) (w0 : World),
        (ReadHBitmapToBgra os (os.DwmGetIconicThumbnail t hwnd tw th).2 out0 0 0 w0).ok = true ∧
        (thumbnailLoop os hwnd tw th 3 fb).dwm_fallback_bytes =
          (ReadHBitmapToBgra os (os.DwmGetIconicThumbnail t hwnd tw th).2 out0 0 0 w0).out ∧
        (thumbnailLoop os hwnd tw th 3 fb).dwm_fallback_w =
          (ReadHBitmapToBgra os (os.DwmGetIconicThumbnail t hwnd tw th).2 out0 0 0 w0).width ∧
        (thumbnailLoop os hwnd tw th 3 fb).dwm_fallback_h =
          (ReadHBitmapToBgra os (os.DwmGetIconicThumbnail t hwnd tw th).2 out0 0 0 w0).height) := by
  refine ⟨?_, ?_, ?_⟩
  · obtain ⟨conv, h⟩ := CaptureWindowBgra_retries os hwnd out width height w
    exact retries_retriesThumbnail (le_refl 3) h
  · obtain ⟨conv, h⟩ := CaptureWindowBgraScaled_retries os hwnd target_w target_h out width
      height w
    exact retries_retriesThumbnail (le_refl 3) h
  · intro l hl hc
    obtain ⟨conv, ⟨l0, a1, _, _, _, a5⟩, h2, _⟩ := thumbnailLoop_retries os hwnd tw th 3 fb
    have e : l = l0 := List.append_cancel_left (hl.symm.trans a1)
    rw [e, a5] at hc
    obtain ⟨t, out0, w0, b1, b2, b3, b4, b5⟩ := h2 hc
    refine ⟨b2, ?_, t, out0, w0, b1, b3, b4, b5⟩
    rw [b3, b4, b5]
    exact (ReadHBitmapToBgra_wellFormed os _ out0 0 0 w0 b1).2.2

/-- C22 on a minimized window whose thumbnail converts at the first attempt, with a
candidate of 5x5 held before: afterwards the candidate is the converted thumbnail. -/
theorem thumbnail_retry_policy_witness :
    (thumbnailLoop minimizedOS 7 2 1 3 ⟨[1, 2, 3], 5, 5, true, World.init⟩).have_dwm_fallback
      = true ∧
    ((thumbnailLoop minimizedOS 7 2 1 3
      ⟨[1, 2, 3], 5, 5, true, World.init⟩).dwm_fallback_bytes.length : Int) =
      (thumbnailLoop minimizedOS 7 2 1 3 ⟨[1, 2, 3], 5, 5, true, World.init⟩).dwm_fallback_w *
        (thumbnailLoop minimizedOS 7 2 1 3 ⟨[1, 2, 3], 5, 5, true, World.init⟩).dwm_fallback_h
          * 4 :=
  have h := (thumbnail_retry_policy minimizedOS 7 0 0 [] 0 0 World.init 2 1
    ⟨[1, 2, 3], 5, 5, true, World.init⟩).2.2 _ rfl (by decide)
  ⟨h.1, h.2.1⟩

/-- C23 (code defect). On a minimized window whose live-preview bitmap 21 converts,
`CaptureWindowBgra` passes that bitmap to `DeleteObject` twice although the compositor
handed it out once: the account of the call records a release of a bitmap that was not
held. -/
theorem CaptureWindowBgra_deletes_preview_twice :
    (CaptureWindowBgra minimizedOS 7 [] 0 0 World.init).ok = true ∧
    (CaptureWindowBgra minimizedOS 7 [] 0 0 World.init).world.trace.count
      (.DwmGetIconicLivePreviewBitmap 7 21) = 1 ∧
    (CaptureWindowBgra minimizedOS 7 [] 0 0 World.init).world.trace.count
      (.DeleteObject 21) = 2 ∧
    (account minimizedOS 0 ⟨[], []⟩
      (CaptureWindowBgra minimizedOS 7 [] 0 0 World.init).world.trace).stray =
        [.bitmap 21] := by
  decide

end FlutterWindow
